import Mathlib

/-!
# cc33xx command transport and status / event reader

A shallow embedding of the host-side control plane of the cc33xx driver
(`drivers/net/wireless/ti/cc33xx/cmd.c` and `main.c`).

* Memory is a list of bytes (`List Nat`, every read is taken `% 256`);
  a pointer into a buffer is an offset into the list and bytes outside the
  list read as `0`.  Pointer arithmetic is done in `Nat` (no wrap-around),
  `size_t` arithmetic is done modulo `2 ^ 64`.
* `int` results are `Int`; `-EIO` is `-5`, `-ENOMEM` is `-12`.
* The bus, the firmware and the kernel work-queues are the environment:
  what a bus transfer returns is an explicit argument, what the driver asks
  of the kernel (queued work, deferred events, completions) is recorded in
  the device state.
* Constants, enumerators and structure layouts that live in headers outside
  the two source files are collected in `Consts` and are a parameter of every
  function that uses them.
-/

namespace CC33xx

/-! ## Constants declared outside the source files -/

/-- The fields of `struct core_status` that the code reads or writes. -/
structure CoreStatus where
  block_pad : List Nat
  host_interrupt_status : Nat
  rx_status : Nat
  tx_result_queue_index : Nat
  tsf : Nat
deriving DecidableEq, Repr

/-- Enumerators, macros and structure layouts used by `cmd.c` and `main.c`
whose declarations are in headers (`cmd.h`, `cc33xx.h`, `io.h`, ...). -/
structure Consts where
  /-- first opcode that is not sent to the device -/
  CMD_LAST_SUPPORTED_COMMAND : Nat
  CMD_STATUS_SUCCESS : Nat
  MAX_COMMAND_STATUS : Nat
  CMD_EMPTY : Nat
  CMD_START_DHCP_MGMT_SEQ : Nat
  CMD_STOP_DHCP_MGMT_SEQ : Nat
  CMD_START_SECURITY_MGMT_SEQ : Nat
  CMD_STOP_SECURITY_MGMT_SEQ : Nat
  CMD_START_ARP_MGMT_SEQ : Nat
  CMD_STOP_ARP_MGMT_SEQ : Nat
  CMD_START_DNS_MGMT_SEQ : Nat
  CMD_STOP_DNS_MGMT_SEQ : Nat
  CMD_SEND_DEAUTH_DISASSOC : Nat
  CMD_SCHED_STATE_EVENT : Nat
  CMD_INTERROGATE : Nat
  CMD_DEBUG_READ : Nat
  CMD_TEST_MODE : Nat
  CMD_BM_READ_DEVICE_INFO : Nat
  /-- size of `struct NAB_header` -/
  sizeof_NAB_header : Nat
  /-- size of `struct cc33xx_cmd_header` -/
  sizeof_cmd_header : Nat
  /-- offset of `NAB_header.sync_pattern` in a command buffer -/
  off_sync_pattern : Nat
  /-- offset of `NAB_header.opcode` in a command buffer -/
  off_opcode : Nat
  /-- offset of `NAB_header.len` in a command buffer -/
  off_len : Nat
  /-- offset of `id` in `struct cc33xx_cmd_header` -/
  off_id : Nat
  /-- offset of `status` in `struct cc33xx_cmd_header` -/
  off_status : Nat
  HOST_SYNC_PATTERN : Nat
  DEVICE_SYNC_PATTERN : Nat
  CC33XX_CMD_BUFFER_SIZE : Nat
  CC33XX_BUS_BLOCK_SIZE : Nat
  CC33XX_CMD_MAX_SIZE : Nat
  NAB_EXTRA_BYTES : Nat
  CTRL_MSG_EVENT : Nat
  CTRL_MSG_COMMND_COMPLETE : Nat
  /-- size of the array `cc->command_result` -/
  sizeof_command_result : Nat
  HINT_COMMAND_COMPLETE : Nat
  HINT_NEW_TX_RESULT : Nat
  BOOT_TIME_INTERRUPTS : Nat
  HINT_GENERAL_ERROR : Nat
  RX_BYTE_COUNT_MASK : Nat
  /-- size of `struct core_status` -/
  sizeof_core_status : Nat
  /-- the layout of `struct core_status`: the view of `sizeof_core_status`
  raw bytes as a status block -/
  core_status_of_bytes : List Nat → CoreStatus

/-- Linux `EIO`. -/
def EIO : Int := 5

/-- Linux `ENOMEM`. -/
def ENOMEM : Int := 12

/-! ## Bytes -/

/-- The byte at offset `p`. -/
def byte_at (mem : List Nat) (p : Nat) : Nat := mem.getD p 0 % 256

/-- The `n` bytes starting at offset `p`. -/
def bytes (mem : List Nat) (p n : Nat) : List Nat :=
  (List.range n).map (fun i => byte_at mem (p + i))

/-- Value `le16_to_cpu` of the two bytes at offset `p`. -/
def le16_at (mem : List Nat) (p : Nat) : Nat :=
  byte_at mem p + 256 * byte_at mem (p + 1)

/-- Value `le32_to_cpu` of the four bytes at offset `p`. -/
def le32_at (mem : List Nat) (p : Nat) : Nat :=
  byte_at mem p + 256 * byte_at mem (p + 1) + 65536 * byte_at mem (p + 2)
    + 16777216 * byte_at mem (p + 3)

/-- Store of a `__le16` at offset `p`. -/
def put_le16 (mem : List Nat) (p v : Nat) : List Nat :=
  (mem.set p (v % 256)).set (p + 1) (v / 256 % 256)

/-- Store of a `__le32` at offset `p`. -/
def put_le32 (mem : List Nat) (p v : Nat) : List Nat :=
  (((mem.set p (v % 256)).set (p + 1) (v / 256 % 256)).set (p + 2)
    (v / 65536 % 256)).set (p + 3) (v / 16777216 % 256)

/-- The copy `memcpy(dst + off, data, data.length)`. -/
def mem_write (dst : List Nat) (off : Nat) (data : List Nat) : List Nat :=
  dst.take off ++ data ++ dst.drop (off + data.length)

/-- Subtraction `a - b` in `size_t`. -/
def size_sub (a b : Int) : Nat := ((a - b) % (2 ^ 64 : Int)).toNat

/-- The kernel macro `__ALIGN_MASK(x, mask)`, `((x) + (mask)) & ~(mask)`. -/
def ALIGN_MASK (x mask : Nat) : Nat := (x + mask) - ((x + mask) &&& mask)

/-! ## Device state -/

/-- The values of `enum cc33xx_state`. -/
inductive DevState where
  | CC33XX_STATE_OFF
  | CC33XX_STATE_RESTARTING
  | CC33XX_STATE_ON
deriving DecidableEq, Repr

/-- The bits of `cc->flags` used by the modelled code. -/
structure Flags where
  CC33XX_FLAG_SUSPENDED : Bool
  CC33XX_FLAG_PENDING_WORK : Bool
  CC33XX_FLAG_RECOVERY_IN_PROGRESS : Bool
deriving DecidableEq, Repr

/-- The part of `struct cc33xx` used by the command transport and by the
status and event reader, together with the record of what the driver asked of
its collaborators. -/
structure Cc where
  state : DevState
  flags : Flags
  max_cmd_size : Nat
  cmd_buf : List Nat
  /-- the array `cc->command_result` -/
  command_result : List Nat
  /-- the field `cc->result_length` -/
  result_length : Nat
  /-- the `done` counter of `cc->command_complete` -/
  command_complete : Nat
  /-- the block `*cc->core_status` -/
  core_status : CoreStatus
  last_fw_rls_idx : Nat
  /-- buffers written with `cc33xx_write`, oldest first -/
  bus_writes : List (List Nat)
  /-- payloads handed to `deffer_event`, oldest first -/
  deferred_events : List (List Nat)
  /-- number of `queue_work(cc->freezable_wq, &cc->irq_deferred_work)` -/
  irq_deferred_work : Nat
  /-- number of `ieee80211_queue_work(cc->hw, &cc->recovery_work)` -/
  recovery_work : Nat
  /-- arguments of the calls of `cc33xx_handle_boot_irqs` -/
  boot_irqs : List Nat
  /-- number of `cc33xx_disable_interrupts_nosync` -/
  interrupts_disabled : Nat
  /-- number of `pm_wakeup_hard_event` -/
  wakeup_events : Nat
deriving DecidableEq, Repr

/-- What the bus and the firmware do during one `__cc33xx_cmd_send`. -/
structure CmdEnv where
  /-- return value of `cc33xx_write` -/
  write_ret : Int
  /-- return value of `wait_for_completion_timeout`: `0` on timeout,
  otherwise the remaining jiffies -/
  wait_ret : Int
  /-- the array `cc->command_result` as the reader left it when the wait returns -/
  command_result : List Nat
  /-- the field `cc->result_length` as the reader left it when the wait returns -/
  result_length : Nat
deriving DecidableEq, Repr

/-! ## Recovery trigger (`main.c`) -/

/-- Function `cc33xx_queue_recovery_work`. -/
def cc33xx_queue_recovery_work (cc : Cc) : Cc :=
  if cc.state = DevState.CC33XX_STATE_ON then
    { cc with
      state := DevState.CC33XX_STATE_RESTARTING
      flags := { cc.flags with CC33XX_FLAG_RECOVERY_IN_PROGRESS := true }
      recovery_work := cc.recovery_work + 1 }
  else cc

/-! ## Command transport (`cmd.c`) -/

/-- Function `init_cmd_header`. -/
def init_cmd_header (K : Consts) (buf : List Nat) (cmd_len id : Nat) : List Nat :=
  let b1 := put_le16 buf K.off_len (cmd_len % 65536)
  let b2 := put_le32 b1 K.off_sync_pattern K.HOST_SYNC_PATTERN
  put_le16 b2 K.off_opcode id

/-- Function `send_buffer`: the state after the copy into `cc->cmd_buf` and the bus
write; the return value of `cc33xx_write` is `write_ret`. -/
def send_buffer (K : Consts) (write_ret : Int) (cc : Cc) (buf : List Nat)
    (len : Nat) : Int × Cc :=
  let cmd_buf1 := mem_write cc.cmd_buf 0 (bytes buf 0 len)
  let cmd_buf2 := mem_write cmd_buf1 len
    (List.replicate (size_sub K.CC33XX_CMD_BUFFER_SIZE len) 0)
  let max_cmd_size_align := ALIGN_MASK cc.max_cmd_size (K.CC33XX_BUS_BLOCK_SIZE * 2 - 1)
  (write_ret,
    { cc with
      cmd_buf := cmd_buf2
      bus_writes := cc.bus_writes ++ [bytes cmd_buf2 0 max_cmd_size_align] })

/-- Function `__cc33xx_cmd_send`: return value, device state and caller's buffer. -/
def __cc33xx_cmd_send (K : Consts) (env : CmdEnv) (cc : Cc) (id : Nat)
    (buf : List Nat) (len res_len : Nat) (sync : Bool) : Int × Cc × List Nat :=
  if id ≥ K.CMD_LAST_SUPPORTED_COMMAND then
    ((K.CMD_STATUS_SUCCESS : Int), cc, buf)
  else if len < K.sizeof_cmd_header ∨ len > cc.max_cmd_size ∨ len % 4 ≠ 0 then
    (- EIO, cc, buf)
  else
    let buf1 := put_le16 buf K.off_id id
    let buf2 := put_le16 buf1 K.off_status 0
    let buf3 := init_cmd_header K buf2 len id
    let cc1 := { cc with command_complete := 0 }
    let (ret, cc2) := send_buffer K env.write_ret cc1 buf3 len
    if ret < 0 then (ret, cc2, buf3)
    else if !sync then ((K.CMD_STATUS_SUCCESS : Int), cc2, buf3)
    else
      let cc3 := { cc2 with
        command_result := env.command_result
        result_length := env.result_length }
      if env.wait_ret < 1 then (- EIO, cc3, buf3)
      else if id = K.CMD_INTERROGATE ∨ id = K.CMD_DEBUG_READ ∨ id = K.CMD_TEST_MODE
          ∨ id = K.CMD_BM_READ_DEVICE_INFO then
        if res_len = 0 then ((K.CMD_STATUS_SUCCESS : Int), cc3, buf3)
        else if cc3.result_length > res_len then
          ((K.CMD_STATUS_SUCCESS : Int), cc3, buf3)
        else
          ((K.CMD_STATUS_SUCCESS : Int), cc3,
            mem_write buf3 K.sizeof_NAB_header
              (bytes cc3.command_result 0 cc3.result_length))
      else ((K.CMD_STATUS_SUCCESS : Int), cc3, buf3)

/-- Macro `test_bit(nr, &word)` on one `unsigned long`. -/
def test_bit (nr word : Nat) : Bool := Nat.testBit word nr

/-- The part of `cc33xx_cmd_send_failsafe` after the call of
`__cc33xx_cmd_send`: `ret` is what that call returned and `cc` the state it
left. -/
def cc33xx_cmd_send_failsafe_ret (K : Consts) (cc : Cc) (ret : Int)
    (valid_rets : Nat) : Int × Cc :=
  if ret < 0 then (ret, cc33xx_queue_recovery_work cc)
  else
    let valid_rets1 := (valid_rets ||| (1 <<< K.CMD_STATUS_SUCCESS)) % 2 ^ 64
    if ret ≥ (K.MAX_COMMAND_STATUS : Int) ∨ !test_bit ret.toNat valid_rets1 then
      (- EIO, cc)
    else (ret, cc)

/-- Function `cc33xx_cmd_send_failsafe`. -/
def cc33xx_cmd_send_failsafe (K : Consts) (env : CmdEnv) (cc : Cc) (id : Nat)
    (buf : List Nat) (len res_len valid_rets : Nat) : Int × Cc × List Nat :=
  let r := __cc33xx_cmd_send K env cc id buf len res_len true
  let q := cc33xx_cmd_send_failsafe_ret K r.2.1 r.1 valid_rets
  (q.1, q.2, r.2.2)

/-- The opcodes that `cc33xx_cmd_send` answers itself. -/
def locally_intercepted (K : Consts) (id : Nat) : Bool :=
  decide (id = K.CMD_EMPTY ∨ id = K.CMD_START_DHCP_MGMT_SEQ
    ∨ id = K.CMD_STOP_DHCP_MGMT_SEQ ∨ id = K.CMD_START_SECURITY_MGMT_SEQ
    ∨ id = K.CMD_STOP_SECURITY_MGMT_SEQ ∨ id = K.CMD_START_ARP_MGMT_SEQ
    ∨ id = K.CMD_STOP_ARP_MGMT_SEQ ∨ id = K.CMD_START_DNS_MGMT_SEQ
    ∨ id = K.CMD_STOP_DNS_MGMT_SEQ ∨ id = K.CMD_SEND_DEAUTH_DISASSOC
    ∨ id = K.CMD_SCHED_STATE_EVENT)

/-- Function `cc33xx_cmd_send`. -/
def cc33xx_cmd_send (K : Consts) (env : CmdEnv) (cc : Cc) (id : Nat)
    (buf : List Nat) (len res_len : Nat) : Int × Cc × List Nat :=
  if locally_intercepted K id then (0, cc, buf)
  else if id ≥ K.CMD_LAST_SUPPORTED_COMMAND then (0, cc, buf)
  else
    let r := cc33xx_cmd_send_failsafe K env cc id buf len res_len 0
    if r.1 < 0 then r else (0, r.2.1, r.2.2)

/-! ## Status and event reader (`main.c`) -/

/-- Size of `struct control_info_descriptor`, one `__le16 type_and_length`. -/
def sizeof_descriptor : Nat := 2

/-- The macro `CTRL_TYPE_BITS`. -/
def CTRL_TYPE_BITS : Nat := 4

/-- Function `get_type` of the descriptor at offset `p`; the mask is
`GENMASK(CTRL_TYPE_BITS - 1, 0)`. -/
def get_type (mem : List Nat) (p : Nat) : Nat :=
  le16_at mem p &&& (2 ^ CTRL_TYPE_BITS - 1)

/-- Function `get_length` of the descriptor at offset `p`. -/
def get_length (mem : List Nat) (p : Nat) : Nat :=
  le16_at mem p >>> CTRL_TYPE_BITS

/-- The external `deffer_event(cc, event_data, len)`: the payload is recorded. -/
def deffer_event (cc : Cc) (event_data : List Nat) : Cc :=
  { cc with deferred_events := cc.deferred_events ++ [event_data] }

/-- The `CTRL_MSG_COMMND_COMPLETE` case of `parse_control_message` once the
length is accepted: copy to `cc->command_result`, set `cc->result_length`,
`complete(&cc->command_complete)`. -/
def store_command_result (cc : Cc) (cmd_result_data : List Nat) : Cc :=
  { cc with
    command_result := mem_write cc.command_result 0 cmd_result_data
    result_length := cmd_result_data.length
    command_complete := cc.command_complete + 1 }

/-- The loop of `parse_control_message`: `buffer` is the offset of the current
record in `mem`, `end_of_payload` the offset where the payload ends.  The first
argument bounds the number of passes; `none` means the bound was too small. -/
def parse_loop (K : Consts) (mem : List Nat) (end_of_payload : Nat) :
    Nat → Nat → Cc → Option (Int × Cc)
  | 0, buffer, cc => if buffer < end_of_payload then none else some (0, cc)
  | fuel + 1, buffer, cc =>
    if buffer < end_of_payload then
      let ctrl_info_type := get_type mem buffer
      let ctrl_info_length := get_length mem buffer
      if ctrl_info_type = K.CTRL_MSG_EVENT then
        parse_loop K mem end_of_payload fuel
          (buffer + sizeof_descriptor + ctrl_info_length)
          (deffer_event cc (bytes mem (buffer + sizeof_descriptor) ctrl_info_length))
      else if ctrl_info_type = K.CTRL_MSG_COMMND_COMPLETE then
        if ctrl_info_length > K.sizeof_command_result then some (- EIO, cc)
        else
          parse_loop K mem end_of_payload fuel
            (buffer + sizeof_descriptor + ctrl_info_length)
            (store_command_result cc
              (bytes mem (buffer + sizeof_descriptor) ctrl_info_length))
      else some (- EIO, cc)
    else some (0, cc)

/-- Function `parse_control_message` on the `buffer_length` bytes at offset
`buffer` of `mem`.  Every pass of the loop advances by at least the size of a
descriptor, so `buffer_length` passes are enough. -/
def parse_control_message (K : Consts) (cc : Cc) (mem : List Nat)
    (buffer buffer_length : Nat) : Option (Int × Cc) :=
  parse_loop K mem (buffer + buffer_length) buffer_length buffer cc

/-- One transfer of `cc33xx_raw_read`: its return value and the bytes it left
in the destination buffer. -/
structure BusRead where
  ret : Int
  data : List Nat
deriving DecidableEq, Repr

/-- Function `read_control_message`; `rd` is the transfer from
`NAB_CONTROL_ADDR` into `read_buffer`. -/
def read_control_message (K : Consts) (rd : BusRead) (buffer_size : Nat) : Int :=
  if rd.ret < 0 then rd.ret
  else if le32_at rd.data K.off_sync_pattern ≠ K.DEVICE_SYNC_PATTERN then - EIO
  else
    let device_message_size :=
      K.sizeof_NAB_header + K.NAB_EXTRA_BYTES + le16_at rd.data K.off_len
    if device_message_size > buffer_size then - EIO
    else (le16_at rd.data K.off_len : Int)

/-- The length `message_length = ret - NAB_EXTRA_BYTES` that
`process_event_and_cmd_result` passes to `parse_control_message`. -/
def message_length (K : Consts) (ret : Int) : Nat :=
  size_sub ret K.NAB_EXTRA_BYTES

/-- The offset of `message` in `read_buffer`. -/
def message_offset (K : Consts) : Nat :=
  K.sizeof_NAB_header + K.NAB_EXTRA_BYTES

/-- One control read as `process_event_and_cmd_result` sees it: whether
`kmalloc` gave a buffer, and the bus transfer into it. -/
structure CtrlRead where
  alloc_ok : Bool
  rd : BusRead
deriving DecidableEq, Repr

/-- Function `process_event_and_cmd_result`, on `cc->core_status`. -/
def process_event_and_cmd_result (K : Consts) (r : CtrlRead) (cc : Cc) :
    Option (Int × Cc) :=
  let buffer_size := K.CC33XX_CMD_MAX_SIZE
  if !r.alloc_ok then some (- ENOMEM, cc)
  else
    let ret := read_control_message K r.rd buffer_size
    if ret < 0 then some (ret, cc)
    else
      match parse_control_message K cc r.rd.data (message_offset K)
          (message_length K ret) with
      | none => none
      | some (ret1, cc1) =>
        if ret1 < 0 then some (ret1, cc1)
        else
          let previous_hint := cc1.core_status.host_interrupt_status
          let new_core_status := K.core_status_of_bytes
            (bytes r.rd.data (buffer_size - K.sizeof_core_status) K.sizeof_core_status)
          some (ret1, { cc1 with core_status :=
            { new_core_status with host_interrupt_status :=
                new_core_status.host_interrupt_status ||| previous_hint } })

/-- The loop of `verify_padding` over `block_pad`. -/
def verify_padding_loop : List Nat → Int
  | [] => 0
  | w :: ws => if w ≠ 0x55555555 then -1 else verify_padding_loop ws

/-- Function `verify_padding`. -/
def verify_padding (core_status : CoreStatus) : Int :=
  verify_padding_loop core_status.block_pad

/-- The block left by `memset(core_status, 0, sizeof(*core_status))`. -/
def zero_core_status (core_status : CoreStatus) : CoreStatus :=
  { block_pad := List.replicate core_status.block_pad.length 0
    host_interrupt_status := 0
    rx_status := 0
    tx_result_queue_index := 0
    tsf := 0 }

/-- Call of `queue_work(cc->freezable_wq, &cc->irq_deferred_work)`. -/
def queue_irq_deferred_work (cc : Cc) : Cc :=
  { cc with irq_deferred_work := cc.irq_deferred_work + 1 }

/-- The statements of one pass of the loop of `process_core_status` that follow
the handling of `HINT_COMMAND_COMPLETE`. -/
def process_core_status_rest (K : Consts) (shadow_host_interrupt_status : Nat)
    (cc : Cc) : Cc :=
  let cc1 := if cc.core_status.rx_status &&& K.RX_BYTE_COUNT_MASK ≠ 0
    then queue_irq_deferred_work cc else cc
  let cc2 := if cc1.core_status.tx_result_queue_index ≠ cc1.last_fw_rls_idx
    then queue_irq_deferred_work cc1 else cc1
  let cc3 := if shadow_host_interrupt_status &&& K.HINT_NEW_TX_RESULT ≠ 0
    then queue_irq_deferred_work cc2 else cc2
  let cc4 := if shadow_host_interrupt_status &&& K.BOOT_TIME_INTERRUPTS ≠ 0
    then { cc3 with boot_irqs := cc3.boot_irqs ++ [shadow_host_interrupt_status] }
    else cc3
  if shadow_host_interrupt_status &&& K.HINT_GENERAL_ERROR ≠ 0
    then cc33xx_queue_recovery_work cc4 else cc4

/-- Function `process_core_status` on `cc->core_status`.  The list holds the
control reads the bus will answer, in order; every pass that goes round the
loop again uses one, and `none` means the list was too short. -/
def process_core_status (K : Consts) : List CtrlRead → Cc → Option (Int × Cc)
  | reads, cc =>
    let shadow_host_interrupt_status := cc.core_status.host_interrupt_status
    let cc0 := { cc with core_status :=
      { cc.core_status with host_interrupt_status := 0 } }
    if shadow_host_interrupt_status &&& K.HINT_COMMAND_COMPLETE ≠ 0 then
      match reads with
      | [] => none
      | r :: rest =>
        match process_event_and_cmd_result K r cc0 with
        | none => none
        | some (ret, cc1) =>
          if ret < 0 then
            some (ret, { cc1 with core_status := zero_core_status cc1.core_status })
          else
            process_core_status K rest
              (process_core_status_rest K shadow_host_interrupt_status cc1)
    else
      some (0, process_core_status_rest K shadow_host_interrupt_status cc0)

/-- Function `cc33xx_irq`: `status` is the transfer of `read_core_status`
(its bytes are what the transfer left in `*cc->core_status`, also when it
failed), `reads` the control reads that follow. -/
def cc33xx_irq (K : Consts) (status : BusRead) (reads : List CtrlRead) (cc : Cc) :
    Option Cc :=
  if cc.flags.CC33XX_FLAG_SUSPENDED then
    some { cc with
      flags := { cc.flags with CC33XX_FLAG_PENDING_WORK := true }
      interrupts_disabled := cc.interrupts_disabled + 1
      wakeup_events := cc.wakeup_events + 1 }
  else
    let cc1 := { cc with core_status := K.core_status_of_bytes status.data }
    if status.ret < 0 then some (cc33xx_queue_recovery_work cc1)
    else if verify_padding cc1.core_status < 0 then
      some (cc33xx_queue_recovery_work cc1)
    else (process_core_status K reads cc1).map (fun r => r.2)

/-! ## Reading of the control-message format -/

/-- One record of a control message: the 4-bit type and the 12-bit length of
its descriptor, and the `length` bytes of payload that follow the descriptor. -/
structure CtrlRecord where
  type : Nat
  length : Nat
  payload : List Nat
deriving DecidableEq, Repr

/-- The record whose 16-bit little-endian descriptor is at offset `p`:
type in the low 4 bits, length in the upper 12 bits. -/
def record_at (mem : List Nat) (p : Nat) : CtrlRecord :=
  let descriptor := le16_at mem p
  { type := descriptor % 16
    length := descriptor / 16
    payload := bytes mem (p + 2) (descriptor / 16) }

/-- The records met when walking from offset `p` while the offset is before
`end_of_payload`; each record is followed by the next one.  The first argument
bounds the number of records. -/
def records_from (mem : List Nat) (end_of_payload : Nat) : Nat → Nat → List CtrlRecord
  | 0, _ => []
  | fuel + 1, p =>
    if p < end_of_payload then
      record_at mem p ::
        records_from mem end_of_payload fuel (p + 2 + (record_at mem p).length)
    else []

/-- The records of the control message that occupies `buffer_length` bytes at
offset `buffer`. -/
def stream_records (mem : List Nat) (buffer buffer_length : Nat) : List CtrlRecord :=
  records_from mem (buffer + buffer_length) buffer_length buffer

/-- A record is an event. -/
def is_event (K : Consts) (r : CtrlRecord) : Bool :=
  decide (r.type = K.CTRL_MSG_EVENT)

/-- A record is a command completion. -/
def is_command_complete (K : Consts) (r : CtrlRecord) : Bool :=
  decide (r.type = K.CTRL_MSG_COMMND_COMPLETE)

/-- A malformed record: the type is neither event nor command completion, or
it is a command completion longer than the result buffer. -/
def malformed (K : Consts) (r : CtrlRecord) : Bool :=
  decide ((r.type ≠ K.CTRL_MSG_EVENT ∧ r.type ≠ K.CTRL_MSG_COMMND_COMPLETE)
    ∨ (r.type = K.CTRL_MSG_COMMND_COMPLETE ∧ r.length > K.sizeof_command_result))

/-- What a well-formed record does to the device state: an event is deferred,
a command completion is stored and the waiter is signalled. -/
def dispatch (K : Consts) (cc : Cc) (r : CtrlRecord) : Cc :=
  if r.type = K.CTRL_MSG_EVENT then deffer_event cc r.payload
  else store_command_result cc r.payload

/-- The caller's buffer after `__cc33xx_cmd_send` has stamped the command
header (`cmd->id`, `cmd->status`, `init_cmd_header`). -/
def stamped (K : Consts) (buf : List Nat) (len id : Nat) : List Nat :=
  init_cmd_header K (put_le16 (put_le16 buf K.off_id id) K.off_status 0) len id

/-! ## Link and role registry (`cmd.c`) and teardown (`main.c`)

Arrays indexed by a link id, a role id or an interface are functions on `Nat`;
a bitmap is a `Nat`.  An interface (`struct cc33xx_vif *`) is named by its
index.  Constants and layouts from headers are collected in `RegConsts`. -/

/-- Linux `EBUSY`. -/
def EBUSY : Int := 16

/-- Linux `EINVAL`. -/
def EINVAL : Int := 22

/-- Enumerators, macros and structure layouts used by the registry code whose
declarations are in headers. -/
structure RegConsts where
  CC33XX_ROLE_DEVICE : Nat
  CC33XX_INVALID_ROLE_ID : Nat
  CC33XX_INVALID_LINK_ID : Nat
  CC33XX_SYSTEM_HLID : Nat
  BSS_TYPE_AP_BSS : Nat
  KEY_GEM : Nat
  CC33XX_TX_SQN_POST_RECOVERY_PADDING : Nat
  CC33XX_TX_SQN_POST_RECOVERY_PADDING_GEM : Nat
  CMD_ROLE_ENABLE : Nat
  CMD_ROLE_START : Nat
  /-- size of `struct cc33xx_cmd_role_enable` -/
  sizeof_cmd_role_enable : Nat
  /-- size of `struct cc33xx_cmd_role_start` -/
  sizeof_cmd_role_start : Nat
  /-- the layout of `struct cc33xx_cmd_role_enable`: the zeroed structure with
  `mac_address` and `role_type` stored -/
  cmd_role_enable_bytes : List Nat → Nat → List Nat
  /-- the field `role_id` of `struct cc33xx_cmd_complete_role_enable` -/
  complete_role_id : List Nat → Nat
  /-- the field `ap.global_hlid` of `struct cc33xx_cmd_complete_role_start` -/
  complete_ap_global_hlid : List Nat → Nat
  /-- the field `ap.broadcast_hlid` of `struct cc33xx_cmd_complete_role_start` -/
  complete_ap_broadcast_hlid : List Nat → Nat
  /-- the field `ap.global_session_id` of `struct cc33xx_cmd_complete_role_start` -/
  complete_ap_global_session_id : List Nat → Nat
  /-- the field `ap.bcast_session_id` of `struct cc33xx_cmd_complete_role_start` -/
  complete_ap_bcast_session_id : List Nat → Nat
  NL80211_BAND_2GHZ : Nat
  CC33XX_MAX_TXPWR : Nat
  CC33XX_PSM_ILLEGAL : Nat

/-- Array store `a[i] = v`. -/
def upd {α : Type} (a : Nat → α) (i : Nat) (v : α) : Nat → α :=
  fun j => if j = i then v else a j

/-- The kernel `__set_bit(nr, map)`. -/
def set_bit (nr map : Nat) : Nat := map ||| (1 <<< nr)

/-- The kernel `__clear_bit(nr, map)`. -/
def clear_bit (nr map : Nat) : Nat := map ^^^ (map &&& (1 <<< nr))

/-- One entry of `cc->links[]` (`struct cc33xx_link`). -/
structure Link where
  /-- the owner `wlvif`, `none` for `NULL` -/
  wlvif : Option Nat
  allocated_pkts : Nat
  prev_freed_pkts : Nat
  total_freed_pkts : Nat
  ba_bitmap : Nat
  addr : List Nat
  /-- the queued packets, one queue per access category -/
  tx_queue : List (List Nat)
deriving DecidableEq, Repr

/-- The fields of `struct cc33xx_vif` used by the registry code. -/
structure Vif where
  bss_type : Nat
  role_id : Nat
  links_map : Nat
  total_freed_pkts : Nat
  encryption_type : Nat
  ssid_len : Nat
  ap_bcast_hlid : Nat
  ap_global_hlid : Nat
deriving DecidableEq, Repr

/-- The device: the transport part `cc`, the interfaces, and the registry
fields of `struct cc33xx`, together with the record of calls to collaborators. -/
structure Dev where
  cc : Cc
  vifs : Nat → Vif
  roles_map : Nat
  links_map : Nat
  roc_map : Nat
  links : Nat → Link
  session_ids : Nat → Nat
  active_link_count : Int
  active_sta_count : Int
  band : Nat
  rx_counter : Nat
  power_level : Nat
  tx_blocks_available : Nat
  tx_allocated_blocks : Nat
  ap_fw_ps_map : Nat
  ap_ps_map : Nat
  sleep_auth : Nat
  rx_filter_enabled : Nat → Bool
  ble_enable : Nat
  tx_allocated_pkts : Nat → Nat
  /-- whether `cc->target_mem_map` points to an allocation -/
  target_mem_map : Bool
  reg_ch_conf_pending : Nat
  reg_ch_conf_last : Nat
  /-- number of `cc33xx_enable_interrupts` -/
  interrupts_enabled : Nat
  /-- number of `cc33xx_power_off` -/
  power_off : Nat

/-- The loop of `cc33xx_count_role_set_bits`; an `unsigned long` is shifted
out after 64 passes. -/
def count_role_set_bits_loop : Nat → Nat → Int → Int
  | 0, _, count => count
  | fuel + 1, role_map, count =>
    if role_map ≠ 0 then
      count_role_set_bits_loop fuel (role_map >>> 1) (count + ((role_map &&& 1 : Nat) : Int))
    else count

/-- Function `cc33xx_count_role_set_bits` on an `unsigned long`. -/
def cc33xx_count_role_set_bits (role_map : Nat) : Int :=
  let role_map1 := role_map &&& (2 ^ 64 - 1 - (1 <<< 2))
  count_role_set_bits_loop 64 role_map1 0

/-- Function `cc33xx_cmd_role_enable`: return value, device and `*role_id`.
`alloc_ok` tells whether `kzalloc` gave the command buffer. -/
def cc33xx_cmd_role_enable (K : Consts) (R : RegConsts) (env : CmdEnv) (alloc_ok : Bool)
    (d : Dev) (addr : List Nat) (role_type role_id : Nat) : Int × Dev × Nat :=
  let role_count := d.roles_map % 2 ^ 64
  let ret := cc33xx_count_role_set_bits role_count
  if ret ≥ 2 ∧ role_type ≠ R.CC33XX_ROLE_DEVICE then (- EBUSY, d, role_id)
  else if role_id ≠ R.CC33XX_INVALID_ROLE_ID then (- EBUSY, d, role_id)
  else if !alloc_ok then (- ENOMEM, d, role_id)
  else
    let cmd := R.cmd_role_enable_bytes addr role_type
    let r := cc33xx_cmd_send K env d.cc R.CMD_ROLE_ENABLE cmd R.sizeof_cmd_role_enable 0
    if r.1 < 0 then (r.1, { d with cc := r.2.1 }, role_id)
    else
      let complete_role_id := R.complete_role_id r.2.1.command_result
      (r.1,
        { d with cc := r.2.1, roles_map := set_bit complete_role_id d.roles_map },
        complete_role_id)

/-- Function `cc33xx_set_link`. -/
def cc33xx_set_link (R : RegConsts) (d : Dev) (wlvif link : Nat) : Int × Dev :=
  let v := d.vifs wlvif
  let v1 := { v with links_map := set_bit link v.links_map }
  let d1 := { d with links_map := set_bit link d.links_map, vifs := upd d.vifs wlvif v1 }
  let d2 := { d1 with links := upd d1.links link { (d1.links link) with wlvif := some wlvif } }
  let d3 := if v1.bss_type ≠ R.BSS_TYPE_AP_BSS then
      { d2 with links := (upd d2.links link
          { (d2.links link) with total_freed_pkts := v1.total_freed_pkts }) }
    else d2
  (0, { d3 with active_link_count := d3.active_link_count + 1 })

/-- Modelled from the spec: `cc33xx_tx_reset_link_queues` (in `tx.c`) purges all
queued-but-unsent packets of the link. -/
def cc33xx_tx_reset_link_queues (d : Dev) (hlid : Nat) : Dev :=
  { d with links := (upd d.links hlid
      { (d.links hlid) with tx_queue := (d.links hlid).tx_queue.map (fun _ => []) }) }

/-- Function `cc33xx_clear_link`: the device afterwards and the value left in
`*hlid`; a caller that passed the address of an interface field stores that
value back into the field. -/
def cc33xx_clear_link (R : RegConsts) (d : Dev) (wlvif hlid : Nat) : Dev × Nat :=
  if hlid = R.CC33XX_INVALID_LINK_ID then (d, hlid)
  else
    let v := d.vifs wlvif
    let v1 := { v with links_map := clear_bit hlid v.links_map }
    let d1 := { d with links_map := clear_bit hlid d.links_map, vifs := upd d.vifs wlvif v1 }
    let d2 := { d1 with links := (upd d1.links hlid
      { (d1.links hlid) with prev_freed_pkts := 0, ba_bitmap := 0,
                             addr := List.replicate 6 0 }) }
    let d3 := cc33xx_tx_reset_link_queues d2 hlid
    let d4 := { d3 with links := upd d3.links hlid { (d3.links hlid) with wlvif := none } }
    let d5 :=
      if v1.bss_type = R.BSS_TYPE_AP_BSS ∧ hlid = v1.ap_bcast_hlid then
        let sqn_padding :=
          if v1.encryption_type = R.KEY_GEM then R.CC33XX_TX_SQN_POST_RECOVERY_PADDING_GEM
          else R.CC33XX_TX_SQN_POST_RECOVERY_PADDING
        let saved := (d4.links hlid).total_freed_pkts
        let carried :=
          if d4.cc.flags.CC33XX_FLAG_RECOVERY_IN_PROGRESS then (saved + sqn_padding) % 2 ^ 64
          else saved
        { d4 with vifs := upd d4.vifs wlvif { v1 with total_freed_pkts := carried } }
      else d4
    let d6 := { d5 with links := (upd d5.links hlid
      { (d5.links hlid) with total_freed_pkts := 0 }) }
    ({ d6 with active_link_count := d6.active_link_count - 1 }, R.CC33XX_INVALID_LINK_ID)

/-- The call `cc33xx_clear_link(cc, wlvif, &wlvif->ap.bcast_hlid)`. -/
def clear_link_ap_bcast (R : RegConsts) (d : Dev) (wlvif : Nat) : Dev :=
  let r := cc33xx_clear_link R d wlvif (d.vifs wlvif).ap_bcast_hlid
  { r.1 with vifs := upd r.1.vifs wlvif { (r.1.vifs wlvif) with ap_bcast_hlid := r.2 } }

/-- The call `cc33xx_clear_link(cc, wlvif, &wlvif->ap.global_hlid)`. -/
def clear_link_ap_global (R : RegConsts) (d : Dev) (wlvif : Nat) : Dev :=
  let r := cc33xx_clear_link R d wlvif (d.vifs wlvif).ap_global_hlid
  { r.1 with vifs := upd r.1.vifs wlvif { (r.1.vifs wlvif) with ap_global_hlid := r.2 } }

/-- Function `cc33xx_cmd_role_start_ap`.  `cmd` is the command structure as the
function fills it in, `is_mesh` and `hidden_ssid` are what the interface
configuration says, `alloc_ok` whether `kzalloc` gave the buffer. -/
def cc33xx_cmd_role_start_ap (K : Consts) (R : RegConsts) (env : CmdEnv)
    (alloc_ok is_mesh hidden_ssid : Bool) (cmd : List Nat) (d : Dev) (wlvif : Nat) :
    Int × Dev :=
  if !is_mesh ∧ (d.vifs wlvif).ssid_len = 0 ∧ !hidden_ssid then (- EINVAL, d)
  else if !alloc_ok then (- ENOMEM, d)
  else
    let r := cc33xx_cmd_send K env d.cc R.CMD_ROLE_START cmd R.sizeof_cmd_role_start 0
    let d1 := { d with cc := r.2.1 }
    if r.1 < 0 then
      (r.1, clear_link_ap_global R (clear_link_ap_bcast R d1 wlvif) wlvif)
    else
      let global_hlid := R.complete_ap_global_hlid d1.cc.command_result
      let bcast_hlid := R.complete_ap_broadcast_hlid d1.cc.command_result
      let d2 := { d1 with vifs := (upd d1.vifs wlvif
        { (d1.vifs wlvif) with ap_global_hlid := global_hlid, ap_bcast_hlid := bcast_hlid }) }
      let d3 := { d2 with session_ids := (upd d2.session_ids global_hlid
        (R.complete_ap_global_session_id d2.cc.command_result)) }
      let d4 := { d3 with session_ids := (upd d3.session_ids bcast_hlid
        (R.complete_ap_bcast_session_id d3.cc.command_result)) }
      let s1 := cc33xx_set_link R d4 wlvif global_hlid
      cc33xx_set_link R s1.2 wlvif bcast_hlid

/-- Modelled from the spec: `cc33xx_tx_reset` (in `tx.c`) purges the queued
packets of every link. -/
def cc33xx_tx_reset (d : Dev) : Dev :=
  { d with links := (fun h =>
      { (d.links h) with tx_queue := (d.links h).tx_queue.map (fun _ => []) }) }

/-- Function `cc33xx_turn_off`.  Cancelling and flushing work items is left to
the kernel and not recorded. -/
def cc33xx_turn_off (R : RegConsts) (d : Dev) : Dev :=
  if d.cc.state = DevState.CC33XX_STATE_OFF then
    if d.cc.flags.CC33XX_FLAG_RECOVERY_IN_PROGRESS then
      { d with
        cc := { d.cc with flags :=
          ({ d.cc.flags with CC33XX_FLAG_RECOVERY_IN_PROGRESS := false }) }
        interrupts_enabled := d.interrupts_enabled + 1 }
    else d
  else
    let d1 := { d with cc := { d.cc with
      state := DevState.CC33XX_STATE_OFF
      interrupts_disabled := d.cc.interrupts_disabled + 1 } }
    let d2 := cc33xx_tx_reset d1
    let d3 := { d2 with power_off := d2.power_off + 1 }
    let d4 := { d3 with
      band := R.NL80211_BAND_2GHZ
      rx_counter := 0
      power_level := R.CC33XX_MAX_TXPWR
      tx_blocks_available := 0
      tx_allocated_blocks := 0
      ap_fw_ps_map := 0
      ap_ps_map := 0
      sleep_auth := R.CC33XX_PSM_ILLEGAL
      roles_map := 0
      links_map := 0
      roc_map := 0
      session_ids := fun _ => 0
      rx_filter_enabled := fun _ => false
      active_sta_count := 0
      active_link_count := 0
      ble_enable := 0 }
    let d5 := { d4 with
      links := (upd d4.links R.CC33XX_SYSTEM_HLID
        { (d4.links R.CC33XX_SYSTEM_HLID) with allocated_pkts := 0, prev_freed_pkts := 0 })
      links_map := set_bit R.CC33XX_SYSTEM_HLID d4.links_map }
    let d6 := { d5 with cc := { d5.cc with flags :=
      ({ CC33XX_FLAG_SUSPENDED := false
         CC33XX_FLAG_PENDING_WORK := false
         CC33XX_FLAG_RECOVERY_IN_PROGRESS := false }) } }
    let d7 := { d6 with tx_allocated_pkts := fun _ => 0, target_mem_map := false }
    { d7 with
      reg_ch_conf_pending := d7.reg_ch_conf_last
      reg_ch_conf_last := 0 }

/-- A control read that goes wrong in one of the ways the protocol knows: the
bus read fails, the sync pattern is wrong, the declared length exceeds the
buffer, or the record walk meets a malformed record (unknown type, or command
completion longer than the result buffer). -/
def control_read_error (K : Consts) (rd : BusRead) : Prop :=
  rd.ret < 0
  ∨ le32_at rd.data K.off_sync_pattern ≠ K.DEVICE_SYNC_PATTERN
  ∨ K.CC33XX_CMD_MAX_SIZE < K.sizeof_NAB_header + K.NAB_EXTRA_BYTES + le16_at rd.data K.off_len
  ∨ ∃ r ∈ stream_records rd.data (message_offset K)
        (message_length K (le16_at rd.data K.off_len : Int)), malformed K r = true

/-! ## Reading of the registry rules -/

/-- The number of enabled roles, among role ids below 64, whose role type is
not the device role; `types` gives the role type of each enabled role id. -/
def non_device_roles (R : RegConsts) (types : Nat → Nat) (roles_map : Nat) : Nat :=
  ((List.range 64).filter
    (fun i => Nat.testBit roles_map i && decide (types i ≠ R.CC33XX_ROLE_DEVICE))).length

/-- The number of enabled roles, among role ids below 64, whose role id is
not 2. -/
def roles_with_id_other_than_2 (roles_map : Nat) : Nat :=
  ((List.range 64).filter (fun i => Nat.testBit roles_map i && decide (i ≠ 2))).length

/-- A link id is free: its bit is clear in the global map and in the map of
every interface. -/
def link_free (d : Dev) (h : Nat) : Prop :=
  Nat.testBit d.links_map h = false ∧ ∀ v, Nat.testBit (d.vifs v).links_map h = false

/-- A link id is owned by exactly the interface `v`: allocated in the global
map, recorded in `cc->links[h].wlvif`, set in the map of `v` and in no other
interface map. -/
def link_owned_by (d : Dev) (h v : Nat) : Prop :=
  Nat.testBit d.links_map h = true ∧ (d.links h).wlvif = some v
  ∧ Nat.testBit (d.vifs v).links_map h = true
  ∧ ∀ w, w ≠ v → Nat.testBit (d.vifs w).links_map h = false

/-- The system link id is allocated: its bit is set in the global map, and in
the map of no interface. -/
def system_link_allocated (R : RegConsts) (d : Dev) : Prop :=
  Nat.testBit d.links_map R.CC33XX_SYSTEM_HLID = true
  ∧ ∀ v, Nat.testBit (d.vifs v).links_map R.CC33XX_SYSTEM_HLID = false

/-- The link ownership invariant: the system link id is always allocated, and
every other link id is free or owned by exactly one interface. -/
def ownership_inv (R : RegConsts) (d : Dev) : Prop :=
  system_link_allocated R d
  ∧ ∀ h, h ≠ R.CC33XX_SYSTEM_HLID → link_free d h ∨ ∃ v, link_owned_by d h v

/-- A call of `cc33xx_set_link` or of `cc33xx_clear_link`, with the interface
and the link id it is made for. -/
inductive LinkOp where
  | set_link (wlvif link : Nat)
  | clear_link (wlvif hlid : Nat)

/-- The device after one call. -/
def apply_link_op (R : RegConsts) (d : Dev) : LinkOp → Dev
  | LinkOp.set_link wlvif link => (cc33xx_set_link R d wlvif link).2
  | LinkOp.clear_link wlvif hlid => (cc33xx_clear_link R d wlvif hlid).1

/-- The device after a sequence of calls, in order. -/
def run_link_ops (R : RegConsts) (d : Dev) (ops : List LinkOp) : Dev :=
  ops.foldl (apply_link_op R) d

/-- The discipline on one call: `cc33xx_set_link` is made for a free link id
other than the system link, `cc33xx_clear_link` for a link id other than the
system link that is free or owned by the calling interface. -/
def link_op_allowed (R : RegConsts) (d : Dev) : LinkOp → Prop
  | LinkOp.set_link _ link => link ≠ R.CC33XX_SYSTEM_HLID ∧ link_free d link
  | LinkOp.clear_link wlvif hlid =>
    hlid ≠ R.CC33XX_SYSTEM_HLID ∧ (link_free d hlid ∨ link_owned_by d hlid wlvif)

/-- The discipline on a sequence of calls: every call is allowed in the state
in which it is made. -/
def link_ops_allowed (R : RegConsts) : Dev → List LinkOp → Prop
  | _, [] => True
  | d, op :: ops => link_op_allowed R d op ∧ link_ops_allowed R (apply_link_op R d op) ops

/-! ## Transmit admission (`main.c`) -/

/-- Constants of the transmit path whose declarations are in headers. -/
structure TxConsts where
  CC33XX_QUEUE_STOP_REASON_WATERMARK : Nat
  CC33XX_TX_QUEUE_HIGH_WATERMARK : Int

/-- The device together with the transmit bookkeeping of `struct cc33xx` and
`struct cc33xx_vif`.  A packet (`struct sk_buff *`) is named by a number. -/
structure TxDev where
  d : Dev
  /-- `cc->tx_queue_count[q]` -/
  tx_queue_count : Nat → Int
  /-- `wlvif->tx_queue_count[q]`, by interface and queue -/
  vif_tx_queue_count : Nat → Nat → Int
  /-- the stop reasons of queue `q` of an interface, one bit per reason -/
  queue_stop_reasons : Nat → Nat → Nat
  CC33XX_FLAG_FW_TX_BUSY : Bool
  CC33XX_FLAG_TX_PENDING : Bool
  /-- number of `ieee80211_queue_work(cc->hw, &cc->tx_work)` -/
  tx_work : Nat
  /-- the packets given to `ieee80211_free_txskb`, in order -/
  freed_txskb : List Nat

/-- Modelled from the spec: `cc33xx_is_queue_stopped_locked` is in `tx.c`, which
is not among the sources.  The stop state of a queue is its set of stop
reasons; the queue is stopped when the set is not empty. -/
def cc33xx_is_queue_stopped_locked (s : TxDev) (wlvif q : Nat) : Bool :=
  decide (s.queue_stop_reasons wlvif q ≠ 0)

/-- Modelled from the spec: `cc33xx_is_queue_stopped_by_reason_locked` is in
`tx.c`, which is not among the sources.  It tells whether `reason` is in the
set of stop reasons of the queue. -/
def cc33xx_is_queue_stopped_by_reason_locked (s : TxDev) (wlvif q reason : Nat) : Bool :=
  test_bit reason (s.queue_stop_reasons wlvif q)

/-- Modelled from the spec: `cc33xx_stop_queue_locked` is in `tx.c`, which is
not among the sources.  It adds `reason` to the set of stop reasons of the
queue. -/
def cc33xx_stop_queue_locked (s : TxDev) (wlvif q reason : Nat) : TxDev :=
  { s with queue_stop_reasons := (upd s.queue_stop_reasons wlvif
      (upd (s.queue_stop_reasons wlvif) q (set_bit reason (s.queue_stop_reasons wlvif q)))) }

/-- The kernel `skb_queue_tail(list, skb)`. -/
def skb_queue_tail (list : List Nat) (skb : Nat) : List Nat := list ++ [skb]

/-- Function `cc33xx_op_tx`.  `vif` is `info->control.vif` (`none` for `NULL`),
`q` and `hlid` are what `cc33xx_tx_get_queue` and `cc33xx_tx_get_hlid` (both in
`tx.c`) return for the packet `skb`. -/
def cc33xx_op_tx (R : RegConsts) (T : TxConsts) (s : TxDev) (vif : Option Nat)
    (q hlid skb : Nat) : TxDev :=
  let stop_reason := T.CC33XX_QUEUE_STOP_REASON_WATERMARK
  match vif with
  | none => { s with freed_txskb := s.freed_txskb ++ [skb] }
  | some wlvif =>
    if hlid = R.CC33XX_INVALID_LINK_ID
        ∨ (!test_bit hlid (s.d.vifs wlvif).links_map) = true
        ∨ (cc33xx_is_queue_stopped_locked s wlvif q = true
            ∧ (!cc33xx_is_queue_stopped_by_reason_locked s wlvif q stop_reason) = true) then
      { s with freed_txskb := s.freed_txskb ++ [skb] }
    else
      let l := s.d.links hlid
      let s1 := { s with d := { s.d with links := (upd s.d.links hlid
        { l with tx_queue := l.tx_queue.set q (skb_queue_tail (l.tx_queue.getD q []) skb) }) } }
      let s2 := { s1 with
        tx_queue_count := upd s1.tx_queue_count q (s1.tx_queue_count q + 1)
        vif_tx_queue_count := (upd s1.vif_tx_queue_count wlvif
          (upd (s1.vif_tx_queue_count wlvif) q (s1.vif_tx_queue_count wlvif q + 1))) }
      let s3 :=
        if s2.vif_tx_queue_count wlvif q ≥ T.CC33XX_TX_QUEUE_HIGH_WATERMARK
            ∧ (!cc33xx_is_queue_stopped_by_reason_locked s2 wlvif q stop_reason) = true then
          cc33xx_stop_queue_locked s2 wlvif q stop_reason
        else s2
      if (!s3.CC33XX_FLAG_FW_TX_BUSY) = true ∧ (!s3.CC33XX_FLAG_TX_PENDING) = true then
        { s3 with tx_work := s3.tx_work + 1 }
      else s3

/-! ## Remain-on-channel reservations (`cmd.c`, `main.c`) -/

/-- Constants and structure layouts of the remain-on-channel commands whose
declarations are in headers. -/
structure RocConsts where
  CMD_REMAIN_ON_CHANNEL : Nat
  CMD_CANCEL_REMAIN_ON_CHANNEL : Nat
  /-- size of `struct cc33xx_cmd_roc` -/
  sizeof_cmd_roc : Nat
  /-- size of `struct cc33xx_cmd_croc` -/
  sizeof_cmd_croc : Nat
  /-- the layout of `struct cc33xx_cmd_roc`: the zeroed structure with
  `role_id`, `channel` and `band` stored -/
  cmd_roc_bytes : Nat → Nat → Nat → List Nat
  /-- the layout of `struct cc33xx_cmd_croc`: the zeroed structure with
  `role_id` stored -/
  cmd_croc_bytes : Nat → List Nat
  NL80211_BAND_5GHZ : Nat
  CC33XX_BAND_2_4GHZ : Nat
  CC33XX_BAND_5GHZ : Nat
  CC33XX_MAX_ROLES : Nat
  /-- the value of `msecs_to_jiffies(CC33xx_PEND_ROC_COMPLETE_TIMEOUT - 50)` -/
  roc_timeout_spare_jiffies : Nat

/-- The device together with the fields used by the remain-on-channel code. -/
structure RocDev where
  d : Dev
  /-- number of times `cc->tx_watchdog_work` was cancelled and queued again -/
  tx_watchdog_work : Nat
  /-- `wlvif->pending_auth_reply_time`, by interface -/
  pending_auth_reply_time : Nat → Nat

/-- Function `cc33xx_rearm_tx_watchdog_locked`. -/
def cc33xx_rearm_tx_watchdog_locked (s : RocDev) : RocDev :=
  if s.d.tx_allocated_blocks = 0 then s
  else { s with tx_watchdog_work := s.tx_watchdog_work + 1 }

/-- The kernel `find_first_bit(map, size)`: the lowest set bit below `size`,
or `size` when there is none. -/
def find_first_bit (map size : Nat) : Nat :=
  ((List.range size).find? (fun i => Nat.testBit map i)).getD size

/-- Function `cc33xx_cmd_roc`.  `alloc_ok` tells whether `kzalloc` gave the
command buffer. -/
def cc33xx_cmd_roc (K : Consts) (R : RegConsts) (C : RocConsts) (env : CmdEnv)
    (alloc_ok : Bool) (s : RocDev) (role_id band channel : Nat) : Int × RocDev :=
  if role_id = R.CC33XX_INVALID_ROLE_ID then (- EINVAL, s)
  else if !alloc_ok then (- ENOMEM, s)
  else if band = R.NL80211_BAND_2GHZ ∨ band = C.NL80211_BAND_5GHZ then
    let cmd_band :=
      if band = R.NL80211_BAND_2GHZ then C.CC33XX_BAND_2_4GHZ else C.CC33XX_BAND_5GHZ
    let r := cc33xx_cmd_send K env s.d.cc C.CMD_REMAIN_ON_CHANNEL
      (C.cmd_roc_bytes role_id channel cmd_band) C.sizeof_cmd_roc 0
    (r.1, { s with d := { s.d with cc := r.2.1 } })
  else (- EINVAL, s)

/-- Function `cc33xx_cmd_croc`. -/
def cc33xx_cmd_croc (K : Consts) (C : RocConsts) (env : CmdEnv)
    (alloc_ok : Bool) (s : RocDev) (role_id : Nat) : Int × RocDev :=
  if !alloc_ok then (- ENOMEM, s)
  else
    let r := cc33xx_cmd_send K env s.d.cc C.CMD_CANCEL_REMAIN_ON_CHANNEL
      (C.cmd_croc_bytes role_id) C.sizeof_cmd_croc 0
    (r.1, { s with d := { s.d with cc := r.2.1 } })

/-- Function `cc33xx_roc`. -/
def cc33xx_roc (K : Consts) (R : RegConsts) (C : RocConsts) (env : CmdEnv)
    (alloc_ok : Bool) (s : RocDev) (role_id band channel : Nat) : Int × RocDev :=
  if test_bit role_id s.d.roc_map then (0, s)
  else
    let r := cc33xx_cmd_roc K R C env alloc_ok s role_id band channel
    if r.1 < 0 then r
    else (r.1, { r.2 with d := { r.2.d with roc_map := set_bit role_id r.2.d.roc_map } })

/-- Function `cc33xx_croc`. -/
def cc33xx_croc (K : Consts) (C : RocConsts) (env : CmdEnv)
    (alloc_ok : Bool) (s : RocDev) (role_id : Nat) : Int × RocDev :=
  if !test_bit role_id s.d.roc_map then (0, s)
  else
    let r := cc33xx_cmd_croc K C env alloc_ok s role_id
    if r.1 < 0 then r
    else
      let s1 := { r.2 with d := { r.2.d with roc_map := clear_bit role_id r.2.d.roc_map } }
      if find_first_bit s1.d.roc_map C.CC33XX_MAX_ROLES ≥ C.CC33XX_MAX_ROLES then
        (r.1, cc33xx_rearm_tx_watchdog_locked s1)
      else (r.1, s1)

/-- The kernel `time_after(a, b)` on `unsigned long` values: `(long)(b - a) < 0`. -/
def time_after (a b : Nat) : Bool :=
  decide (2 ^ 63 ≤ (b + 2 ^ 64 - a % 2 ^ 64) % 2 ^ 64)

/-- Function `cc33xx_roc_timeout_work` for the interface `wlvif`; `jiffies` is
the kernel tick counter when the work runs.  The return value of `cc33xx_croc`
is not used. -/
def cc33xx_roc_timeout_work (K : Consts) (C : RocConsts) (env : CmdEnv)
    (alloc_ok : Bool) (jiffies : Nat) (s : RocDev) (wlvif : Nat) : RocDev :=
  if s.d.cc.state ≠ DevState.CC33XX_STATE_ON then s
  else
    let time_spare := (C.roc_timeout_spare_jiffies + jiffies) % 2 ^ 64
    if !time_after time_spare (s.pending_auth_reply_time wlvif) then s
    else if test_bit (s.d.vifs wlvif).role_id s.d.roc_map then
      (cc33xx_croc K C env alloc_ok s (s.d.vifs wlvif).role_id).2
    else s

/-! ## Deferred interrupt work (`main.c`) -/

/-- Constants of the receive path whose declarations are in headers. -/
structure RxConsts where
  /-- size of `struct NAB_rx_header` -/
  sizeof_NAB_rx_header : Nat
  /-- offset of the field `len` in `struct NAB_rx_header` -/
  off_rx_len : Nat
  CC33XX_FW_RX_PACKET_RAM : Nat

/-- The device as the deferred interrupt work sees it: the reader state `cc`,
the bus limit, and the record of the calls to collaborators outside the source
files. -/
structure IrqDev where
  cc : Cc
  max_transaction_len : Nat
  /-- number of `process_deferred_events` -/
  deferred_events_runs : Nat
  /-- lengths asked of `cc33xx_raw_read`, oldest first -/
  raw_reads : List Nat
  /-- buffers handed to `cc33xx_rx`, oldest first -/
  rx : List (List Nat)
  /-- number of `cc33xx_tx_immediate_complete` -/
  tx_immediate_complete : Nat

/-- The length `read_data_len` that `cc33xx_irq_locked` asks of the bus when
the rx byte count of the last status block is not zero. -/
def irq_locked_read_data_len (K : Consts) (X : RxConsts) (s : IrqDev) : Nat :=
  let rx_byte_count := s.cc.core_status.rx_status &&& K.RX_BYTE_COUNT_MASK
  let read_headers_len := K.sizeof_core_status + X.sizeof_NAB_rx_header
  let rx_byte_count2 := rx_byte_count * 2
  let read_data_len := rx_byte_count2 + read_headers_len
  if s.max_transaction_len ≠ 0 then
    min (ALIGN_MASK read_data_len 3) s.max_transaction_len
  else
    min (ALIGN_MASK read_data_len (K.CC33XX_BUS_BLOCK_SIZE - 1)) X.CC33XX_FW_RX_PACKET_RAM

/-- The status block that `cc33xx_irq_locked` copies from the tail of the
aggregated read `rd` into `*cc->core_status`. -/
def irq_locked_core_status (K : Consts) (X : RxConsts) (rd : BusRead) (s : IrqDev) :
    CoreStatus :=
  K.core_status_of_bytes
    (bytes rd.data (irq_locked_read_data_len K X s - K.sizeof_core_status)
      K.sizeof_core_status)

/-- The part of `cc33xx_irq_locked` after `process_core_status`: the received
data go to `cc33xx_rx`, or recovery is asked for when the rx header announces
no data; then `cc33xx_tx_immediate_complete`. -/
def irq_locked_rx (X : RxConsts) (rd : BusRead) (s : IrqDev) : IrqDev :=
  let rx_buf_len := (le16_at rd.data X.off_rx_len + 65536 - 8) % 65536
  let s1 :=
    if rx_buf_len ≠ 0 then
      { s with rx := s.rx ++ [bytes rd.data X.sizeof_NAB_rx_header rx_buf_len] }
    else { s with cc := cc33xx_queue_recovery_work s.cc }
  { s1 with tx_immediate_complete := s1.tx_immediate_complete + 1 }

/-- Function `cc33xx_irq_locked`: return value and device.  `rd` is the
transfer of `cc33xx_raw_read` into `cc->aggr_buf`, `reads` the control reads
that `process_core_status` may ask for; `none` means that list was too short.
The return value of `process_core_status` is not used. -/
def cc33xx_irq_locked (K : Consts) (X : RxConsts) (rd : BusRead) (reads : List CtrlRead)
    (s : IrqDev) : Option (Int × IrqDev) :=
  let s0 := { s with deferred_events_runs := s.deferred_events_runs + 1 }
  let rx_byte_count := s0.cc.core_status.rx_status &&& K.RX_BYTE_COUNT_MASK
  if rx_byte_count ≠ 0 then
    let read_data_len := irq_locked_read_data_len K X s0
    let s1 := { s0 with raw_reads := s0.raw_reads ++ [read_data_len] }
    if rd.ret < 0 then some (rd.ret, s1)
    else
      let cc1 := { s1.cc with core_status := irq_locked_core_status K X rd s0 }
      match process_core_status K reads cc1 with
      | none => none
      | some (_, cc2) => some (rd.ret, irq_locked_rx X rd { s1 with cc := cc2 })
  else
    some (0, { s0 with tx_immediate_complete := s0.tx_immediate_complete + 1 })

/-! ## Rate policies (`main.c`) -/

/-- Linux `EOPNOTSUPP`. -/
def EOPNOTSUPP : Int := 95

/-- Enumerators and macros used by the interface set-up whose declarations are
in headers. -/
structure RateConsts where
  CC33XX_MAX_RATE_POLICIES : Nat
  CONF_TX_MAX_AC_COUNT : Nat
  BSS_TYPE_STA_BSS : Nat
  BSS_TYPE_IBSS : Nat
  MAX_BSS_TYPE : Nat
  NL80211_IFTYPE_P2P_CLIENT : Nat
  NL80211_IFTYPE_STATION : Nat
  NL80211_IFTYPE_P2P_DEVICE : Nat
  NL80211_IFTYPE_ADHOC : Nat
  NL80211_IFTYPE_P2P_GO : Nat
  NL80211_IFTYPE_AP : Nat
  NL80211_IFTYPE_MESH_POINT : Nat

/-- The loop of the kernel `find_first_zero_bit`: `n` positions are left to
look at, starting at position `i`. -/
def find_first_zero_bit_loop (map : Nat) : Nat → Nat → Nat
  | 0, i => i
  | n + 1, i => if !Nat.testBit map i then i else find_first_zero_bit_loop map n (i + 1)

/-- The kernel `find_first_zero_bit(map, size)`: the lowest clear bit below
`size`, or `size` when there is none. -/
def find_first_zero_bit (map size : Nat) : Nat :=
  find_first_zero_bit_loop map size 0

/-- Function `cc33xx_allocate_rate_policy`: return value, `cc->rate_policies_map`
and `*idx` afterwards.  The local `policy` is a `u8`. -/
def cc33xx_allocate_rate_policy (C : RateConsts) (rate_policies_map idx : Nat) :
    Int × Nat × Nat :=
  let policy := find_first_zero_bit rate_policies_map C.CC33XX_MAX_RATE_POLICIES % 256
  if policy ≥ C.CC33XX_MAX_RATE_POLICIES then (- EBUSY, rate_policies_map, idx)
  else (0, set_bit policy rate_policies_map, policy)

/-- The fields of `struct cc33xx_vif` that `cc33xx_init_vif_data` sets and that
concern the role and the rate policies. -/
structure RateVif where
  p2p : Nat
  bss_type : Nat
  role_id : Nat
  sta_hlid : Nat
  sta_basic_rate_idx : Nat
  sta_ap_rate_idx : Nat
  sta_p2p_rate_idx : Nat
  ap_bcast_hlid : Nat
  ap_global_hlid : Nat
  ap_mgmt_rate_idx : Nat
  ap_bcast_rate_idx : Nat
  ap_ucast_rate_idx : Nat → Nat

/-- The interface after `memset(wlvif, 0, offsetof(struct cc33xx_vif, persistent))`. -/
def zero_vif : RateVif :=
  { p2p := 0, bss_type := 0, role_id := 0, sta_hlid := 0
    sta_basic_rate_idx := 0, sta_ap_rate_idx := 0, sta_p2p_rate_idx := 0
    ap_bcast_hlid := 0, ap_global_hlid := 0, ap_mgmt_rate_idx := 0, ap_bcast_rate_idx := 0
    ap_ucast_rate_idx := fun _ => 0 }

/-- One pass of the loop over `wlvif->ap.ucast_rate_idx[i]` in
`cc33xx_init_vif_data`; the return value of the allocation is not used. -/
def init_vif_ucast_step (C : RateConsts) (st : Nat × RateVif) (i : Nat) : Nat × RateVif :=
  let a := cc33xx_allocate_rate_policy C st.1 (st.2.ap_ucast_rate_idx i)
  (a.2.1, { st.2 with ap_ucast_rate_idx := upd st.2.ap_ucast_rate_idx i a.2.2 })

/-- The part of `cc33xx_init_vif_data` after the `switch` on the interface
type: `w` is the interface with `p2p` and `bss_type` set.  The return values of
`cc33xx_allocate_rate_policy` are not used. -/
def init_vif_data_rest (R : RegConsts) (C : RateConsts) (rate_policies_map : Nat)
    (w : RateVif) : Int × Nat × RateVif :=
  let w2 := { w with role_id := R.CC33XX_INVALID_ROLE_ID }
  if w2.bss_type = C.BSS_TYPE_STA_BSS ∨ w2.bss_type = C.BSS_TYPE_IBSS then
    let w3 := { w2 with sta_hlid := R.CC33XX_INVALID_LINK_ID }
    let a1 := cc33xx_allocate_rate_policy C rate_policies_map w3.sta_basic_rate_idx
    let w4 := { w3 with sta_basic_rate_idx := a1.2.2 }
    let a2 := cc33xx_allocate_rate_policy C a1.2.1 w4.sta_ap_rate_idx
    let w5 := { w4 with sta_ap_rate_idx := a2.2.2 }
    let a3 := cc33xx_allocate_rate_policy C a2.2.1 w5.sta_p2p_rate_idx
    (0, a3.2.1, { w5 with sta_p2p_rate_idx := a3.2.2 })
  else
    let w3 := { w2 with ap_bcast_hlid := R.CC33XX_INVALID_LINK_ID
                        ap_global_hlid := R.CC33XX_INVALID_LINK_ID }
    let a1 := cc33xx_allocate_rate_policy C rate_policies_map w3.ap_mgmt_rate_idx
    let w4 := { w3 with ap_mgmt_rate_idx := a1.2.2 }
    let a2 := cc33xx_allocate_rate_policy C a1.2.1 w4.ap_bcast_rate_idx
    let w5 := { w4 with ap_bcast_rate_idx := a2.2.2 }
    let r := (List.range C.CONF_TX_MAX_AC_COUNT).foldl (init_vif_ucast_step C) (a2.2.1, w5)
    (0, r.1, r.2)

/-- Function `cc33xx_init_vif_data`, as far as the role and the rate policies
go: return value, `cc->rate_policies_map` and the interface afterwards.
`iftype` is `ieee80211_vif_type_p2p(vif)`. -/
def cc33xx_init_vif_data (R : RegConsts) (C : RateConsts) (iftype rate_policies_map : Nat) :
    Int × Nat × RateVif :=
  let w0 := zero_vif
  if iftype = C.NL80211_IFTYPE_P2P_CLIENT then
    init_vif_data_rest R C rate_policies_map { w0 with p2p := 1, bss_type := C.BSS_TYPE_STA_BSS }
  else if iftype = C.NL80211_IFTYPE_STATION ∨ iftype = C.NL80211_IFTYPE_P2P_DEVICE then
    init_vif_data_rest R C rate_policies_map { w0 with bss_type := C.BSS_TYPE_STA_BSS }
  else if iftype = C.NL80211_IFTYPE_ADHOC then
    init_vif_data_rest R C rate_policies_map { w0 with bss_type := C.BSS_TYPE_IBSS }
  else if iftype = C.NL80211_IFTYPE_P2P_GO then
    init_vif_data_rest R C rate_policies_map { w0 with p2p := 1, bss_type := R.BSS_TYPE_AP_BSS }
  else if iftype = C.NL80211_IFTYPE_AP ∨ iftype = C.NL80211_IFTYPE_MESH_POINT then
    init_vif_data_rest R C rate_policies_map { w0 with bss_type := R.BSS_TYPE_AP_BSS }
  else (- EOPNOTSUPP, rate_policies_map, { w0 with bss_type := C.MAX_BSS_TYPE })

/-! ## Starting an IBSS role (`cmd.c`) -/

/-- Linux `EAGAIN`. -/
def EAGAIN : Int := 11

/-- Enumerators and macros used by `cc33xx_op_ampdu_action` whose declarations
are in headers. -/
structure BaConsts where
  BSS_TYPE_STA_BSS : Nat
  CC33XX_MAX_LINKS : Nat
  CC33XX_RX_BA_MAX_SESSIONS : Int
  IEEE80211_AMPDU_RX_START : Nat
  IEEE80211_AMPDU_RX_STOP : Nat

/-- The device together with `cc->ba_rx_session_count`. -/
structure BaDev where
  d : Dev
  ba_rx_session_count : Int

/-- Function `cc33xx_op_ampdu_action`: return value and device.  `sta_hlid` is
`wlvif->sta.hlid`, `wl_sta_hlid` the `hlid` of the station in `params->sta`,
`ba_support` and `ba_allowed` the two interface fields, `acx_ret` what
`cc33xx_acx_set_ba_receiver_session` (in `acx.c`) returns.  `*ba_bitmap` is a
`u8`; `BIT(tid)` is taken as `2 ^ tid`, which is what C computes for
`tid < 64`. -/
def cc33xx_op_ampdu_action (R : RegConsts) (B : BaConsts) (acx_ret : Int) (s : BaDev)
    (wlvif action tid sta_hlid wl_sta_hlid : Nat) (ba_support ba_allowed : Bool) :
    Int × BaDev :=
  if tid > 0xFF then (- EOPNOTSUPP, s)
  else if s.d.cc.state ≠ DevState.CC33XX_STATE_ON then (- EAGAIN, s)
  else if (s.d.vifs wlvif).bss_type ≠ B.BSS_TYPE_STA_BSS
      ∧ (s.d.vifs wlvif).bss_type ≠ R.BSS_TYPE_AP_BSS then (- EINVAL, s)
  else
    let hlid :=
      if (s.d.vifs wlvif).bss_type = B.BSS_TYPE_STA_BSS then sta_hlid else wl_sta_hlid
    if hlid = R.CC33XX_INVALID_LINK_ID then (0, s)
    else if hlid ≥ B.CC33XX_MAX_LINKS then (- EINVAL, s)
    else
      let ba_bitmap := (s.d.links hlid).ba_bitmap
      if action = B.IEEE80211_AMPDU_RX_START then
        if !ba_support ∨ !ba_allowed then (- EOPNOTSUPP, s)
        else if s.ba_rx_session_count ≥ B.CC33XX_RX_BA_MAX_SESSIONS then (- EBUSY, s)
        else if ba_bitmap &&& (1 <<< tid) ≠ 0 then (- EINVAL, s)
        else if acx_ret = 0 then
          (acx_ret,
            { d := { s.d with links := (upd s.d.links hlid
                { (s.d.links hlid) with ba_bitmap := (ba_bitmap ||| (1 <<< tid)) % 256 }) }
              ba_rx_session_count := s.ba_rx_session_count + 1 })
        else (acx_ret, s)
      else if action = B.IEEE80211_AMPDU_RX_STOP then
        if ba_bitmap &&& (1 <<< tid) = 0 then (0, s)
        else if acx_ret = 0 then
          (acx_ret,
            { d := { s.d with links := (upd s.d.links hlid
                { (s.d.links hlid) with ba_bitmap := clear_bit tid ba_bitmap % 256 }) }
              ba_rx_session_count := s.ba_rx_session_count - 1 })
        else (acx_ret, s)
      else (- EINVAL, s)

/-- The call `cc33xx_clear_link(cc, wlvif, &hlid)` on the device with its
session count; `cc33xx_clear_link` does not touch `cc->ba_rx_session_count`. -/
def ba_clear_link (R : RegConsts) (s : BaDev) (wlvif hlid : Nat) : BaDev :=
  { s with d := (cc33xx_clear_link R s.d wlvif hlid).1 }

/-- The number of bits set in a `u8` bitmap. -/
def bits8 (b : Nat) : Nat :=
  ((List.range 8).map (fun i => (Nat.testBit b i).toNat)).sum

/-- The total number of bits set over the `ba_bitmap` of the links
`0 .. CC33XX_MAX_LINKS - 1`. -/
def ba_open_sessions (B : BaConsts) (d : Dev) : Nat :=
  ((List.range B.CC33XX_MAX_LINKS).map (fun h => bits8 (d.links h).ba_bitmap)).sum

/-- The accounting invariant of claim C28: `cc->ba_rx_session_count` equals the
number of open sessions. -/
def ba_inv (B : BaConsts) (s : BaDev) : Prop :=
  s.ba_rx_session_count = (ba_open_sessions B s.d : Int)

/-! ## WoWLAN patterns (`main.c`)

The `int` counters and indices of the two functions only grow from 0 and are
kept in `Nat`. -/

/-- Linux `E2BIG`. -/
def E2BIG : Int := 7

/-- Macros and enumerators of the rx filters whose declarations are in
headers. -/
structure WowConsts where
  CC33XX_RX_FILTER_ETH_HEADER_SIZE : Nat
  RX_FILTER_FIELD_OVERHEAD : Nat
  CC33XX_RX_FILTER_MAX_FIELDS : Nat
  CC33XX_RX_FILTER_MAX_FIELDS_SIZE : Nat
  CC33XX_RX_FILTER_FLAG_ETHERNET_HEADER : Nat
  CC33XX_RX_FILTER_FLAG_IP_HEADER : Nat
  FILTER_SIGNAL : Nat

/-- A `struct cfg80211_pkt_pattern`: the mask as a bitmap (`none` for a `NULL`
pointer), the pattern bytes and `pattern_len`. -/
structure PktPattern where
  mask : Option Nat
  pattern : List Nat
  pattern_len : Nat
deriving DecidableEq, Repr

/-- The local variables of `cc33xx_validate_wowlan_pattern`. -/
structure ValState where
  num_fields : Nat
  in_field : Bool
  fields_size : Nat
  pattern_len : Nat
deriving DecidableEq, Repr

/-- One pass of the loop of `cc33xx_validate_wowlan_pattern`, at index `i`. -/
def validate_step (W : WowConsts) (mask : Nat) (st : ValState) (i : Nat) : ValState :=
  if test_bit i mask then
    if !st.in_field then { st with in_field := true, pattern_len := 1 }
    else if i = W.CC33XX_RX_FILTER_ETH_HEADER_SIZE then
      { st with
        num_fields := st.num_fields + 1
        fields_size := st.fields_size + (st.pattern_len + W.RX_FILTER_FIELD_OVERHEAD)
        pattern_len := 1 }
    else { st with pattern_len := st.pattern_len + 1 }
  else if st.in_field then
    { st with
      in_field := false
      fields_size := st.fields_size + (st.pattern_len + W.RX_FILTER_FIELD_OVERHEAD)
      num_fields := st.num_fields + 1 }
  else st

/-- The closing `if (in_field)` of `cc33xx_validate_wowlan_pattern`. -/
def validate_flush (W : WowConsts) (st : ValState) : ValState :=
  if st.in_field then
    { st with
      fields_size := st.fields_size + (st.pattern_len + W.RX_FILTER_FIELD_OVERHEAD)
      num_fields := st.num_fields + 1 }
  else st

/-- The local variables of `cc33xx_validate_wowlan_pattern` after the first `k`
passes of its loop. -/
def validate_loop (W : WowConsts) (mask k : Nat) : ValState :=
  (List.range k).foldl (validate_step W mask)
    { num_fields := 0, in_field := false, fields_size := 0, pattern_len := 0 }

/-- The counters of `cc33xx_validate_wowlan_pattern` when it reaches its two
limit checks: `num_fields` and `fields_size` are what validation counted. -/
def validate_count (W : WowConsts) (mask pattern_len : Nat) : ValState :=
  validate_flush W (validate_loop W mask pattern_len)

/-- Function `cc33xx_validate_wowlan_pattern`. -/
def cc33xx_validate_wowlan_pattern (W : WowConsts) (p : PktPattern) : Int :=
  match p.mask with
  | none => - EINVAL
  | some mask =>
    let st := validate_count W mask p.pattern_len
    if st.num_fields > W.CC33XX_RX_FILTER_MAX_FIELDS then - EINVAL
    else if st.fields_size > W.CC33XX_RX_FILTER_MAX_FIELDS_SIZE then - E2BIG
    else 0

/-- One entry of `filter->fields[]` (`struct cc33xx_rx_filter_field`); `offset`
is a little-endian 16-bit field, `len` a `u8`. -/
structure RxFilterField where
  offset : Nat
  flags : Nat
  len : Nat
  pattern : List Nat
deriving DecidableEq, Repr

/-- A `struct cc33xx_rx_filter`; `fields` holds the first `num_fields` entries
of the array. -/
structure RxFilter where
  action : Nat
  fields : List RxFilterField
deriving DecidableEq, Repr

/-- Function `cc33xx_rx_filter_alloc_field`: return value and the fields of the
filter afterwards.  `pattern` is the memory from the pointer argument on,
`offset` a `u16`, `len` a `u8`, `alloc_ok` whether `kzalloc` gave the buffer. -/
def cc33xx_rx_filter_alloc_field (W : WowConsts) (alloc_ok : Bool)
    (fields : List RxFilterField) (offset flags : Nat) (pattern : List Nat) (len : Nat) :
    Int × List RxFilterField :=
  if fields.length = W.CC33XX_RX_FILTER_MAX_FIELDS then (- EINVAL, fields)
  else if !alloc_ok then (- ENOMEM, fields)
  else (0, fields ++ [{ offset := offset, flags := flags, len := len
                        pattern := bytes pattern 0 len }])

/-- The inner `for (j = i; j < p->pattern_len; j++)` loop of
`cc33xx_convert_wowlan_pattern_to_rx_filter`, from position `j` on, with at
most `fuel` passes: the value of `j` when the loop ends. -/
def convert_scan (W : WowConsts) (mask pattern_len i : Nat) : Nat → Nat → Nat
  | 0, j => j
  | fuel + 1, j =>
    if j < pattern_len then
      if !test_bit j mask then j
      else if i < W.CC33XX_RX_FILTER_ETH_HEADER_SIZE
          ∧ j ≥ W.CC33XX_RX_FILTER_ETH_HEADER_SIZE then j
      else convert_scan W mask pattern_len i fuel (j + 1)
    else j

/-- The `while (i < p->pattern_len)` loop of
`cc33xx_convert_wowlan_pattern_to_rx_filter`, from position `i` on, with at most
`fuel` passes: the return value on leaving the loop and the fields of the
filter; `none` when the passes run out.  `alloc_ok k` tells whether `kzalloc`
gives the buffer of the field number `k`. -/
def convert_loop (W : WowConsts) (mask : Nat) (p : PktPattern) (alloc_ok : Nat → Bool) :
    Nat → Nat → List RxFilterField → Option (Int × List RxFilterField)
  | 0, i, fields => if i < p.pattern_len then none else some (0, fields)
  | fuel + 1, i, fields =>
    if i < p.pattern_len then
      if !test_bit i mask then convert_loop W mask p alloc_ok fuel (i + 1) fields
      else
        let j := convert_scan W mask p.pattern_len i (p.pattern_len - i) i
        let offset :=
          if i < W.CC33XX_RX_FILTER_ETH_HEADER_SIZE then i
          else i - W.CC33XX_RX_FILTER_ETH_HEADER_SIZE
        let flags :=
          if i < W.CC33XX_RX_FILTER_ETH_HEADER_SIZE then W.CC33XX_RX_FILTER_FLAG_ETHERNET_HEADER
          else W.CC33XX_RX_FILTER_FLAG_IP_HEADER
        let len := (j - i) % 256
        let r := cc33xx_rx_filter_alloc_field W (alloc_ok fields.length) fields
          (offset % 65536) flags (p.pattern.drop i) len
        if r.1 ≠ 0 then some (r.1, r.2)
        else convert_loop W mask p alloc_ok fuel j r.2
    else some (0, fields)

/-- Function `cc33xx_convert_wowlan_pattern_to_rx_filter`: return value and
`*f` (`none` for `NULL`); the outer `none` would mean that the loop did not
end within `pattern_len` passes.  `filter_alloc_ok` tells whether `kzalloc`
gave the filter.  The function reads the mask without a `NULL` check; a missing
mask is taken as the empty bitmap. -/
def cc33xx_convert_wowlan_pattern_to_rx_filter (W : WowConsts) (filter_alloc_ok : Bool)
    (alloc_ok : Nat → Bool) (p : PktPattern) : Option (Int × Option RxFilter) :=
  if !filter_alloc_ok then some (- ENOMEM, none)
  else
    match convert_loop W (p.mask.getD 0) p alloc_ok p.pattern_len 0 [] with
    | none => none
    | some (ret, fields) =>
      if ret ≠ 0 then some (ret, none)
      else some (0, some { action := W.FILTER_SIGNAL, fields := fields })

/-- The pairs `(i, j - i)` of the runs that the loop of
`cc33xx_convert_wowlan_pattern_to_rx_filter` visits from position `i` on: start
and length of every field it asks for. -/
def convert_runs (W : WowConsts) (mask pattern_len : Nat) : Nat → Nat → List (Nat × Nat)
  | 0, _ => []
  | fuel + 1, i =>
    if i < pattern_len then
      if !test_bit i mask then convert_runs W mask pattern_len fuel (i + 1)
      else
        let j := convert_scan W mask pattern_len i (pattern_len - i) i
        (i, j - i) :: convert_runs W mask pattern_len fuel j
    else []

/-- The field that `cc33xx_convert_wowlan_pattern_to_rx_filter` stores for the
run of `len` bytes starting at pattern index `start`. -/
def field_of_run (W : WowConsts) (p : PktPattern) (r : Nat × Nat) : RxFilterField :=
  { offset := (if r.1 < W.CC33XX_RX_FILTER_ETH_HEADER_SIZE then r.1
      else r.1 - W.CC33XX_RX_FILTER_ETH_HEADER_SIZE) % 65536
    flags := if r.1 < W.CC33XX_RX_FILTER_ETH_HEADER_SIZE
      then W.CC33XX_RX_FILTER_FLAG_ETHERNET_HEADER
      else W.CC33XX_RX_FILTER_FLAG_IP_HEADER
    len := r.2
    pattern := bytes (p.pattern.drop r.1) 0 r.2 }

/-- Spec side of claim C29: `(start, len)` is a maximal run of masked pattern
bytes, split at offset `CC33XX_RX_FILTER_ETH_HEADER_SIZE`.  The run is not
empty, lies inside the pattern, holds masked bytes only, does not cross the
header boundary, and cannot be extended to the left or to the right without
meeting an unmasked byte, an end of the pattern, or the boundary. -/
def is_field_run (W : WowConsts) (mask pattern_len start len : Nat) : Prop :=
  0 < len ∧ start + len ≤ pattern_len
  ∧ (∀ k, start ≤ k → k < start + len → Nat.testBit mask k = true)
  ∧ ¬ (start < W.CC33XX_RX_FILTER_ETH_HEADER_SIZE
        ∧ W.CC33XX_RX_FILTER_ETH_HEADER_SIZE < start + len)
  ∧ (start = 0 ∨ Nat.testBit mask (start - 1) = false
      ∨ start = W.CC33XX_RX_FILTER_ETH_HEADER_SIZE)
  ∧ (start + len = pattern_len ∨ Nat.testBit mask (start + len) = false
      ∨ start + len = W.CC33XX_RX_FILTER_ETH_HEADER_SIZE)

/-! ## MAC addresses (`main.c`) -/

/-- The kernel constant `ETH_ALEN`. -/
def ETH_ALEN : Nat := 6

/-- The kernel `ether_addr_to_u64`: the six bytes, most significant first. -/
def ether_addr_to_u64 (addr : List Nat) : Nat :=
  ((((byte_at addr 0 * 256 + byte_at addr 1) * 256 + byte_at addr 2) * 256
    + byte_at addr 3) * 256 + byte_at addr 4) * 256 + byte_at addr 5

/-- The kernel `u64_to_ether_addr`: the low 48 bits, most significant byte
first. -/
def u64_to_ether_addr (u : Nat) : List Nat :=
  [u / 2 ^ 40 % 256, u / 2 ^ 32 % 256, u / 2 ^ 24 % 256, u / 2 ^ 16 % 256,
   u / 2 ^ 8 % 256, u % 256]

/-- The kernel `eth_addr_inc`: the address as a `u64`, plus one, stored back. -/
def eth_addr_inc (addr : List Nat) : List Nat :=
  u64_to_ether_addr ((ether_addr_to_u64 addr + 1) % 2 ^ 64)

/-- The kernel `ether_addr_equal`. -/
def ether_addr_equal (a b : List Nat) : Bool :=
  decide (bytes a 0 ETH_ALEN = bytes b 0 ETH_ALEN)

/-- The kernel `eth_random_addr`, on the six bytes that `get_random_bytes`
gave: the multicast bit is cleared and the locally-administered bit is set. -/
def eth_random_addr (random_bytes : List Nat) : List Nat :=
  mem_write (bytes random_bytes 0 ETH_ALEN) 0 [((byte_at random_bytes 0 &&& 0xfe) ||| 0x02)]

/-- Byte 0 of an address replaced. -/
def set_addr0 (addr : List Nat) (v : Nat) : List Nat := mem_write addr 0 [v % 256]

/-- The first part of `cc33xx_derive_mac_addresses`, which chooses the source:
the flags `use_nvs`, `use_efuse`, `use_random` and `base_addr`.
`random_bytes` is what `get_random_bytes` gives inside `eth_random_addr`. -/
def derive_mac_base (nvs_mac_addr_len : Nat)
    (nvs_mac_addr efuse_mac_address random_bytes : List Nat) :
    Bool × Bool × Bool × List Nat :=
  let zero_mac := List.replicate ETH_ALEN 0
  if nvs_mac_addr_len ≠ ETH_ALEN then
    if !ether_addr_equal zero_mac efuse_mac_address then
      (false, true, false, bytes efuse_mac_address 0 ETH_ALEN)
    else (false, false, true, eth_random_addr random_bytes)
  else
    let efuse_magic_addr := [0x00, 0x00, 0x00, 0x00, 0x00, 0x00]
    let random_magic_addr := [0x00, 0x00, 0x00, 0x00, 0x00, 0x01]
    if ether_addr_equal nvs_mac_addr efuse_magic_addr then
      (false, true, false, bytes efuse_mac_address 0 ETH_ALEN)
    else if ether_addr_equal nvs_mac_addr random_magic_addr then
      (false, false, true, eth_random_addr random_bytes)
    else (true, false, false, bytes nvs_mac_addr 0 ETH_ALEN)

/-- Function `cc33xx_derive_mac_addresses`: the array `cc->addresses` and the
address handed to `cmd_set_bd_addr`.  `addresses` is the array on entry.  In the
last branch (`WARN_ON(1)`, reached with none of the three sources chosen) the
array is left as it is and `bd_addr` is not initialised (here: empty). -/
def cc33xx_derive_mac_addresses (nvs_mac_addr_len : Nat)
    (nvs_mac_addr efuse_mac_address random_bytes : List Nat) (addresses : List (List Nat)) :
    List (List Nat) × List Nat :=
  let sel := derive_mac_base nvs_mac_addr_len nvs_mac_addr efuse_mac_address random_bytes
  let use_nvs := sel.1
  let use_efuse := sel.2.1
  let use_random := sel.2.2.1
  let base_addr := sel.2.2.2
  if use_nvs ∨ use_efuse then
    let oui_laa_bit := 2
    let oui_multicast_bit := 1
    let base_addr1 := set_addr0 base_addr (byte_at base_addr 0 &&& (255 - oui_multicast_bit))
    let a1 := set_addr0 base_addr1 (byte_at base_addr1 0 ||| oui_laa_bit)
    let a2 := set_addr0 base_addr1 (byte_at base_addr1 0 ||| oui_laa_bit)
    ([base_addr1, a1, eth_addr_inc a2], eth_addr_inc base_addr1)
  else if use_random then
    ([base_addr, eth_addr_inc (eth_addr_inc base_addr),
      eth_addr_inc (eth_addr_inc (eth_addr_inc base_addr))], eth_addr_inc base_addr)
  else (addresses, [])

/-! ## A small instance for evaluation -/

/-- A status-block layout used for evaluation: one padding word, then the
interrupt status, the rx status, the tx result index and the tsf. -/
def sample_core_status_of_bytes (b : List Nat) : CoreStatus :=
  { block_pad := [le32_at b 0]
    host_interrupt_status := le32_at b 4
    rx_status := le32_at b 8
    tx_result_queue_index := byte_at b 12
    tsf := le32_at b 16 }

/-- Constants used for evaluation on concrete inputs, with small buffers. -/
def sample_consts : Consts :=
  { CMD_LAST_SUPPORTED_COMMAND := 40
    CMD_STATUS_SUCCESS := 0
    MAX_COMMAND_STATUS := 24
    CMD_EMPTY := 0
    CMD_START_DHCP_MGMT_SEQ := 41
    CMD_STOP_DHCP_MGMT_SEQ := 42
    CMD_START_SECURITY_MGMT_SEQ := 43
    CMD_STOP_SECURITY_MGMT_SEQ := 44
    CMD_START_ARP_MGMT_SEQ := 45
    CMD_STOP_ARP_MGMT_SEQ := 46
    CMD_START_DNS_MGMT_SEQ := 47
    CMD_STOP_DNS_MGMT_SEQ := 48
    CMD_SEND_DEAUTH_DISASSOC := 49
    CMD_SCHED_STATE_EVENT := 50
    CMD_INTERROGATE := 2
    CMD_DEBUG_READ := 3
    CMD_TEST_MODE := 4
    CMD_BM_READ_DEVICE_INFO := 5
    sizeof_NAB_header := 8
    sizeof_cmd_header := 12
    off_sync_pattern := 0
    off_opcode := 4
    off_len := 6
    off_id := 8
    off_status := 10
    HOST_SYNC_PATTERN := 0x5C5C5C5C
    DEVICE_SYNC_PATTERN := 0xABCDDCBA
    CC33XX_CMD_BUFFER_SIZE := 32
    CC33XX_BUS_BLOCK_SIZE := 4
    CC33XX_CMD_MAX_SIZE := 48
    NAB_EXTRA_BYTES := 4
    CTRL_MSG_EVENT := 0
    CTRL_MSG_COMMND_COMPLETE := 1
    sizeof_command_result := 16
    HINT_COMMAND_COMPLETE := 1
    HINT_NEW_TX_RESULT := 2
    BOOT_TIME_INTERRUPTS := 12
    HINT_GENERAL_ERROR := 16
    RX_BYTE_COUNT_MASK := 0xFFFF
    sizeof_core_status := 20
    core_status_of_bytes := sample_core_status_of_bytes }

/-- A device that is on, with an empty record of requests. -/
def sample_cc : Cc :=
  { state := DevState.CC33XX_STATE_ON
    flags := { CC33XX_FLAG_SUSPENDED := false
               CC33XX_FLAG_PENDING_WORK := false
               CC33XX_FLAG_RECOVERY_IN_PROGRESS := false }
    max_cmd_size := 32
    cmd_buf := List.replicate 32 0
    command_result := List.replicate 16 0
    result_length := 0
    command_complete := 0
    core_status := { block_pad := [0x55555555], host_interrupt_status := 0,
                     rx_status := 0, tx_result_queue_index := 0, tsf := 0 }
    last_fw_rls_idx := 0
    bus_writes := []
    deferred_events := []
    irq_deferred_work := 0
    recovery_work := 0
    boot_irqs := []
    interrupts_disabled := 0
    wakeup_events := 0 }

/-- A 16-byte command buffer with a recognisable payload. -/
def sample_buf : List Nat := [0, 0, 0, 0, 0, 0, 0, 0, 0, 0, 0, 0, 0xA1, 0xA2, 0xA3, 0xA4]

/-- The bus write succeeds and the command completes with a 12-byte result:
a command header whose status field (offset 10) holds the status 2. -/
def sample_env_completed : CmdEnv :=
  { write_ret := 0, wait_ret := 1
    command_result := [0x11, 0x12, 0x13, 0x14, 0x15, 0x16, 0x17, 0x18, 0x19, 0x1A, 2, 0,
      0, 0, 0, 0]
    result_length := 12 }

/-- A well-formed control message of 12 bytes: an event with payload
`[0xE1, 0xE2]`, a command completion with payload `[0xC1, 0xC2, 0xC3]`, an event
with payload `[0xE3]`. -/
def sample_stream : List Nat :=
  [0x20, 0x00, 0xE1, 0xE2, 0x31, 0x00, 0xC1, 0xC2, 0xC3, 0x10, 0x00, 0xE3]

/-- A control message of 8 bytes whose second record has the unknown type 7:
an event with payload `[0xE1]`, the record of type 7, an event with payload
`[0xE2]`. -/
def sample_stream_bad : List Nat :=
  [0x10, 0x00, 0xE1, 0x07, 0x00, 0x10, 0x00, 0xE2]

/-- A control message of 9 bytes with two command completions, of payloads
`[0xA1, 0xA2]` and `[0xB1, 0xB2, 0xB3]`. -/
def sample_stream_two : List Nat :=
  [0x21, 0x00, 0xA1, 0xA2, 0x31, 0x00, 0xB1, 0xB2, 0xB3]

/-- A control read of 48 bytes that succeeds, with the device sync pattern and
the length field 0. -/
def sample_ctrl_len0 : BusRead :=
  { ret := 0
    data := [0xBA, 0xDC, 0xCD, 0xAB, 0, 0, 0, 0] ++ List.replicate 40 0 }

/-- A control read of 48 bytes that succeeds: the device sync pattern, the
length 16 (4 extra bytes and the 12 bytes of `sample_stream`), and in the last
20 bytes a status block with good padding, interrupt status 1, rx status 0, tx
result index 0 and tsf 7. -/
def sample_ctrl_ok : BusRead :=
  { ret := 0
    data := [0xBA, 0xDC, 0xCD, 0xAB, 0, 0, 16, 0] ++ [0, 0, 0, 0] ++ sample_stream
      ++ [0, 0, 0, 0]
      ++ [0x55, 0x55, 0x55, 0x55, 1, 0, 0, 0, 0, 0, 0, 0, 0, 0, 0, 0, 7, 0, 0, 0] }

/-- A control read of 48 bytes that succeeds on the bus but starts with a wrong
sync pattern. -/
def sample_ctrl_bad_sync : BusRead :=
  { ret := 0, data := List.replicate 48 0 }

/-- A status read of 20 bytes with good padding and the command-complete bit. -/
def sample_status_cmd_complete : BusRead :=
  { ret := 0
    data := [0x55, 0x55, 0x55, 0x55, 1, 0, 0, 0, 0, 0, 0, 0, 0, 0, 0, 0, 0, 0, 0, 0] }

/-- Registry constants used for evaluation; the fields of the command
completions are single bytes at offsets 12 to 15 of `cc->command_result`. -/
def sample_reg : RegConsts :=
  { CC33XX_ROLE_DEVICE := 3
    CC33XX_INVALID_ROLE_ID := 0xff
    CC33XX_INVALID_LINK_ID := 0xff
    CC33XX_SYSTEM_HLID := 0
    BSS_TYPE_AP_BSS := 2
    KEY_GEM := 4
    CC33XX_TX_SQN_POST_RECOVERY_PADDING := 20
    CC33XX_TX_SQN_POST_RECOVERY_PADDING_GEM := 50
    CMD_ROLE_ENABLE := 10
    CMD_ROLE_START := 11
    sizeof_cmd_role_enable := 20
    sizeof_cmd_role_start := 16
    cmd_role_enable_bytes := fun addr role_type =>
      List.replicate 12 0 ++ bytes addr 0 6 ++ [role_type % 256, 0]
    complete_role_id := fun b => byte_at b 12
    complete_ap_global_hlid := fun b => byte_at b 12
    complete_ap_broadcast_hlid := fun b => byte_at b 13
    complete_ap_global_session_id := fun b => byte_at b 14
    complete_ap_bcast_session_id := fun b => byte_at b 15
    NL80211_BAND_2GHZ := 0
    CC33XX_MAX_TXPWR := 25
    CC33XX_PSM_ILLEGAL := 4 }

/-- An unused entry of `cc->links[]`, with four empty queues. -/
def sample_link : Link :=
  { wlvif := none, allocated_pkts := 0, prev_freed_pkts := 0, total_freed_pkts := 0
    ba_bitmap := 0, addr := List.replicate 6 0, tx_queue := [[], [], [], []] }

/-- An interface with no link, of a bss type other than AP. -/
def sample_vif : Vif :=
  { bss_type := 0, role_id := 0xff, links_map := 0, total_freed_pkts := 0
    encryption_type := 0, ssid_len := 4, ap_bcast_hlid := 0xff, ap_global_hlid := 0xff }

/-- A device that is on, with no role enabled and every link free. -/
def sample_dev : Dev :=
  { cc := sample_cc
    vifs := fun _ => sample_vif
    roles_map := 0
    links_map := 0
    roc_map := 0
    links := fun _ => sample_link
    session_ids := fun _ => 0
    active_link_count := 0
    active_sta_count := 0
    band := 1
    rx_counter := 5
    power_level := 10
    tx_blocks_available := 3
    tx_allocated_blocks := 2
    ap_fw_ps_map := 0
    ap_ps_map := 0
    sleep_auth := 0
    rx_filter_enabled := fun _ => false
    ble_enable := 0
    tx_allocated_pkts := fun _ => 0
    target_mem_map := true
    reg_ch_conf_pending := 0
    reg_ch_conf_last := 0
    interrupts_enabled := 0
    power_off := 0 }

/-- A device in recovery (RESTARTING, `CC33XX_FLAG_RECOVERY_IN_PROGRESS` set)
with one AP interface, number 0, that owns the global link 1 and the broadcast
link 2; the broadcast link has freed 100 packets and the session ids of the
two links are 5 and 6. -/
def sample_dev_ap : Dev :=
  { sample_dev with
    cc := { sample_cc with
      state := DevState.CC33XX_STATE_RESTARTING
      flags := { CC33XX_FLAG_SUSPENDED := false
                 CC33XX_FLAG_PENDING_WORK := false
                 CC33XX_FLAG_RECOVERY_IN_PROGRESS := true } }
    vifs := fun i =>
      if i = 0 then
        { sample_vif with bss_type := 2, role_id := 1, links_map := 6
                          ap_bcast_hlid := 2, ap_global_hlid := 1 }
      else sample_vif
    links_map := 6
    links := fun h =>
      if h = 1 then { sample_link with wlvif := some 0 }
      else if h = 2 then
        { sample_link with wlvif := some 0, total_freed_pkts := 100, prev_freed_pkts := 90
                           ba_bitmap := 3, addr := [0xff, 0xff, 0xff, 0xff, 0xff, 0xff]
                           tx_queue := [[7], [], [8, 9], []] }
      else sample_link
    session_ids := fun h => if h = 1 then 5 else if h = 2 then 6 else 0
    active_link_count := 2 }

/-- The sample AP device with the counter of the broadcast link 2 at the
largest 64-bit value. -/
def sample_dev_ap_max : Dev :=
  { sample_dev_ap with
    links := fun h =>
      if h = 2 then { (sample_dev_ap.links 2) with total_freed_pkts := 2 ^ 64 - 1 }
      else sample_dev_ap.links h }

/-- The command completes with a result whose bytes 12 to 15 are 1, 2, 5, 6:
role id 1 for a role enable; global link 1, broadcast link 2 and session ids
5, 6 for a role start. -/
def sample_env_role : CmdEnv :=
  { write_ret := 0, wait_ret := 1
    command_result := [0, 0, 0, 0, 0, 0, 0, 0, 0, 0, 0, 0, 1, 2, 5, 6]
    result_length := 16 }

/-- The bus write succeeds and the wait times out. -/
def sample_env_timeout : CmdEnv :=
  { write_ret := 0, wait_ret := 0
    command_result := List.replicate 16 0
    result_length := 0 }

/-- Transmit constants used for evaluation: the watermark reason is reason 0
and the high watermark is 256 packets. -/
def sample_tx_consts : TxConsts :=
  { CC33XX_QUEUE_STOP_REASON_WATERMARK := 0, CC33XX_TX_QUEUE_HIGH_WATERMARK := 256 }

/-- A device whose interface 0 owns link 3; queue 1 of that interface is
stopped for the watermark reason (bit 0) and for one more reason (bit 1), and
holds no packet. -/
def sample_tx_dev : TxDev :=
  { d := { sample_dev with
      vifs := fun i => if i = 0 then { sample_vif with links_map := 8 } else sample_vif
      links_map := 8
      links := fun h => if h = 3 then { sample_link with wlvif := some 0 } else sample_link }
    tx_queue_count := fun _ => 0
    vif_tx_queue_count := fun _ _ => 0
    queue_stop_reasons := fun v q => if v = 0 ∧ q = 1 then 3 else 0
    CC33XX_FLAG_FW_TX_BUSY := false
    CC33XX_FLAG_TX_PENDING := false
    tx_work := 0
    freed_txskb := [] }

/-- Remain-on-channel constants used for evaluation; both commands are 16
bytes long and 16 ticks is the time that must have passed. -/
def sample_roc_consts : RocConsts :=
  { CMD_REMAIN_ON_CHANNEL := 20
    CMD_CANCEL_REMAIN_ON_CHANNEL := 21
    sizeof_cmd_roc := 16
    sizeof_cmd_croc := 16
    cmd_roc_bytes := fun role_id channel band =>
      List.replicate 12 0 ++ [role_id % 256, channel % 256, band % 256, 0]
    cmd_croc_bytes := fun role_id => List.replicate 12 0 ++ [role_id % 256, 0, 0, 0]
    NL80211_BAND_5GHZ := 1
    CC33XX_BAND_2_4GHZ := 0
    CC33XX_BAND_5GHZ := 1
    CC33XX_MAX_ROLES := 4
    roc_timeout_spare_jiffies := 16 }

/-- A device that is ON with no reservation; interface 0 has role 1 and
stamped its pending reply at tick 1000. -/
def sample_roc_dev : RocDev :=
  { d := { sample_dev with
      vifs := fun i => if i = 0 then { sample_vif with role_id := 1 } else sample_vif }
    tx_watchdog_work := 0
    pending_auth_reply_time := fun _ => 1000 }

/-- The same device with the reservation of role 1 held. -/
def sample_roc_dev_held : RocDev :=
  { sample_roc_dev with d := { sample_roc_dev.d with roc_map := 2 } }

/-- Receive constants used for evaluation: an 8-byte rx header with `len` at
offset 4. -/
def sample_rx_consts : RxConsts :=
  { sizeof_NAB_rx_header := 8, off_rx_len := 4, CC33XX_FW_RX_PACKET_RAM := 64 }

/-- A device whose last status block announced 2 rx units (SDIO, no transfer
limit). -/
def sample_irq_dev : IrqDev :=
  { cc := { sample_cc with core_status :=
      { block_pad := [0x55555555], host_interrupt_status := 0,
        rx_status := 2, tx_result_queue_index := 0, tsf := 0 } }
    max_transaction_len := 0
    deferred_events_runs := 0
    raw_reads := []
    rx := []
    tx_immediate_complete := 0 }

/-- An aggregated rx read of 32 bytes: the rx header with `len` 12, four
payload bytes, and at the tail a status block whose padding word is 0 instead
of 0x55555555, with the new-tx-result interrupt bit (2) set and rx count 2. -/
def sample_rx_read_bad_padding : BusRead :=
  { ret := 0
    data := [0, 0, 0, 0, 12, 0, 0, 0, 0xD1, 0xD2, 0xD3, 0xD4,
             0, 0, 0, 0, 2, 0, 0, 0, 2, 0, 0, 0, 0, 0, 0, 0, 0, 0, 0, 0] }

/-- Interface constants used for evaluation: a pool of 4 rate policies. -/
def sample_rate_consts : RateConsts :=
  { CC33XX_MAX_RATE_POLICIES := 4
    CONF_TX_MAX_AC_COUNT := 4
    BSS_TYPE_STA_BSS := 0
    BSS_TYPE_IBSS := 1
    MAX_BSS_TYPE := 3
    NL80211_IFTYPE_P2P_CLIENT := 8
    NL80211_IFTYPE_STATION := 2
    NL80211_IFTYPE_P2P_DEVICE := 10
    NL80211_IFTYPE_ADHOC := 1
    NL80211_IFTYPE_P2P_GO := 9
    NL80211_IFTYPE_AP := 3
    NL80211_IFTYPE_MESH_POINT := 7 }

/-- Block-ack constants used for evaluation: 4 links, at most 3 sessions. -/
def sample_ba_consts : BaConsts :=
  { BSS_TYPE_STA_BSS := 0
    CC33XX_MAX_LINKS := 4
    CC33XX_RX_BA_MAX_SESSIONS := 3
    IEEE80211_AMPDU_RX_START := 0
    IEEE80211_AMPDU_RX_STOP := 1 }

/-- A device that is ON whose station interface 0 owns link 1, with no
block-ack session open. -/
def sample_ba_dev : BaDev :=
  { d := { sample_dev with
      vifs := fun i => if i = 0 then { sample_vif with links_map := 2 } else sample_vif
      links_map := 2
      links := fun h => if h = 1 then { sample_link with wlvif := some 0 } else sample_link }
    ba_rx_session_count := 0 }

/-- The same device with the session of tid 0 open on link 1. -/
def sample_ba_dev_open : BaDev :=
  { d := { sample_ba_dev.d with
      links := fun h =>
        if h = 1 then { sample_link with wlvif := some 0, ba_bitmap := 1 } else sample_link }
    ba_rx_session_count := 1 }

/-- Filter constants used for evaluation: the header boundary is at offset 4,
a field costs 3 bytes on top of its pattern, at most 3 fields and 20 bytes. -/
def sample_wow_consts : WowConsts :=
  { CC33XX_RX_FILTER_ETH_HEADER_SIZE := 4
    RX_FILTER_FIELD_OVERHEAD := 3
    CC33XX_RX_FILTER_MAX_FIELDS := 3
    CC33XX_RX_FILTER_MAX_FIELDS_SIZE := 20
    CC33XX_RX_FILTER_FLAG_ETHERNET_HEADER := 1
    CC33XX_RX_FILTER_FLAG_IP_HEADER := 2
    FILTER_SIGNAL := 0 }

/-- A pattern of 8 bytes with the bytes 1 and 3 to 6 masked: the second run
crosses the header boundary at offset 4. -/
def sample_pattern : PktPattern :=
  { mask := some 0b01111010
    pattern := [0x10, 0x11, 0x12, 0x13, 0x14, 0x15, 0x16, 0x17]
    pattern_len := 8 }

/-! ## Command transport: screening, result copy, return value, failsafe -/

/-- Claim C1.  Screening before any I/O.  An opcode at or above
`CMD_LAST_SUPPORTED_COMMAND` makes `__cc33xx_cmd_send` return
`CMD_STATUS_SUCCESS` for any buffer and any length; below it, a length shorter
than the command header, longer than `cc->max_cmd_size` or not a multiple of 4
makes it return `-EIO`; `cc33xx_cmd_send` returns 0 for every locally
intercepted opcode.  In all three cases the device state (hence `cmd_buf`, the
record of bus writes, the device state and the recovery work) and the caller's
buffer are returned unchanged. -/
theorem cmd_send_screening (K : Consts) (env : CmdEnv) (cc : Cc) (id : Nat)
    (buf : List Nat) (len res_len : Nat) (sync : Bool) :
    (K.CMD_LAST_SUPPORTED_COMMAND ≤ id →
      __cc33xx_cmd_send K env cc id buf len res_len sync
        = ((K.CMD_STATUS_SUCCESS : Int), cc, buf))
    ∧ (id < K.CMD_LAST_SUPPORTED_COMMAND →
        (len < K.sizeof_cmd_header ∨ len > cc.max_cmd_size ∨ len % 4 ≠ 0) →
        __cc33xx_cmd_send K env cc id buf len res_len sync = (- EIO, cc, buf))
    ∧ ((id = K.CMD_EMPTY ∨ id = K.CMD_START_DHCP_MGMT_SEQ
          ∨ id = K.CMD_STOP_DHCP_MGMT_SEQ ∨ id = K.CMD_START_SECURITY_MGMT_SEQ
          ∨ id = K.CMD_STOP_SECURITY_MGMT_SEQ ∨ id = K.CMD_START_ARP_MGMT_SEQ
          ∨ id = K.CMD_STOP_ARP_MGMT_SEQ ∨ id = K.CMD_START_DNS_MGMT_SEQ
          ∨ id = K.CMD_STOP_DNS_MGMT_SEQ ∨ id = K.CMD_SEND_DEAUTH_DISASSOC
          ∨ id = K.CMD_SCHED_STATE_EVENT) →
        cc33xx_cmd_send K env cc id buf len res_len = (0, cc, buf)) := by
  refine ⟨?_, ?_, ?_⟩
  · intro h
    simp [__cc33xx_cmd_send, h]
  · intro h1 h2
    have h1n : ¬ K.CMD_LAST_SUPPORTED_COMMAND ≤ id := Nat.not_le.mpr h1
    simp only [__cc33xx_cmd_send, ge_iff_le, h1n, if_false, gt_iff_lt, ne_eq]
    rw [if_pos h2]
  · intro h
    have : locally_intercepted K id = true := by
      simp only [locally_intercepted, decide_eq_true_eq]
      exact h
    simp [cc33xx_cmd_send, this]

/-- The three cases of C1 on concrete inputs: opcode 200 with a 3-byte length,
opcode 7 with length 10 (shorter than the header), and the intercepted opcode
`CMD_SEND_DEAUTH_DISASSOC`. -/
theorem cmd_send_screening_witness :
    __cc33xx_cmd_send sample_consts sample_env_completed sample_cc 200 sample_buf 3 0 true
        = (0, sample_cc, sample_buf)
    ∧ __cc33xx_cmd_send sample_consts sample_env_completed sample_cc 7 sample_buf 10 0 true
        = (- EIO, sample_cc, sample_buf)
    ∧ cc33xx_cmd_send sample_consts sample_env_completed sample_cc 49 sample_buf 16 0
        = (0, sample_cc, sample_buf) :=
  ⟨(cmd_send_screening sample_consts sample_env_completed sample_cc 200 sample_buf 3 0
      true).1 (by decide),
   (cmd_send_screening sample_consts sample_env_completed sample_cc 7 sample_buf 10 0
      true).2.1 (by decide) (by decide),
   (cmd_send_screening sample_consts sample_env_completed sample_cc 49 sample_buf 16 0
      true).2.2 (by decide)⟩

/-- Claim C2, as stated, fails: `CMD_INTERROGATE` completes with a 12-byte
result while the caller expects 4 bytes.  The claim wants the first 4 result
bytes right after the NAB header; the code copies nothing, the bytes after the
NAB header are still the stamped `id` and `status`. -/
theorem result_copy_truncates_counterexample :
    sample_env_completed.result_length = 12
    ∧ bytes (__cc33xx_cmd_send sample_consts sample_env_completed sample_cc 2 sample_buf
        16 4 true).2.2 sample_consts.sizeof_NAB_header (min 12 4)
      ≠ bytes sample_env_completed.command_result 0 (min 12 4)
    ∧ bytes (__cc33xx_cmd_send sample_consts sample_env_completed sample_cc 2 sample_buf
        16 4 true).2.2 sample_consts.sizeof_NAB_header (min 12 4) = [2, 0, 0, 0] := by
  decide

/-- Claim C2, amended.  A synchronous send of a result-bearing opcode that
completes with a device result of length `R`, the caller expecting `L > 0`
bytes: when `R ≤ L` exactly the `R` result bytes are copied right after the NAB
header of the stamped buffer; when `R > L` nothing is copied at all. -/
theorem result_copy (K : Consts) (env : CmdEnv) (cc : Cc) (id : Nat)
    (buf : List Nat) (len res_len : Nat)
    (hid : id < K.CMD_LAST_SUPPORTED_COMMAND)
    (hres : id = K.CMD_INTERROGATE ∨ id = K.CMD_DEBUG_READ ∨ id = K.CMD_TEST_MODE
      ∨ id = K.CMD_BM_READ_DEVICE_INFO)
    (hlen : K.sizeof_cmd_header ≤ len ∧ len ≤ cc.max_cmd_size ∧ len % 4 = 0)
    (hwrite : 0 ≤ env.write_ret) (hwait : 1 ≤ env.wait_ret) (hL : 0 < res_len) :
    (env.result_length ≤ res_len →
      (__cc33xx_cmd_send K env cc id buf len res_len true).2.2
        = mem_write (stamped K buf len id) K.sizeof_NAB_header
            (bytes env.command_result 0 env.result_length))
    ∧ (res_len < env.result_length →
      (__cc33xx_cmd_send K env cc id buf len res_len true).2.2
        = stamped K buf len id) := by
  have h1n : ¬ K.CMD_LAST_SUPPORTED_COMMAND ≤ id := Nat.not_le.mpr hid
  have h2n : ¬ (len < K.sizeof_cmd_header ∨ len > cc.max_cmd_size ∨ len % 4 ≠ 0) := by
    rintro (h | h | h)
    · exact absurd hlen.1 (Nat.not_le.mpr h)
    · exact absurd hlen.2.1 (Nat.not_le.mpr h)
    · exact h hlen.2.2
  have h3n : ¬ env.write_ret < 0 := not_lt.mpr hwrite
  have h4n : ¬ env.wait_ret < 1 := not_lt.mpr hwait
  have h5n : ¬ res_len = 0 := Nat.pos_iff_ne_zero.mp hL
  constructor
  · intro hR
    have h6n : ¬ env.result_length > res_len := Nat.not_lt.mpr hR
    simp only [__cc33xx_cmd_send, send_buffer, stamped, ge_iff_le, h1n, if_false, h2n,
      h3n, h4n, hres, if_true, h5n, h6n, Bool.not_true, Bool.false_eq_true]
  · intro hR
    simp only [__cc33xx_cmd_send, send_buffer, stamped, ge_iff_le, h1n, if_false, h2n,
      h3n, h4n, hres, if_true, h5n, gt_iff_lt, hR, Bool.not_true, Bool.false_eq_true]

/-- The amended C2 on concrete inputs: a 12-byte result is copied when 16 bytes
are expected. -/
theorem result_copy_witness :
    (__cc33xx_cmd_send sample_consts sample_env_completed sample_cc 2 sample_buf 16 16
        true).2.2
      = [0x5C, 0x5C, 0x5C, 0x5C, 2, 0, 16, 0,
          0x11, 0x12, 0x13, 0x14, 0x15, 0x16, 0x17, 0x18, 0x19, 0x1A, 2, 0] :=
  ((result_copy sample_consts sample_env_completed sample_cc 2 sample_buf 16 16
      (by decide) (by decide) (by decide) (by decide) (by decide) (by decide)).1
    (by decide)).trans (by decide)

/-- Claim C3 fails on the code: whatever the command-completion payload holds,
a synchronous command that the firmware completes makes `__cc33xx_cmd_send`
return `CMD_STATUS_SUCCESS`; the status the device reported is never read. -/
theorem cmd_send_completed_returns_success (K : Consts) (env : CmdEnv) (cc : Cc)
    (id : Nat) (buf : List Nat) (len res_len : Nat)
    (hid : id < K.CMD_LAST_SUPPORTED_COMMAND)
    (hlen : K.sizeof_cmd_header ≤ len ∧ len ≤ cc.max_cmd_size ∧ len % 4 = 0)
    (hwrite : 0 ≤ env.write_ret) (hwait : 1 ≤ env.wait_ret) :
    (__cc33xx_cmd_send K env cc id buf len res_len true).1
      = (K.CMD_STATUS_SUCCESS : Int) := by
  have h1n : ¬ K.CMD_LAST_SUPPORTED_COMMAND ≤ id := Nat.not_le.mpr hid
  have h2n : ¬ (len < K.sizeof_cmd_header ∨ len > cc.max_cmd_size ∨ len % 4 ≠ 0) := by
    rintro (h | h | h)
    · exact absurd hlen.1 (Nat.not_le.mpr h)
    · exact absurd hlen.2.1 (Nat.not_le.mpr h)
    · exact h hlen.2.2
  have h3n : ¬ env.write_ret < 0 := not_lt.mpr hwrite
  have h4n : ¬ env.wait_ret < 1 := not_lt.mpr hwait
  simp only [__cc33xx_cmd_send, send_buffer, ge_iff_le, h1n, if_false, h2n, h3n, h4n,
    Bool.not_true, Bool.false_eq_true]
  split_ifs <;> rfl

/-- The failing input of C3: the completion payload carries the status 2 in
the status field of its command header, and the send returns
`CMD_STATUS_SUCCESS` (0). -/
theorem cmd_send_completed_returns_success_witness :
    le16_at sample_env_completed.command_result sample_consts.off_status = 2
    ∧ (__cc33xx_cmd_send sample_consts sample_env_completed sample_cc 7 sample_buf 16 0
        true).1 = 0 :=
  ⟨by decide,
   cmd_send_completed_returns_success sample_consts sample_env_completed sample_cc 7
     sample_buf 16 0 (by decide) (by decide) (by decide) (by decide)⟩

/-- Claim C4.  Timeout.  For a device-handled opcode with a valid length and a
successful bus write, when the wait for the completion times out (returns 0)
and the device state is ON, `cc33xx_cmd_send` returns `-EIO`, the state becomes
RESTARTING, `CC33XX_FLAG_RECOVERY_IN_PROGRESS` is set and the recovery work is
queued exactly once. -/
theorem cmd_send_timeout (K : Consts) (env : CmdEnv) (cc : Cc) (id : Nat)
    (buf : List Nat) (len res_len : Nat)
    (hloc : ¬ (id = K.CMD_EMPTY ∨ id = K.CMD_START_DHCP_MGMT_SEQ
          ∨ id = K.CMD_STOP_DHCP_MGMT_SEQ ∨ id = K.CMD_START_SECURITY_MGMT_SEQ
          ∨ id = K.CMD_STOP_SECURITY_MGMT_SEQ ∨ id = K.CMD_START_ARP_MGMT_SEQ
          ∨ id = K.CMD_STOP_ARP_MGMT_SEQ ∨ id = K.CMD_START_DNS_MGMT_SEQ
          ∨ id = K.CMD_STOP_DNS_MGMT_SEQ ∨ id = K.CMD_SEND_DEAUTH_DISASSOC
          ∨ id = K.CMD_SCHED_STATE_EVENT))
    (hid : id < K.CMD_LAST_SUPPORTED_COMMAND)
    (hlen : K.sizeof_cmd_header ≤ len ∧ len ≤ cc.max_cmd_size ∧ len % 4 = 0)
    (hwrite : 0 ≤ env.write_ret) (hwait : env.wait_ret < 1)
    (hon : cc.state = DevState.CC33XX_STATE_ON) :
    (cc33xx_cmd_send K env cc id buf len res_len).1 = - EIO
    ∧ (cc33xx_cmd_send K env cc id buf len res_len).2.1.state
        = DevState.CC33XX_STATE_RESTARTING
    ∧ (cc33xx_cmd_send K env cc id buf len res_len).2.1.flags.CC33XX_FLAG_RECOVERY_IN_PROGRESS
        = true
    ∧ (cc33xx_cmd_send K env cc id buf len res_len).2.1.recovery_work
        = cc.recovery_work + 1 := by
  have h0 : locally_intercepted K id = false := by
    simp only [locally_intercepted, decide_eq_false_iff_not]
    exact hloc
  have h1n : ¬ K.CMD_LAST_SUPPORTED_COMMAND ≤ id := Nat.not_le.mpr hid
  have h2n : ¬ (len < K.sizeof_cmd_header ∨ len > cc.max_cmd_size ∨ len % 4 ≠ 0) := by
    rintro (h | h | h)
    · exact absurd hlen.1 (Nat.not_le.mpr h)
    · exact absurd hlen.2.1 (Nat.not_le.mpr h)
    · exact h hlen.2.2
  have h3n : ¬ env.write_ret < 0 := not_lt.mpr hwrite
  have hsend : __cc33xx_cmd_send K env cc id buf len res_len true
      = (- EIO,
          { (send_buffer K env.write_ret { cc with command_complete := 0 }
              (stamped K buf len id) len).2 with
            command_result := env.command_result
            result_length := env.result_length },
          stamped K buf len id) := by
    simp only [__cc33xx_cmd_send, send_buffer, stamped, ge_iff_le, h1n, if_false, h2n,
      h3n, hwait, if_true, Bool.not_true, Bool.false_eq_true]
  have hneg : (- EIO : Int) < 0 := by decide
  simp only [cc33xx_cmd_send, h0, Bool.false_eq_true, if_false, ge_iff_le, h1n,
    cc33xx_cmd_send_failsafe, hsend, cc33xx_cmd_send_failsafe_ret, hneg, if_true,
    cc33xx_queue_recovery_work, send_buffer, hon]
  exact ⟨trivial, trivial, trivial, trivial⟩

/-- The timeout of C4 on a concrete input: opcode 7, 16 bytes, the wait returns 0. -/
theorem cmd_send_timeout_witness :
    (cc33xx_cmd_send sample_consts sample_env_timeout sample_cc 7 sample_buf 16 0).1 = - EIO
    ∧ (cc33xx_cmd_send sample_consts sample_env_timeout sample_cc 7 sample_buf 16 0).2.1.state
        = DevState.CC33XX_STATE_RESTARTING
    ∧ (cc33xx_cmd_send sample_consts sample_env_timeout sample_cc 7 sample_buf 16
        0).2.1.flags.CC33XX_FLAG_RECOVERY_IN_PROGRESS = true
    ∧ (cc33xx_cmd_send sample_consts sample_env_timeout sample_cc 7 sample_buf 16
        0).2.1.recovery_work = sample_cc.recovery_work + 1 :=
  cmd_send_timeout sample_consts sample_env_timeout sample_cc 7 sample_buf 16 0
    (by decide) (by decide) (by decide) (by decide) (by decide) (by decide)

/-- The padding loop returns 0 exactly on blocks whose words are all the
sentinel, and -1 otherwise. -/
theorem verify_padding_loop_eq (l : List Nat) :
    (verify_padding_loop l = 0 ↔ ∀ w ∈ l, w = 0x55555555)
    ∧ (verify_padding_loop l = 0 ∨ verify_padding_loop l = -1) := by
  induction l with
  | nil => simp [verify_padding_loop]
  | cons w ws ih =>
    by_cases hw : w = 0x55555555
    · subst hw
      simpa [verify_padding_loop] using ih
    · simp [verify_padding_loop, hw]

/-- Claim C6.  Corruption detection on the interrupt path.  `verify_padding`
returns 0 if and only if every word of `block_pad` equals `0x55555555`; and in
`cc33xx_irq`, with the device not suspended and a status read that succeeded, a
status block with a padding word different from `0x55555555` is not processed:
the outcome is the freshly read block with `cc33xx_queue_recovery_work`
applied, so no event is deferred, no command completion is signalled, no rx/tx
work is queued, and an ON device goes to RESTARTING with the recovery work
queued once. -/
theorem irq_rejects_bad_padding (K : Consts) :
    (∀ core_status : CoreStatus,
      verify_padding core_status = 0 ↔ ∀ w ∈ core_status.block_pad, w = 0x55555555)
    ∧ (∀ (status : BusRead) (reads : List CtrlRead) (cc : Cc),
        cc.flags.CC33XX_FLAG_SUSPENDED = false → 0 ≤ status.ret →
        (∃ w ∈ (K.core_status_of_bytes status.data).block_pad, w ≠ 0x55555555) →
        ∃ cc', cc33xx_irq K status reads cc = some cc'
          ∧ cc' = cc33xx_queue_recovery_work
              { cc with core_status := K.core_status_of_bytes status.data }
          ∧ cc'.deferred_events = cc.deferred_events
          ∧ cc'.command_complete = cc.command_complete
          ∧ cc'.command_result = cc.command_result
          ∧ cc'.irq_deferred_work = cc.irq_deferred_work
          ∧ cc'.boot_irqs = cc.boot_irqs
          ∧ (cc.state = DevState.CC33XX_STATE_ON →
              cc'.state = DevState.CC33XX_STATE_RESTARTING
              ∧ cc'.flags.CC33XX_FLAG_RECOVERY_IN_PROGRESS = true
              ∧ cc'.recovery_work = cc.recovery_work + 1)) := by
  constructor
  · intro core_status
    exact (verify_padding_loop_eq core_status.block_pad).1
  · intro status reads cc hsusp hret hbad
    have hv : verify_padding (K.core_status_of_bytes status.data) < 0 := by
      have h1 := verify_padding_loop_eq (K.core_status_of_bytes status.data).block_pad
      rcases h1.2 with h0 | hm
      · obtain ⟨w, hw, hne⟩ := hbad
        exact absurd (h1.1.mp h0 w hw) hne
      · simp only [verify_padding, hm]
        decide
    have hr : ¬ status.ret < 0 := not_lt.mpr hret
    refine ⟨_, ?_, rfl, ?_⟩
    · simp only [cc33xx_irq, hsusp, Bool.false_eq_true, if_false, hr, hv, if_true]
    · by_cases hon : cc.state = DevState.CC33XX_STATE_ON
      · simp [cc33xx_queue_recovery_work, hon]
      · simp [cc33xx_queue_recovery_work, hon]

/-- C6 on a concrete status block: the padding word is `0x55555554`, the
command-complete bit is set. -/
theorem irq_rejects_bad_padding_witness :
    ∃ cc', cc33xx_irq sample_consts
        { ret := 0, data := [0x54, 0x55, 0x55, 0x55, 1, 0, 0, 0, 0, 0, 0, 0, 0, 0, 0, 0,
            0, 0, 0, 0] } [] sample_cc = some cc'
      ∧ cc'.deferred_events = sample_cc.deferred_events
      ∧ cc'.command_complete = sample_cc.command_complete
      ∧ cc'.irq_deferred_work = sample_cc.irq_deferred_work
      ∧ cc'.state = DevState.CC33XX_STATE_RESTARTING
      ∧ cc'.recovery_work = 1 := by
  obtain ⟨cc', h1, _, h3, h4, _, h6, _, h8⟩ :=
    (irq_rejects_bad_padding sample_consts).2
      { ret := 0, data := [0x54, 0x55, 0x55, 0x55, 1, 0, 0, 0, 0, 0, 0, 0, 0, 0, 0, 0,
          0, 0, 0, 0] } [] sample_cc (by decide) (by decide) (by decide)
  exact ⟨cc', h1, h3, h4, h6, (h8 (by decide)).1, (h8 (by decide)).2.2⟩

/-! ## Status and event reader: the record walk -/

/-- The type that `get_type` masks out is the low 4 bits of the descriptor. -/
theorem get_type_eq (mem : List Nat) (p : Nat) :
    get_type mem p = (record_at mem p).type := by
  simp only [get_type, record_at, CTRL_TYPE_BITS]
  exact Nat.and_pow_two_sub_one_eq_mod _ 4

/-- The length that `get_length` shifts out is the upper 12 bits of the
descriptor. -/
theorem get_length_eq (mem : List Nat) (p : Nat) :
    get_length mem p = (record_at mem p).length := by
  simp only [get_length, record_at, CTRL_TYPE_BITS, Nat.shiftRight_eq_div_pow]

/-- The bytes handed on by the parser are the payload of the record. -/
theorem payload_eq (mem : List Nat) (p : Nat) :
    bytes mem (p + 2) (record_at mem p).length = (record_at mem p).payload := rfl

/-- A slice has the length asked for. -/
theorem bytes_length (mem : List Nat) (p n : Nat) : (bytes mem p n).length = n := by
  simp [bytes]

/-- The payload of a record has the length its descriptor declares. -/
theorem record_at_payload_length (mem : List Nat) (p : Nat) :
    (record_at mem p).payload.length = (record_at mem p).length := by
  simp [record_at, bytes_length]

/-- Every record of a walk carries a payload of its declared length. -/
theorem records_from_payload_length (mem : List Nat) (e : Nat) :
    ∀ (fuel p : Nat), ∀ r ∈ records_from mem e fuel p, r.payload.length = r.length := by
  intro fuel
  induction fuel with
  | zero => intro p r hr; simp [records_from] at hr
  | succ n ih =>
    intro p r hr
    by_cases hp : p < e
    · simp only [records_from, hp, if_true, List.mem_cons] at hr
      rcases hr with rfl | hr
      · exact record_at_payload_length mem p
      · exact ih _ r hr
    · simp [records_from, hp] at hr

/-- The record walk does not depend on its bound once the bound covers the
bytes that are left: the walk of `stream_records` is never cut short. -/
theorem records_from_fuel (mem : List Nat) (e : Nat) :
    ∀ (fuel fuel' p : Nat), e - p ≤ fuel → e - p ≤ fuel' →
      records_from mem e fuel p = records_from mem e fuel' p := by
  intro fuel
  induction fuel with
  | zero =>
    intro fuel' p h _
    have hp : ¬ p < e := by omega
    cases fuel' with
    | zero => rfl
    | succ m => simp [records_from, hp]
  | succ n ih =>
    intro fuel' p h h'
    by_cases hp : p < e
    · cases fuel' with
      | zero => omega
      | succ m =>
        simp only [records_from, hp, if_true]
        rw [ih m _ (by omega) (by omega)]
    · cases fuel' with
      | zero => simp [records_from, hp]
      | succ m => simp [records_from, hp]

/-- The loop of `parse_control_message` against the record walk: with enough
passes allowed the loop ends; it fails exactly when the walk holds a malformed
record, and it has dispatched the records before the first malformed one. -/
theorem parse_loop_records (K : Consts) (mem : List Nat) (e : Nat)
    (hne : K.CTRL_MSG_EVENT ≠ K.CTRL_MSG_COMMND_COMPLETE) :
    ∀ (fuel p : Nat) (cc : Cc), e - p ≤ fuel →
      parse_loop K mem e fuel p cc
        = some (if (records_from mem e fuel p).any (malformed K) then - EIO else 0,
            ((records_from mem e fuel p).takeWhile (fun r => !malformed K r)).foldl
              (dispatch K) cc) := by
  intro fuel
  induction fuel with
  | zero =>
    intro p cc h
    have hp : ¬ p < e := by omega
    simp [parse_loop, records_from, hp]
  | succ n ih =>
    intro p cc h
    by_cases hp : p < e
    · have hstep : e - (p + 2 + (record_at mem p).length) ≤ n := by omega
      simp only [parse_loop, records_from, hp, if_true, get_type_eq, get_length_eq,
        sizeof_descriptor, payload_eq]
      by_cases hev : (record_at mem p).type = K.CTRL_MSG_EVENT
      · have hm : malformed K (record_at mem p) = false := by
          simp only [malformed, decide_eq_false_iff_not]
          rintro (⟨h1, _⟩ | ⟨h1, _⟩)
          · exact h1 hev
          · exact hne (hev.symm.trans h1)
        rw [if_pos hev, ih _ _ hstep]
        simp [hm, dispatch, hev]
      · rw [if_neg hev]
        by_cases hcc : (record_at mem p).type = K.CTRL_MSG_COMMND_COMPLETE
        · rw [if_pos hcc]
          by_cases hlen : (record_at mem p).length > K.sizeof_command_result
          · have hm : malformed K (record_at mem p) = true := by
              simp only [malformed, decide_eq_true_eq]
              exact Or.inr ⟨hcc, hlen⟩
            rw [if_pos hlen]
            simp [hm]
          · have hm : malformed K (record_at mem p) = false := by
              simp only [malformed, decide_eq_false_iff_not]
              rintro (⟨_, h2⟩ | ⟨_, h2⟩)
              · exact h2 hcc
              · exact hlen h2
            rw [if_neg hlen, ih _ _ hstep]
            simp [hm, dispatch, hev]
        · have hm : malformed K (record_at mem p) = true := by
            simp only [malformed, decide_eq_true_eq]
            exact Or.inl ⟨hev, hcc⟩
          rw [if_neg hcc]
          simp [hm]
    · simp [parse_loop, records_from, hp]

/-- Function `parse_control_message` against the record walk. -/
theorem parse_control_message_eq (K : Consts) (cc : Cc) (mem : List Nat)
    (buffer buffer_length : Nat)
    (hne : K.CTRL_MSG_EVENT ≠ K.CTRL_MSG_COMMND_COMPLETE) :
    parse_control_message K cc mem buffer buffer_length
      = some (if (stream_records mem buffer buffer_length).any (malformed K) then - EIO
              else 0,
          ((stream_records mem buffer buffer_length).takeWhile
            (fun r => !malformed K r)).foldl (dispatch K) cc) := by
  have h : buffer + buffer_length - buffer ≤ buffer_length := by omega
  exact parse_loop_records K mem (buffer + buffer_length) hne buffer_length buffer cc h

/-- Dispatching a list of well-formed records: the events are deferred in list
order, every command completion signals the waiter once, and the pending
command state holds the last command completion (or is untouched when there is
none). -/
theorem foldl_dispatch (K : Consts)
    (hne : K.CTRL_MSG_EVENT ≠ K.CTRL_MSG_COMMND_COMPLETE) :
    ∀ (l : List CtrlRecord) (cc : Cc), (∀ r ∈ l, malformed K r = false) →
      (l.foldl (dispatch K) cc).deferred_events
          = cc.deferred_events ++ (l.filter (is_event K)).map (fun r => r.payload)
      ∧ (l.foldl (dispatch K) cc).command_complete
          = cc.command_complete + (l.filter (is_command_complete K)).length
      ∧ (∀ r, (l.filter (is_command_complete K)).getLast? = some r →
          (l.foldl (dispatch K) cc).result_length = r.payload.length
          ∧ (l.foldl (dispatch K) cc).command_result.take r.payload.length = r.payload)
      ∧ (l.filter (is_command_complete K) = [] →
          (l.foldl (dispatch K) cc).result_length = cc.result_length
          ∧ (l.foldl (dispatch K) cc).command_result = cc.command_result) := by
  intro l
  induction l with
  | nil => intro cc _; simp
  | cons r l ih =>
    intro cc hl
    have hr : malformed K r = false := hl r (List.mem_cons_self r l)
    have hl' : ∀ x ∈ l, malformed K x = false :=
      fun x hx => hl x (List.mem_cons_of_mem r hx)
    obtain ⟨i1, i2, i3, i4⟩ := ih (dispatch K cc r) hl'
    simp only [malformed, decide_eq_false_iff_not, not_or, not_and, not_not] at hr
    rw [List.foldl_cons]
    by_cases hev : r.type = K.CTRL_MSG_EVENT
    · have hncc : ¬ r.type = K.CTRL_MSG_COMMND_COMPLETE := fun h => hne (hev.symm.trans h)
      have e1 : is_event K r = true := by simp [is_event, hev]
      have e2 : is_command_complete K r = false := by simp [is_command_complete, hncc]
      have hd : dispatch K cc r = deffer_event cc r.payload := by simp [dispatch, hev]
      rw [List.filter_cons_of_pos e1, List.filter_cons_of_neg (by simp [e2])]
      refine ⟨?_, ?_, ?_, ?_⟩
      · rw [i1, hd]; simp [deffer_event]
      · rw [i2, hd]; rfl
      · exact i3
      · intro h
        obtain ⟨j1, j2⟩ := i4 h
        rw [j1, j2, hd]
        exact ⟨rfl, rfl⟩
    · have hcc : r.type = K.CTRL_MSG_COMMND_COMPLETE := hr.1 hev
      have e1 : is_event K r = false := by simp [is_event, hev]
      have e2 : is_command_complete K r = true := by simp [is_command_complete, hcc]
      have hd : dispatch K cc r = store_command_result cc r.payload := by
        simp [dispatch, hev]
      rw [List.filter_cons_of_neg (by simp [e1]), List.filter_cons_of_pos e2]
      refine ⟨?_, ?_, ?_, ?_⟩
      · rw [i1, hd]; rfl
      · rw [i2, hd]
        simp only [store_command_result, List.length_cons]
        omega
      · intro r0 h0
        cases hfl : l.filter (is_command_complete K) with
        | nil =>
          rw [hfl] at h0
          simp only [List.getLast?_singleton, Option.some.injEq] at h0
          subst h0
          obtain ⟨j1, j2⟩ := i4 hfl
          rw [j1, j2, hd]
          refine ⟨rfl, ?_⟩
          simp only [store_command_result, mem_write, List.take_zero, List.nil_append]
          exact List.take_left _ _
        | cons a t =>
          rw [hfl, List.getLast?_cons_cons] at h0
          exact i3 r0 (hfl ▸ h0)
      · intro h
        exact absurd h (List.cons_ne_nil _ _)

/-- Claim C7.  Malformed control records are fatal to the whole read.
`parse_control_message` returns `-EIO` if and only if the walk over the records
of the payload meets a record whose type is neither `CTRL_MSG_EVENT` nor
`CTRL_MSG_COMMND_COMPLETE`, or a `CTRL_MSG_COMMND_COMPLETE` record longer than
`cc->command_result`; otherwise it returns 0.  The state it leaves is the one
obtained by dispatching the records before the first malformed one: neither the
malformed record nor any later record is dispatched. -/
theorem parse_control_message_malformed (K : Consts) (cc : Cc) (mem : List Nat)
    (buffer buffer_length : Nat)
    (hne : K.CTRL_MSG_EVENT ≠ K.CTRL_MSG_COMMND_COMPLETE) :
    ((parse_control_message K cc mem buffer buffer_length).map Prod.fst = some (- EIO)
        ↔ ∃ r ∈ stream_records mem buffer buffer_length, malformed K r = true)
    ∧ ((parse_control_message K cc mem buffer buffer_length).map Prod.fst = some 0
        ↔ ¬ ∃ r ∈ stream_records mem buffer buffer_length, malformed K r = true)
    ∧ (parse_control_message K cc mem buffer buffer_length).map Prod.snd
        = some (((stream_records mem buffer buffer_length).takeWhile
            (fun r => !malformed K r)).foldl (dispatch K) cc) := by
  rw [parse_control_message_eq K cc mem buffer buffer_length hne]
  have hE : (- EIO : Int) ≠ 0 := by decide
  by_cases h : (stream_records mem buffer buffer_length).any (malformed K) = true
  · have h' := List.any_eq_true.mp h
    simp only [h, if_true, Option.map_some', true_iff, Option.some.injEq, hE, false_iff,
      not_not, and_true]
    exact ⟨h', h'⟩
  · have h' : ¬ ∃ r ∈ stream_records mem buffer buffer_length, malformed K r = true :=
      fun hx => h (List.any_eq_true.mpr hx)
    simp only [h, Bool.false_eq_true, if_false, Option.map_some', Option.some.injEq,
      hE.symm, false_iff, true_iff, and_true]
    exact ⟨h', h'⟩

/-- C7 on a concrete message: the record of type 7 makes the read fail, the
event before it was deferred, the event after it was not. -/
theorem parse_control_message_malformed_witness :
    (parse_control_message sample_consts sample_cc sample_stream_bad 0 8).map Prod.fst
        = some (- EIO)
    ∧ (parse_control_message sample_consts sample_cc sample_stream_bad 0 8).map Prod.snd
        = some { sample_cc with deferred_events := [[0xE1]] } :=
  ⟨(parse_control_message_malformed sample_consts sample_cc sample_stream_bad 0 8
      (by decide)).1.mpr (by decide),
   (parse_control_message_malformed sample_consts sample_cc sample_stream_bad 0 8
      (by decide)).2.2.trans (by decide)⟩

/-- Claim C8.  Event ordering.  For a control message that
`parse_control_message` accepts (returns 0), the payloads handed to
`deffer_event` are exactly those of the `CTRL_MSG_EVENT` records of the stream,
in stream order; each record is read with its type in the low 4 bits of the
descriptor and its length in the upper 12 bits, and its payload is the `length`
bytes that follow the descriptor. -/
theorem parse_event_order (K : Consts) (cc : Cc) (mem : List Nat)
    (buffer buffer_length : Nat)
    (hne : K.CTRL_MSG_EVENT ≠ K.CTRL_MSG_COMMND_COMPLETE)
    (hacc : (parse_control_message K cc mem buffer buffer_length).map Prod.fst = some 0) :
    (parse_control_message K cc mem buffer buffer_length).map
        (fun x => x.2.deferred_events)
      = some (cc.deferred_events
          ++ ((stream_records mem buffer buffer_length).filter (is_event K)).map
              (fun r => r.payload))
    ∧ ∀ r ∈ stream_records mem buffer buffer_length, r.payload.length = r.length := by
  have hE : (- EIO : Int) ≠ 0 := by decide
  have hany : ¬ (stream_records mem buffer buffer_length).any (malformed K) = true := by
    intro h
    rw [parse_control_message_eq K cc mem buffer buffer_length hne] at hacc
    simp only [h, if_true, Option.map_some', Option.some.injEq] at hacc
    exact hE hacc
  have hok : ∀ r ∈ stream_records mem buffer buffer_length, malformed K r = false := by
    intro r hr
    cases hm : malformed K r
    · rfl
    · exact absurd (List.any_eq_true.mpr ⟨r, hr, hm⟩) hany
  have htw : (stream_records mem buffer buffer_length).takeWhile (fun r => !malformed K r)
      = stream_records mem buffer buffer_length :=
    List.takeWhile_eq_self_iff.mpr (fun r hr => by simp [hok r hr])
  constructor
  · rw [parse_control_message_eq K cc mem buffer buffer_length hne, htw]
    simp only [Option.map_some', Option.some.injEq]
    exact (foldl_dispatch K hne _ cc hok).1
  · exact records_from_payload_length mem _ _ _

/-- C8 on a concrete message: the two events around a command completion reach
`deffer_event` in stream order. -/
theorem parse_event_order_witness :
    (parse_control_message sample_consts sample_cc sample_stream 0 12).map
        (fun x => x.2.deferred_events) = some [[0xE1, 0xE2], [0xE3]] :=
  (parse_event_order sample_consts sample_cc sample_stream 0 12 (by decide)
    (by decide)).1.trans (by decide)

/-- Claim C9, as stated, fails: a message with two command completions is
accepted, the waiter is signalled twice and the pending command state ends up
holding the second payload, which overwrote the first. -/
theorem parse_two_completions_counterexample :
    (parse_control_message sample_consts sample_cc sample_stream_two 0 9).map
        (fun x => (x.1, x.2.command_complete, x.2.result_length,
          x.2.command_result.take 3))
      = some (0, sample_cc.command_complete + 2, 3, [0xB1, 0xB2, 0xB3]) := by
  decide

/-- Claim C9, amended.  One call of `parse_control_message` signals
`cc->command_complete` once for every `CTRL_MSG_COMMND_COMPLETE` record it
dispatches (the records before the first malformed one) and copies each of
their payloads; afterwards the pending command state holds the last of them
(its length in `result_length`, its payload at the start of `command_result`),
and it is untouched when there is none.  So there is at most one copy and one
signal exactly when the read holds at most one such record. -/
theorem parse_completions (K : Consts) (cc : Cc) (mem : List Nat)
    (buffer buffer_length : Nat)
    (hne : K.CTRL_MSG_EVENT ≠ K.CTRL_MSG_COMMND_COMPLETE) :
    (parse_control_message K cc mem buffer buffer_length).map
        (fun x => x.2.command_complete)
      = some (cc.command_complete
          + (((stream_records mem buffer buffer_length).takeWhile
              (fun r => !malformed K r)).filter (is_command_complete K)).length)
    ∧ (∀ r, (((stream_records mem buffer buffer_length).takeWhile
              (fun r => !malformed K r)).filter (is_command_complete K)).getLast? = some r →
        (parse_control_message K cc mem buffer buffer_length).map
            (fun x => (x.2.result_length, x.2.command_result.take r.length))
          = some (r.length, r.payload))
    ∧ (((stream_records mem buffer buffer_length).takeWhile
              (fun r => !malformed K r)).filter (is_command_complete K) = [] →
        (parse_control_message K cc mem buffer buffer_length).map
            (fun x => (x.2.result_length, x.2.command_result))
          = some (cc.result_length, cc.command_result)) := by
  have hok : ∀ r ∈ (stream_records mem buffer buffer_length).takeWhile
      (fun r => !malformed K r), malformed K r = false := by
    intro r hr
    have := List.mem_takeWhile_imp hr
    simpa using this
  obtain ⟨_, f2, f3, f4⟩ := foldl_dispatch K hne _ cc hok
  rw [parse_control_message_eq K cc mem buffer buffer_length hne]
  simp only [Option.map_some', Option.some.injEq, Prod.mk.injEq]
  refine ⟨f2, ?_, f4⟩
  intro r hr
  have hmem : r ∈ stream_records mem buffer buffer_length :=
    (List.takeWhile_sublist _).subset
      (List.mem_filter.mp (List.mem_of_getLast?_eq_some hr)).1
  have hlen : r.payload.length = r.length := records_from_payload_length mem _ _ _ r hmem
  rw [← hlen]
  exact f3 r hr

/-- The amended C9 on the message with two command completions: two signals. -/
theorem parse_completions_witness :
    (parse_control_message sample_consts sample_cc sample_stream_two 0 9).map
        (fun x => x.2.command_complete) = some 2 :=
  (parse_completions sample_consts sample_cc sample_stream_two 0 9 (by decide)).1.trans
    (by decide)

/-! ## Status and event reader: the control-message region -/

/-- A 16-bit field is below `2 ^ 16`. -/
theorem le16_at_lt (mem : List Nat) (p : Nat) : le16_at mem p < 65536 := by
  have h1 : byte_at mem p < 256 := Nat.mod_lt _ (by decide)
  have h2 : byte_at mem (p + 1) < 256 := Nat.mod_lt _ (by decide)
  simp only [le16_at]
  omega

/-- Claim C10 fails on the code in its last part.  After a successful bus read,
`read_control_message` returns `-EIO` when the sync pattern is not
`DEVICE_SYNC_PATTERN` or when `sizeof(struct NAB_header) + NAB_EXTRA_BYTES + len`
exceeds `buffer_size`, and otherwise returns `len`.  For an accepted message
with `NAB_EXTRA_BYTES ≤ len` the region handed to `parse_control_message` has
length `len - NAB_EXTRA_BYTES` and ends within the buffer.  For an accepted
message with `len < NAB_EXTRA_BYTES` the length `ret - NAB_EXTRA_BYTES` wraps
around in `size_t` to `2 ^ 64 + len - NAB_EXTRA_BYTES` and the region ends
beyond the buffer. -/
theorem control_message_region (K : Consts) (rd : BusRead) (buffer_size : Nat)
    (hret : 0 ≤ rd.ret) (hbs : buffer_size < 2 ^ 64) :
    (le32_at rd.data K.off_sync_pattern ≠ K.DEVICE_SYNC_PATTERN →
      read_control_message K rd buffer_size = - EIO)
    ∧ (buffer_size < K.sizeof_NAB_header + K.NAB_EXTRA_BYTES + le16_at rd.data K.off_len →
      read_control_message K rd buffer_size = - EIO)
    ∧ (le32_at rd.data K.off_sync_pattern = K.DEVICE_SYNC_PATTERN →
        K.sizeof_NAB_header + K.NAB_EXTRA_BYTES + le16_at rd.data K.off_len ≤ buffer_size →
        read_control_message K rd buffer_size = (le16_at rd.data K.off_len : Int)
        ∧ (K.NAB_EXTRA_BYTES ≤ le16_at rd.data K.off_len →
            message_length K (read_control_message K rd buffer_size)
              = le16_at rd.data K.off_len - K.NAB_EXTRA_BYTES
            ∧ message_offset K + message_length K (read_control_message K rd buffer_size)
              ≤ buffer_size)
        ∧ (le16_at rd.data K.off_len < K.NAB_EXTRA_BYTES →
            message_length K (read_control_message K rd buffer_size)
              = 2 ^ 64 + le16_at rd.data K.off_len - K.NAB_EXTRA_BYTES
            ∧ buffer_size
              < message_offset K + message_length K (read_control_message K rd buffer_size))) := by
  have hr : ¬ rd.ret < 0 := not_lt.mpr hret
  have h16 := le16_at_lt rd.data K.off_len
  refine ⟨?_, ?_, ?_⟩
  · intro h
    simp [read_control_message, hr, h]
  · intro h
    simp only [read_control_message, hr, if_false, gt_iff_lt, h, if_true]
    split_ifs <;> rfl
  · intro hs hfit
    have hfit' : ¬ K.sizeof_NAB_header + K.NAB_EXTRA_BYTES + le16_at rd.data K.off_len
        > buffer_size := Nat.not_lt.mpr hfit
    have hval : read_control_message K rd buffer_size = (le16_at rd.data K.off_len : Int) := by
      simp only [read_control_message, hr, if_false, hs, ne_eq, not_true_eq_false, hfit']
    rw [hval]
    refine ⟨rfl, ?_, ?_⟩
    · intro hge
      have hm : message_length K (le16_at rd.data K.off_len : Int)
          = le16_at rd.data K.off_len - K.NAB_EXTRA_BYTES := by
        simp only [message_length, size_sub]
        norm_num
        omega
      rw [hm]
      refine ⟨rfl, ?_⟩
      simp only [message_offset]
      omega
    · intro hlt
      have hm : message_length K (le16_at rd.data K.off_len : Int)
          = 2 ^ 64 + le16_at rd.data K.off_len - K.NAB_EXTRA_BYTES := by
        simp only [message_length, size_sub]
        norm_num
        omega
      rw [hm]
      refine ⟨rfl, ?_⟩
      simp only [message_offset]
      norm_num
      omega

/-- The failing input of C10: a control read with the device sync pattern and
the length field 0 is accepted (`read_control_message` returns 0), and the
length handed to `parse_control_message` is `2 ^ 64 - 4`, far beyond the
48-byte buffer. -/
theorem control_message_region_witness :
    read_control_message sample_consts sample_ctrl_len0 48 = 0
    ∧ message_length sample_consts (read_control_message sample_consts sample_ctrl_len0 48)
        = 18446744073709551612
    ∧ 48 < message_offset sample_consts
        + message_length sample_consts (read_control_message sample_consts sample_ctrl_len0 48) :=
  have h := (control_message_region sample_consts sample_ctrl_len0 48 (by decide)
    (by decide)).2.2 (by decide) (by decide)
  ⟨h.1.trans (by decide), (h.2.2 (by decide)).1.trans (by decide), (h.2.2 (by decide)).2⟩

/-! ## Status and event reader: status processing -/

/-- The parser loop leaves everything but the pending command state and the
deferred events alone. -/
theorem parse_loop_frame (K : Consts) (mem : List Nat) (e : Nat) :
    ∀ (fuel p : Nat) (cc : Cc) (r : Int × Cc), parse_loop K mem e fuel p cc = some r →
      r.2.core_status = cc.core_status ∧ r.2.state = cc.state ∧ r.2.flags = cc.flags
      ∧ r.2.recovery_work = cc.recovery_work
      ∧ r.2.irq_deferred_work = cc.irq_deferred_work
      ∧ r.2.boot_irqs = cc.boot_irqs ∧ r.2.last_fw_rls_idx = cc.last_fw_rls_idx := by
  intro fuel
  induction fuel with
  | zero =>
    intro p cc r h
    by_cases hp : p < e
    · simp [parse_loop, hp] at h
    · simp only [parse_loop, hp, if_false, Option.some.injEq] at h
      subst h
      exact ⟨rfl, rfl, rfl, rfl, rfl, rfl, rfl⟩
  | succ n ih =>
    intro p cc r h
    simp only [parse_loop] at h
    split_ifs at h
    · have hi := ih _ _ r h
      exact hi
    · simp only [Option.some.injEq] at h
      subst h
      exact ⟨rfl, rfl, rfl, rfl, rfl, rfl, rfl⟩
    · have hi := ih _ _ r h
      exact hi
    · simp only [Option.some.injEq] at h
      subst h
      exact ⟨rfl, rfl, rfl, rfl, rfl, rfl, rfl⟩
    · simp only [Option.some.injEq] at h
      subst h
      exact ⟨rfl, rfl, rfl, rfl, rfl, rfl, rfl⟩

/-- The parser loop ends when it is allowed as many passes as bytes are left. -/
theorem parse_loop_total (K : Consts) (mem : List Nat) (e : Nat) :
    ∀ (fuel p : Nat) (cc : Cc), e - p ≤ fuel → ∃ r, parse_loop K mem e fuel p cc = some r := by
  intro fuel
  induction fuel with
  | zero =>
    intro p cc h
    have hp : ¬ p < e := by omega
    exact ⟨(0, cc), by simp [parse_loop, hp]⟩
  | succ n ih =>
    intro p cc h
    simp only [parse_loop, sizeof_descriptor]
    split_ifs
    · exact ih _ _ (by omega)
    · exact ⟨_, rfl⟩
    · exact ih _ _ (by omega)
    · exact ⟨_, rfl⟩
    · exact ⟨_, rfl⟩

/-- Function `process_event_and_cmd_result` always returns. -/
theorem process_event_and_cmd_result_total (K : Consts) (r : CtrlRead) (cc : Cc) :
    ∃ x, process_event_and_cmd_result K r cc = some x := by
  simp only [process_event_and_cmd_result]
  split_ifs
  · exact ⟨_, rfl⟩
  · exact ⟨_, rfl⟩
  · obtain ⟨x, hx⟩ := parse_loop_total K r.rd.data
      (message_offset K + message_length K (read_control_message K r.rd K.CC33XX_CMD_MAX_SIZE))
      (message_length K (read_control_message K r.rd K.CC33XX_CMD_MAX_SIZE))
      (message_offset K) cc (by omega)
    simp only [parse_control_message, hx]
    split_ifs
    · exact ⟨_, rfl⟩
    · exact ⟨_, rfl⟩

/-- On failure `process_event_and_cmd_result` leaves the status block, the
device state, the flags and the work queues as they were. -/
theorem process_event_and_cmd_result_frame (K : Consts) (r : CtrlRead) (cc : Cc)
    (ret : Int) (cc' : Cc) (h : process_event_and_cmd_result K r cc = some (ret, cc')) :
    cc'.state = cc.state ∧ cc'.flags = cc.flags ∧ cc'.recovery_work = cc.recovery_work
    ∧ cc'.irq_deferred_work = cc.irq_deferred_work ∧ cc'.boot_irqs = cc.boot_irqs
    ∧ cc'.last_fw_rls_idx = cc.last_fw_rls_idx
    ∧ (ret < 0 → cc'.core_status = cc.core_status) := by
  simp only [process_event_and_cmd_result] at h
  split_ifs at h with h1 h2
  · simp only [Option.some.injEq, Prod.mk.injEq] at h
    obtain ⟨_, rfl⟩ := h
    exact ⟨rfl, rfl, rfl, rfl, rfl, rfl, fun _ => rfl⟩
  · simp only [Option.some.injEq, Prod.mk.injEq] at h
    obtain ⟨_, rfl⟩ := h
    exact ⟨rfl, rfl, rfl, rfl, rfl, rfl, fun _ => rfl⟩
  · cases hp : parse_control_message K cc r.rd.data (message_offset K)
        (message_length K (read_control_message K r.rd K.CC33XX_CMD_MAX_SIZE)) with
    | none => simp [hp] at h
    | some x =>
      obtain ⟨f1, f2, f3, f4, f5, f6, f7⟩ := parse_loop_frame K _ _ _ _ cc x hp
      rw [hp] at h
      simp only at h
      split_ifs at h with h3
      · simp only [Option.some.injEq, Prod.mk.injEq] at h
        obtain ⟨_, rfl⟩ := h
        exact ⟨f2, f3, f4, f5, f6, f7, fun _ => f1⟩
      · simp only [Option.some.injEq, Prod.mk.injEq] at h
        obtain ⟨hr, rfl⟩ := h
        refine ⟨f2, f3, f4, f5, f6, f7, fun hneg => ?_⟩
        exact absurd (hr ▸ hneg) h3

/-- Claim C11.  Merge-and-clear of the interrupt bitmask.
`process_event_and_cmd_result` always returns, and whenever it succeeds the core
status block is the fresh block found in the last `sizeof(struct core_status)`
bytes of the control read buffer, except that `host_interrupt_status` is the
bitwise OR of the fresh value and the value the block held before the read; so
every bit held before the read is still set, and every other field is the
fresh one. -/
theorem merge_and_clear (K : Consts) (r : CtrlRead) (cc : Cc) :
    (∃ x, process_event_and_cmd_result K r cc = some x)
    ∧ ∀ (ret : Int) (cc' : Cc), process_event_and_cmd_result K r cc = some (ret, cc') →
        0 ≤ ret →
        cc'.core_status =
          { K.core_status_of_bytes (bytes r.rd.data
              (K.CC33XX_CMD_MAX_SIZE - K.sizeof_core_status) K.sizeof_core_status) with
            host_interrupt_status :=
              (K.core_status_of_bytes (bytes r.rd.data
                (K.CC33XX_CMD_MAX_SIZE - K.sizeof_core_status)
                K.sizeof_core_status)).host_interrupt_status
              ||| cc.core_status.host_interrupt_status }
        ∧ ∀ i, Nat.testBit cc.core_status.host_interrupt_status i = true →
            Nat.testBit cc'.core_status.host_interrupt_status i = true := by
  refine ⟨process_event_and_cmd_result_total K r cc, ?_⟩
  intro ret cc' h hret
  have hE : ¬ (0 : Int) ≤ - EIO := by decide
  have hM : ¬ (0 : Int) ≤ - ENOMEM := by decide
  have hblock : cc'.core_status =
      { K.core_status_of_bytes (bytes r.rd.data
          (K.CC33XX_CMD_MAX_SIZE - K.sizeof_core_status) K.sizeof_core_status) with
        host_interrupt_status :=
          (K.core_status_of_bytes (bytes r.rd.data
            (K.CC33XX_CMD_MAX_SIZE - K.sizeof_core_status)
            K.sizeof_core_status)).host_interrupt_status
          ||| cc.core_status.host_interrupt_status } := by
    simp only [process_event_and_cmd_result] at h
    split_ifs at h with h1 h2
    · simp only [Option.some.injEq, Prod.mk.injEq] at h
      exact absurd (h.1 ▸ hret) hM
    · simp only [Option.some.injEq, Prod.mk.injEq] at h
      exact absurd (h.1 ▸ hret) (not_le.mpr h2)
    · cases hp : parse_control_message K cc r.rd.data (message_offset K)
          (message_length K (read_control_message K r.rd K.CC33XX_CMD_MAX_SIZE)) with
      | none => simp [hp] at h
      | some x =>
        have f1 := (parse_loop_frame K _ _ _ _ cc x hp).1
        rw [hp] at h
        simp only at h
        split_ifs at h with h3
        · simp only [Option.some.injEq, Prod.mk.injEq] at h
          exact absurd (h.1 ▸ hret) (not_le.mpr h3)
        · simp only [Option.some.injEq, Prod.mk.injEq] at h
          obtain ⟨_, rfl⟩ := h
          simp only [f1]
  refine ⟨hblock, ?_⟩
  intro i hi
  rw [hblock]
  simp only [Nat.testBit_or, hi, Bool.or_true]

/-- C11 on a concrete read: the block held the bit `HINT_NEW_TX_RESULT` (2), the
fresh block carries the bit `HINT_COMMAND_COMPLETE` (1) and tsf 7; the result
holds both bits and the fresh fields. -/
theorem merge_and_clear_witness :
    (process_event_and_cmd_result sample_consts { alloc_ok := true, rd := sample_ctrl_ok }
        { sample_cc with core_status :=
            { block_pad := [0x55555555], host_interrupt_status := 2, rx_status := 9,
              tx_result_queue_index := 3, tsf := 1 } }).map
        (fun x => (x.1, x.2.core_status))
      = some (0, { block_pad := [0x55555555], host_interrupt_status := 3, rx_status := 0,
                   tx_result_queue_index := 0, tsf := 7 }) := by
  have h := (merge_and_clear sample_consts { alloc_ok := true, rd := sample_ctrl_ok }
    { sample_cc with core_status :=
        { block_pad := [0x55555555], host_interrupt_status := 2, rx_status := 9,
          tx_result_queue_index := 3, tsf := 1 } }).2
  obtain ⟨x, hx⟩ := (merge_and_clear sample_consts { alloc_ok := true, rd := sample_ctrl_ok }
    { sample_cc with core_status :=
        { block_pad := [0x55555555], host_interrupt_status := 2, rx_status := 9,
          tx_result_queue_index := 3, tsf := 1 } }).1
  have h0 : x.1 = 0 := by
    have hd : (process_event_and_cmd_result sample_consts
        { alloc_ok := true, rd := sample_ctrl_ok }
        { sample_cc with core_status :=
            { block_pad := [0x55555555], host_interrupt_status := 2, rx_status := 9,
              tx_result_queue_index := 3, tsf := 1 } }).map Prod.fst = some 0 := by decide
    rw [hx] at hd
    simpa using hd
  have hb := (h x.1 x.2 hx (by rw [h0])).1
  rw [hx]
  simp only [Option.map_some', h0, hb]
  decide

/-- Claim C12, as stated, fails: a status block with interrupt status 0 and a
non-zero rx byte count makes `process_core_status` queue the deferred rx/tx
work. -/
theorem idle_status_queues_work_counterexample :
    (process_core_status sample_consts []
        { sample_cc with core_status :=
            { block_pad := [0x55555555], host_interrupt_status := 0, rx_status := 5,
              tx_result_queue_index := 0, tsf := 0 } }).map
        (fun x => (x.1, x.2.irq_deferred_work))
      = some (0, sample_cc.irq_deferred_work + 1) := by
  decide

/-- Claim C12, amended.  For a status block whose `host_interrupt_status` is
zero, `process_core_status` makes one pass and returns 0 without any control
read (the outcome is the same for every list of reads); nothing in the device
changes (no deferred event, no completion signal, no recovery request, no boot
interrupt handling) except that the deferred rx/tx work is queued once when the
rx byte count is non-zero and once when `tx_result_queue_index` differs from
`cc->last_fw_rls_idx`. -/
theorem process_core_status_idle (K : Consts) (reads : List CtrlRead) (cc : Cc)
    (h : cc.core_status.host_interrupt_status = 0) :
    process_core_status K reads cc
      = some (0, { cc with irq_deferred_work := cc.irq_deferred_work
          + (if cc.core_status.rx_status &&& K.RX_BYTE_COUNT_MASK ≠ 0 then 1 else 0)
          + (if cc.core_status.tx_result_queue_index ≠ cc.last_fw_rls_idx then 1 else 0) }) := by
  obtain ⟨st, fl, mcs, cb, cr, rl, cpl, cs, lf, bw, de, idw, rw, bi, idis, we⟩ := cc
  obtain ⟨bp, hint, rx, tx, tsf⟩ := cs
  simp only at h
  subst h
  cases reads <;>
    simp only [process_core_status, process_core_status_rest, Nat.zero_and, ne_eq,
      not_true_eq_false, if_false, queue_irq_deferred_work] <;>
    split_ifs <;> simp

/-- The amended C12 on concrete blocks: with interrupt status 0, rx byte count
0 and an unchanged tx result index nothing is queued at all. -/
theorem process_core_status_idle_witness :
    process_core_status sample_consts [] sample_cc = some (0, sample_cc) :=
  (process_core_status_idle sample_consts [] sample_cc (by decide)).trans (by decide)

/-- A control read that goes wrong makes `process_event_and_cmd_result` return
a negative value. -/
theorem process_event_and_cmd_result_fails (K : Consts) (r : CtrlRead) (cc : Cc)
    (hne : K.CTRL_MSG_EVENT ≠ K.CTRL_MSG_COMMND_COMPLETE)
    (halloc : r.alloc_ok = true) (herr : control_read_error K r.rd) :
    ∃ ret cc1, process_event_and_cmd_result K r cc = some (ret, cc1) ∧ ret < 0 := by
  have hE : (- EIO : Int) < 0 := by decide
  by_cases hrd : read_control_message K r.rd K.CC33XX_CMD_MAX_SIZE < 0
  · exact ⟨_, cc, by simp [process_event_and_cmd_result, halloc, hrd], hrd⟩
  · have hval : read_control_message K r.rd K.CC33XX_CMD_MAX_SIZE
        = (le16_at r.rd.data K.off_len : Int) := by
      simp only [read_control_message] at hrd ⊢
      split_ifs at hrd ⊢ with h1 h2 h3
      all_goals first | rfl | exact absurd hE hrd | exact absurd h1 hrd
    have hmal : ∃ x ∈ stream_records r.rd.data (message_offset K)
        (message_length K (le16_at r.rd.data K.off_len : Int)), malformed K x = true := by
      rcases herr with h | h | h | h
      · exact absurd (by simp [read_control_message, h]) hrd
      · refine absurd ?_ hrd
        simp only [read_control_message, h, ne_eq, not_false_eq_true, if_true]
        split_ifs <;> assumption
      · refine absurd ?_ hrd
        simp only [read_control_message]
        split_ifs <;> assumption
      · exact h
    have hany := List.any_eq_true.mpr hmal
    refine ⟨- EIO, ((stream_records r.rd.data (message_offset K)
      (message_length K (le16_at r.rd.data K.off_len : Int))).takeWhile
        (fun x => !malformed K x)).foldl (dispatch K) cc, ?_, hE⟩
    simp only [process_event_and_cmd_result, halloc, Bool.not_true, Bool.false_eq_true,
      if_false, hrd, hval, parse_control_message_eq K cc r.rd.data _ _ hne, hany, if_true, hE]
    rw [if_neg (hval ▸ hrd)]

/-- Claim C13 fails on the code in its last part.  In `cc33xx_irq` with the
device ON and not suspended, a status block with good padding and
`HINT_COMMAND_COMPLETE` set, and a control read that goes wrong:
`process_core_status` returns the negative error with the whole status block
zeroed, but `cc33xx_irq` drops that return value: the device stays ON, the
flags are unchanged and no recovery work is queued. -/
theorem irq_control_error (K : Consts) (status : BusRead) (r : CtrlRead)
    (reads : List CtrlRead) (cc : Cc)
    (hne : K.CTRL_MSG_EVENT ≠ K.CTRL_MSG_COMMND_COMPLETE)
    (hsusp : cc.flags.CC33XX_FLAG_SUSPENDED = false) (hret : 0 ≤ status.ret)
    (hpad : verify_padding (K.core_status_of_bytes status.data) = 0)
    (hhint : (K.core_status_of_bytes status.data).host_interrupt_status
      &&& K.HINT_COMMAND_COMPLETE ≠ 0)
    (hon : cc.state = DevState.CC33XX_STATE_ON)
    (halloc : r.alloc_ok = true) (herr : control_read_error K r.rd) :
    (∃ ret cc1, process_core_status K (r :: reads)
          { cc with core_status := K.core_status_of_bytes status.data } = some (ret, cc1)
        ∧ ret < 0
        ∧ cc1.core_status = zero_core_status (K.core_status_of_bytes status.data))
    ∧ ∃ cc', cc33xx_irq K status (r :: reads) cc = some cc'
        ∧ cc'.core_status = zero_core_status (K.core_status_of_bytes status.data)
        ∧ cc'.state = DevState.CC33XX_STATE_ON
        ∧ cc'.flags = cc.flags
        ∧ cc'.recovery_work = cc.recovery_work := by
  obtain ⟨ret, cc1, hp, hneg⟩ := process_event_and_cmd_result_fails K r
    { cc with core_status :=
        { K.core_status_of_bytes status.data with host_interrupt_status := 0 } }
    hne halloc herr
  obtain ⟨f1, f2, f3, _, _, _, f7⟩ := process_event_and_cmd_result_frame K r _ ret cc1 hp
  have hpcs : process_core_status K (r :: reads)
      { cc with core_status := K.core_status_of_bytes status.data }
      = some (ret, { cc1 with core_status := zero_core_status cc1.core_status }) := by
    simp only [process_core_status, ne_eq, hhint, not_false_eq_true, if_true, hp, hneg]
  have hz : zero_core_status cc1.core_status
      = zero_core_status (K.core_status_of_bytes status.data) := by
    rw [f7 hneg]
    rfl
  refine ⟨⟨ret, _, hpcs, hneg, hz⟩,
    ⟨{ cc1 with core_status := zero_core_status cc1.core_status }, ?_, hz, ?_, ?_, ?_⟩⟩
  · have hv : ¬ verify_padding (K.core_status_of_bytes status.data) < 0 := by
      rw [hpad]; decide
    simp only [cc33xx_irq, hsusp, Bool.false_eq_true, if_false, not_lt.mpr hret, hv, hpcs,
      Option.map_some']
  · exact f1.trans hon
  · exact f2
  · exact f3

/-- The failing input of C13: the device is ON, the status block has good
padding and the command-complete bit, the control read carries a wrong sync
pattern.  Afterwards the status block is zeroed, the device is still ON and no
recovery work is queued. -/
theorem irq_control_error_witness :
    (cc33xx_irq sample_consts sample_status_cmd_complete
        [{ alloc_ok := true, rd := sample_ctrl_bad_sync }] sample_cc).map
        (fun c => (c.core_status.host_interrupt_status, c.core_status.block_pad, c.state,
          c.recovery_work))
      = some (0, [0], DevState.CC33XX_STATE_ON, 0) := by
  obtain ⟨cc', h1, h2, h3, _, h5⟩ := (irq_control_error sample_consts
    sample_status_cmd_complete { alloc_ok := true, rd := sample_ctrl_bad_sync } []
    sample_cc (by decide) (by decide) (by decide) (by decide) (by decide) (by decide)
    (by decide) (Or.inr (Or.inl (by decide)))).2
  rw [h1]
  simp only [Option.map_some', h2, h3, h5]
  decide

/-- Claim C14.  Recovery is triggered once per fault window.
`cc33xx_queue_recovery_work` on an ON device makes the state RESTARTING, sets
`CC33XX_FLAG_RECOVERY_IN_PROGRESS` and queues the recovery work once, changing
nothing else; on a RESTARTING or OFF device it changes nothing.  Hence `n ≥ 1`
triggers from ON leave the device as one trigger does: RESTARTING, with the
recovery work queued exactly once. -/
theorem queue_recovery_once (cc : Cc) :
    (cc.state = DevState.CC33XX_STATE_ON →
      cc33xx_queue_recovery_work cc =
        { cc with
          state := DevState.CC33XX_STATE_RESTARTING
          flags := { cc.flags with CC33XX_FLAG_RECOVERY_IN_PROGRESS := true }
          recovery_work := cc.recovery_work + 1 })
    ∧ (cc.state ≠ DevState.CC33XX_STATE_ON → cc33xx_queue_recovery_work cc = cc)
    ∧ (cc.state = DevState.CC33XX_STATE_ON → ∀ n, 1 ≤ n →
        (cc33xx_queue_recovery_work^[n]) cc = cc33xx_queue_recovery_work cc
        ∧ ((cc33xx_queue_recovery_work^[n]) cc).state = DevState.CC33XX_STATE_RESTARTING
        ∧ ((cc33xx_queue_recovery_work^[n]) cc).recovery_work = cc.recovery_work + 1) := by
  refine ⟨?_, ?_, ?_⟩
  · intro h
    simp [cc33xx_queue_recovery_work, h]
  · intro h
    simp [cc33xx_queue_recovery_work, h]
  · intro h n hn
    have hfix : cc33xx_queue_recovery_work (cc33xx_queue_recovery_work cc)
        = cc33xx_queue_recovery_work cc := by
      simp [cc33xx_queue_recovery_work, h]
    have hiter : ∀ m, (cc33xx_queue_recovery_work^[m + 1]) cc
        = cc33xx_queue_recovery_work cc := by
      intro m
      induction m with
      | zero => rfl
      | succ k ih =>
        rw [Function.iterate_succ_apply', ih, hfix]
    obtain ⟨m, rfl⟩ : ∃ m, n = m + 1 := ⟨n - 1, by omega⟩
    rw [hiter m]
    refine ⟨rfl, ?_, ?_⟩
    · simp [cc33xx_queue_recovery_work, h]
    · simp [cc33xx_queue_recovery_work, h]

/-- C14 on a concrete device: three triggers from ON queue the recovery work
once and end in RESTARTING; a fourth trigger changes nothing. -/
theorem queue_recovery_once_witness :
    ((cc33xx_queue_recovery_work^[3]) sample_cc).state = DevState.CC33XX_STATE_RESTARTING
    ∧ ((cc33xx_queue_recovery_work^[3]) sample_cc).recovery_work = 1
    ∧ cc33xx_queue_recovery_work ((cc33xx_queue_recovery_work^[3]) sample_cc)
        = (cc33xx_queue_recovery_work^[3]) sample_cc :=
  ⟨((queue_recovery_once sample_cc).2.2 (by decide) 3 (by decide)).2.1,
   ((queue_recovery_once sample_cc).2.2 (by decide) 3 (by decide)).2.2,
   (queue_recovery_once ((cc33xx_queue_recovery_work^[3]) sample_cc)).2.1 (by decide)⟩

/-! ## Registry: bitmaps -/

/-- Bits of a map after `__set_bit`. -/
theorem testBit_set_bit (nr map i : Nat) :
    Nat.testBit (set_bit nr map) i = (Nat.testBit map i || decide (nr = i)) := by
  simp only [set_bit, Nat.testBit_or, Nat.one_shiftLeft, Nat.testBit_two_pow]

/-- Bits of a map after `__clear_bit`. -/
theorem testBit_clear_bit (nr map i : Nat) :
    Nat.testBit (clear_bit nr map) i = (Nat.testBit map i && !decide (nr = i)) := by
  simp only [clear_bit, Nat.testBit_xor, Nat.testBit_and, Nat.one_shiftLeft,
    Nat.testBit_two_pow]
  cases Nat.testBit map i <;> cases decide (nr = i) <;> rfl

/-- An array store read back. -/
theorem upd_apply {α : Type} (a : Nat → α) (i : Nat) (v : α) (j : Nat) :
    upd a i v j = if j = i then v else a j := rfl

/-- The counting loop adds the number of set bits below its bound. -/
theorem count_role_set_bits_loop_eq :
    ∀ (fuel m : Nat) (c : Int),
      count_role_set_bits_loop fuel m c
        = c + (((List.range fuel).filter (fun i => Nat.testBit m i)).length : Int) := by
  intro fuel
  induction fuel with
  | zero => intro m c; simp [count_role_set_bits_loop]
  | succ n ih =>
    intro m c
    by_cases hm : m = 0
    · subst hm
      simp [count_role_set_bits_loop, Nat.zero_testBit]
    · have hfun : (fun i => Nat.testBit (m >>> 1) i) = (fun i => Nat.testBit m i) ∘ Nat.succ := by
        funext i
        simp [Nat.shiftRight_one, Nat.testBit_succ]
      simp only [count_role_set_bits_loop, ne_eq, hm, not_false_eq_true, if_true]
      rw [ih, List.range_succ_eq_map, hfun, List.filter_cons, List.filter_map,
        Nat.and_one_is_mod, Nat.testBit_zero]
      rcases Nat.mod_two_eq_zero_or_one m with h | h
      · simp [h]
      · simp [h]
        omega

/-- What `cc33xx_count_role_set_bits` counts: the role ids other than 2 that
are set in the map. -/
theorem cc33xx_count_role_set_bits_eq (role_map : Nat) :
    cc33xx_count_role_set_bits role_map = (roles_with_id_other_than_2 role_map : Int) := by
  have hc : (2 ^ 64 - 1 - (1 <<< 2) : Nat) = (2 ^ 64 - 1) ^^^ 2 ^ 2 := by decide
  simp only [cc33xx_count_role_set_bits, count_role_set_bits_loop_eq, zero_add,
    roles_with_id_other_than_2, Nat.cast_inj]
  congr 1
  apply List.filter_congr
  intro i hi
  have hi64 : i < 64 := List.mem_range.mp hi
  rw [hc, Nat.testBit_and, Nat.testBit_xor, Nat.testBit_two_pow_sub_one, Nat.testBit_two_pow]
  by_cases h2 : i = 2
  · subst h2; simp
  · have : ¬ 2 = i := fun e => h2 e.symm
    simp [hi64, h2, this]

/-- Only role ids below 64 are counted. -/
theorem roles_with_id_other_than_2_mod (roles_map : Nat) :
    roles_with_id_other_than_2 (roles_map % 2 ^ 64) = roles_with_id_other_than_2 roles_map := by
  simp only [roles_with_id_other_than_2]
  congr 1
  apply List.filter_congr
  intro i hi
  have hi64 : i < 64 := List.mem_range.mp hi
  rw [Nat.testBit_mod_two_pow]
  simp [hi64]

/-- Claim C15, as stated, fails in both directions.  With role ids 0 and 1
enabled, id 0 being the device role, only one non-device role is enabled, yet a
further station role is rejected with `-EBUSY`.  With role ids 1 and 2 enabled,
both of them non-device roles, a further station role is not rejected: the
command is sent and the call returns 0. -/
theorem role_limit_counterexample :
    non_device_roles sample_reg (fun i => if i = 0 then 3 else 0) 3 = 1
    ∧ (cc33xx_cmd_role_enable sample_consts sample_reg sample_env_role true
        { sample_dev with roles_map := 3 } [2, 0, 0, 0, 0, 1] 0 0xff).1 = - EBUSY
    ∧ non_device_roles sample_reg (fun _ => 0) 6 = 2
    ∧ (cc33xx_cmd_role_enable sample_consts sample_reg sample_env_role true
        { sample_dev with roles_map := 6 } [2, 0, 0, 0, 0, 1] 0 0xff).1 = 0
    ∧ (cc33xx_cmd_role_enable sample_consts sample_reg sample_env_role true
        { sample_dev with roles_map := 6 } [2, 0, 0, 0, 0, 1] 0 0xff).2.1.cc.bus_writes.length
        = 1 := by
  decide

/-- Claim C15, amended.  The role that is not counted is the one with role
id 2, whatever its type.  `cc33xx_cmd_role_enable` returns `-EBUSY`, with the
device (hence `roles_map` and the record of bus writes) and `*role_id`
unchanged, whenever at least two role ids other than 2 are enabled and the
requested role type is not the device role.  When fewer than two role ids other
than 2 are enabled, or the requested type is the device role, the limit does
not reject the request: with `*role_id` invalid and the buffer allocated the
command `CMD_ROLE_ENABLE` is handed to `cc33xx_cmd_send`, whose result is
returned. -/
theorem role_enable_limit (K : Consts) (R : RegConsts) (env : CmdEnv) (alloc_ok : Bool)
    (d : Dev) (addr : List Nat) (role_type role_id : Nat) :
    (2 ≤ roles_with_id_other_than_2 d.roles_map → role_type ≠ R.CC33XX_ROLE_DEVICE →
      cc33xx_cmd_role_enable K R env alloc_ok d addr role_type role_id
        = (- EBUSY, d, role_id))
    ∧ ((roles_with_id_other_than_2 d.roles_map < 2 ∨ role_type = R.CC33XX_ROLE_DEVICE) →
        role_id = R.CC33XX_INVALID_ROLE_ID → alloc_ok = true →
        (cc33xx_cmd_role_enable K R env alloc_ok d addr role_type role_id).1
          = (cc33xx_cmd_send K env d.cc R.CMD_ROLE_ENABLE
              (R.cmd_role_enable_bytes addr role_type) R.sizeof_cmd_role_enable 0).1
        ∧ (cc33xx_cmd_role_enable K R env alloc_ok d addr role_type role_id).2.1.cc
          = (cc33xx_cmd_send K env d.cc R.CMD_ROLE_ENABLE
              (R.cmd_role_enable_bytes addr role_type) R.sizeof_cmd_role_enable 0).2.1) := by
  have hcount : cc33xx_count_role_set_bits (d.roles_map % 2 ^ 64)
      = (roles_with_id_other_than_2 d.roles_map : Int) := by
    rw [cc33xx_count_role_set_bits_eq, roles_with_id_other_than_2_mod]
  constructor
  · intro h2 hty
    have hge : (roles_with_id_other_than_2 d.roles_map : Int) ≥ 2 := by exact_mod_cast h2
    simp only [cc33xx_cmd_role_enable, hcount, hge, hty, ne_eq, not_false_eq_true, and_self,
      if_true]
  · intro hlim hid halloc
    have hnot : ¬ ((roles_with_id_other_than_2 d.roles_map : Int) ≥ 2
        ∧ role_type ≠ R.CC33XX_ROLE_DEVICE) := by
      rintro ⟨h1, h2⟩
      rcases hlim with h | h
      · have : (roles_with_id_other_than_2 d.roles_map : Int) < 2 := by exact_mod_cast h
        omega
      · exact h2 h
    simp only [cc33xx_cmd_role_enable, hcount, hnot, if_false, hid, ne_eq,
      not_true_eq_false, halloc, Bool.not_true, Bool.false_eq_true]
    split_ifs <;> exact ⟨rfl, rfl⟩

/-- The amended C15 on concrete maps: with role ids 0 and 1 enabled a station
role is rejected and nothing changes; with role ids 1 and 2 enabled the request
passes the limit and returns what `cc33xx_cmd_send` returns. -/
theorem role_enable_limit_witness :
    cc33xx_cmd_role_enable sample_consts sample_reg sample_env_role true
        { sample_dev with roles_map := 3 } [2, 0, 0, 0, 0, 1] 0 0xff
      = (- EBUSY, { sample_dev with roles_map := 3 }, 0xff)
    ∧ (cc33xx_cmd_role_enable sample_consts sample_reg sample_env_role true
        { sample_dev with roles_map := 6 } [2, 0, 0, 0, 0, 1] 0 0xff).1 = 0 :=
  ⟨(role_enable_limit sample_consts sample_reg sample_env_role true
      { sample_dev with roles_map := 3 } [2, 0, 0, 0, 0, 1] 0 0xff).1 (by decide) (by decide),
   ((role_enable_limit sample_consts sample_reg sample_env_role true
      { sample_dev with roles_map := 6 } [2, 0, 0, 0, 0, 1] 0 0xff).2 (Or.inl (by decide))
      (by decide) (by decide)).1.trans (by decide)⟩

/-! ## Registry: links -/

/-- What `cc33xx_set_link` does to the maps and to the owner table. -/
theorem set_link_effects (R : RegConsts) (d : Dev) (v h : Nat) :
    (∀ i, Nat.testBit (cc33xx_set_link R d v h).2.links_map i
        = (Nat.testBit d.links_map i || decide (h = i)))
    ∧ (∀ w i, Nat.testBit ((cc33xx_set_link R d v h).2.vifs w).links_map i
        = (Nat.testBit (d.vifs w).links_map i || (decide (w = v) && decide (h = i))))
    ∧ (∀ k, ((cc33xx_set_link R d v h).2.links k).wlvif
        = if k = h then some v else (d.links k).wlvif) := by
  refine ⟨?_, ?_, ?_⟩
  · intro i
    simp only [cc33xx_set_link]
    split_ifs <;> simp only [testBit_set_bit]
  · intro w i
    simp only [cc33xx_set_link]
    split_ifs <;> by_cases hw : w = v <;> simp [upd_apply, hw, testBit_set_bit]
  · intro k
    simp only [cc33xx_set_link]
    split_ifs <;> simp [upd_apply] <;> split_ifs <;> simp_all

/-- What `cc33xx_clear_link` does to the maps and to the owner table, for a
valid link id. -/
theorem clear_link_effects (R : RegConsts) (d : Dev) (v h : Nat)
    (hv : h ≠ R.CC33XX_INVALID_LINK_ID) :
    (∀ i, Nat.testBit (cc33xx_clear_link R d v h).1.links_map i
        = (Nat.testBit d.links_map i && !decide (h = i)))
    ∧ (∀ w i, Nat.testBit ((cc33xx_clear_link R d v h).1.vifs w).links_map i
        = (Nat.testBit (d.vifs w).links_map i && !(decide (w = v) && decide (h = i))))
    ∧ (∀ k, ((cc33xx_clear_link R d v h).1.links k).wlvif
        = if k = h then none else (d.links k).wlvif)
    ∧ (cc33xx_clear_link R d v h).2 = R.CC33XX_INVALID_LINK_ID := by
  refine ⟨?_, ?_, ?_, ?_⟩
  · intro i
    simp only [cc33xx_clear_link, hv, if_false, cc33xx_tx_reset_link_queues]
    split_ifs <;> simp only [testBit_clear_bit]
  · intro w i
    simp only [cc33xx_clear_link, hv, if_false, cc33xx_tx_reset_link_queues]
    split_ifs <;> by_cases hw : w = v <;> simp [upd_apply, hw, testBit_clear_bit]
  · intro k
    simp only [cc33xx_clear_link, hv, if_false, cc33xx_tx_reset_link_queues]
    split_ifs <;> simp [upd_apply] <;> split_ifs <;> simp_all
  · simp only [cc33xx_clear_link, hv, if_false]

/-- Setting a free link other than the system link keeps the ownership
invariant. -/
theorem set_link_inv (R : RegConsts) (d : Dev) (v h : Nat)
    (hinv : ownership_inv R d) (hs : h ≠ R.CC33XX_SYSTEM_HLID) (hfree : link_free d h) :
    ownership_inv R (cc33xx_set_link R d v h).2 := by
  obtain ⟨f1, f2, f3⟩ := set_link_effects R d v h
  obtain ⟨⟨s1, s2⟩, hrest⟩ := hinv
  refine ⟨⟨?_, ?_⟩, ?_⟩
  · rw [f1]; simp [s1]
  · intro w; rw [f2]; simp [s2 w, hs]
  intro k hks
  by_cases hk : k = h
  · subst hk
    right
    refine ⟨v, ?_, ?_, ?_, ?_⟩
    · rw [f1]; simp
    · rw [f3]; simp
    · rw [f2]; simp
    · intro w hw
      rw [f2]
      simp [hw, hfree.2 w]
  · have hk' : ¬ h = k := fun e => hk e.symm
    rcases hrest k hks with hf | ⟨u, ho⟩
    · left
      refine ⟨?_, ?_⟩
      · rw [f1]; simp [hf.1, hk']
      · intro w; rw [f2]; simp [hf.2 w, hk']
    · right
      refine ⟨u, ?_, ?_, ?_, ?_⟩
      · rw [f1]; simp [ho.1]
      · rw [f3]; simp [hk, ho.2.1]
      · rw [f2]; simp [ho.2.2.1]
      · intro w hw; rw [f2]; simp [ho.2.2.2 w hw, hk']

/-- Clearing a link other than the system link that is free or owned by the
clearing interface keeps the ownership invariant. -/
theorem clear_link_inv (R : RegConsts) (d : Dev) (v h : Nat)
    (hinv : ownership_inv R d) (hs : h ≠ R.CC33XX_SYSTEM_HLID)
    (hown : link_free d h ∨ link_owned_by d h v) :
    ownership_inv R (cc33xx_clear_link R d v h).1 := by
  by_cases hv : h = R.CC33XX_INVALID_LINK_ID
  · simpa [cc33xx_clear_link, hv] using hinv
  · obtain ⟨g1, g2, g3, _⟩ := clear_link_effects R d v h hv
    obtain ⟨⟨s1, s2⟩, hrest⟩ := hinv
    refine ⟨⟨?_, ?_⟩, ?_⟩
    · rw [g1]; simp [s1, hs]
    · intro w; rw [g2]; simp [s2 w]
    intro k hks
    by_cases hk : k = h
    · subst hk
      left
      refine ⟨?_, ?_⟩
      · rw [g1]; simp
      · intro w
        rw [g2]
        by_cases hw : w = v
        · simp [hw]
        · rcases hown with hf | ho
          · simp [hf.2 w]
          · simp [ho.2.2.2 w hw]
    · have hk' : ¬ h = k := fun e => hk e.symm
      rcases hrest k hks with hf | ⟨u, ho⟩
      · left
        refine ⟨?_, ?_⟩
        · rw [g1]; simp [hf.1]
        · intro w; rw [g2]; simp [hf.2 w]
      · right
        refine ⟨u, ?_, ?_, ?_, ?_⟩
        · rw [g1]; simp [ho.1, hk']
        · rw [g3]; simp [hk, ho.2.1]
        · rw [g2]; simp [ho.2.2.1, hk']
        · intro w hw; rw [g2]; simp [ho.2.2.2 w hw]

/-- A sequence of calls that keeps the discipline keeps the ownership
invariant. -/
theorem run_link_ops_inv (R : RegConsts) :
    ∀ (ops : List LinkOp) (d : Dev), ownership_inv R d → link_ops_allowed R d ops →
      ownership_inv R (run_link_ops R d ops) := by
  intro ops
  induction ops with
  | nil =>
    intro d hinv _
    exact hinv
  | cons op ops ih =>
    intro d hinv hall
    obtain ⟨h1, h2⟩ := hall
    have hstep : ownership_inv R (apply_link_op R d op) := by
      cases op with
      | set_link v h => exact set_link_inv R d v h hinv h1.1 h1.2
      | clear_link v h => exact clear_link_inv R d v h hinv h1.1 h1.2
    exact ih (apply_link_op R d op) hstep h2

/-- The state that `cc33xx_turn_off` leaves, when no interface holds a link,
satisfies the ownership invariant: only the system link is allocated. -/
theorem turn_off_ownership_inv (R : RegConsts) (d : Dev)
    (hoff : d.cc.state ≠ DevState.CC33XX_STATE_OFF)
    (hv : ∀ v i, Nat.testBit (d.vifs v).links_map i = false) :
    ownership_inv R (cc33xx_turn_off R d) := by
  have hmap : ∀ i, Nat.testBit (cc33xx_turn_off R d).links_map i
      = decide (R.CC33XX_SYSTEM_HLID = i) := by
    intro i
    simp [cc33xx_turn_off, hoff, cc33xx_tx_reset, testBit_set_bit]
  have hvif : (cc33xx_turn_off R d).vifs = d.vifs := by
    simp [cc33xx_turn_off, hoff, cc33xx_tx_reset]
  refine ⟨⟨?_, ?_⟩, ?_⟩
  · rw [hmap]; simp
  · intro v; rw [hvif]; exact hv v _
  · intro h hs
    left
    refine ⟨?_, ?_⟩
    · rw [hmap]
      exact decide_eq_false (fun e => hs e.symm)
    · intro v; rw [hvif]; exact hv v h

/-- After `cc33xx_turn_off` of the sample device only the system link is
allocated and the ownership invariant holds. -/
theorem sample_turn_off_inv : ownership_inv sample_reg (cc33xx_turn_off sample_reg sample_dev) :=
  turn_off_ownership_inv sample_reg sample_dev (by decide)
    (fun _ i => Nat.zero_testBit i)

/-- After `cc33xx_turn_off` of the sample device every link id but the system
link is free. -/
theorem sample_turn_off_free (h : Nat) (hs : h ≠ 0) :
    link_free (cc33xx_turn_off sample_reg sample_dev) h := by
  rcases sample_turn_off_inv.2 h hs with hf | ⟨u, ho⟩
  · exact hf
  · have hvif : (cc33xx_turn_off sample_reg sample_dev).vifs = sample_dev.vifs := by
      simp [cc33xx_turn_off, cc33xx_tx_reset, sample_dev, sample_cc]
    have := ho.2.2.1
    rw [hvif] at this
    exact absurd this (by simp [sample_dev, sample_vif])

/-- Claim C16, as stated, fails in its last sentence: from the state that
`cc33xx_turn_off` leaves (only the system link allocated), `cc33xx_set_link` for
interface 0 and then for interface 1 on the same link id 3 leaves link 3 in the
maps of both interfaces, so it is neither free nor owned by exactly one
interface. -/
theorem double_set_link_counterexample :
    ownership_inv sample_reg (cc33xx_turn_off sample_reg sample_dev)
    ∧ ¬ ownership_inv sample_reg
        (cc33xx_set_link sample_reg
          (cc33xx_set_link sample_reg (cc33xx_turn_off sample_reg sample_dev) 0 3).2 1 3).2 := by
  refine ⟨sample_turn_off_inv, ?_⟩
  intro hinv
  rcases hinv.2 3 (by decide) with hf | ⟨u, ho⟩
  · exact absurd hf.1 (by decide)
  · by_cases hu : u = 0
    · exact absurd (ho.2.2.2 1 (by omega)) (by decide)
    · exact absurd (ho.2.2.2 0 (fun e => hu e.symm)) (by decide)

/-- Claim C16, amended.  `cc33xx_set_link` sets bit `h` in the global map and
in the map of the interface, changes no other bit of any map, and records the
interface as owner of link `h`.  `cc33xx_clear_link` does nothing when `*hlid`
is `CC33XX_INVALID_LINK_ID`; otherwise it clears bit `h` in the global map and
in the map of the interface, changes no other bit of any map, clears the owner
and leaves `CC33XX_INVALID_LINK_ID` in `*hlid`.  The ownership invariant (the
system link id is allocated in the global map and in no interface map; every
other link id is free, or owned by exactly the interface recorded in
`cc->links[h].wlvif`) holds in the state that `cc33xx_turn_off` leaves when no
interface holds a link, and it is kept by every sequence of calls in which
`cc33xx_set_link` is made for a free link id other than the system link and
`cc33xx_clear_link` for a link id other than the system link that is free or
owned by the clearing interface. -/
theorem link_ownership (R : RegConsts) (d : Dev) (v h : Nat) :
    ((∀ i, Nat.testBit (cc33xx_set_link R d v h).2.links_map i
          = (Nat.testBit d.links_map i || decide (h = i)))
      ∧ (∀ w i, Nat.testBit ((cc33xx_set_link R d v h).2.vifs w).links_map i
          = (Nat.testBit (d.vifs w).links_map i || (decide (w = v) && decide (h = i))))
      ∧ ((cc33xx_set_link R d v h).2.links h).wlvif = some v)
    ∧ (h = R.CC33XX_INVALID_LINK_ID → cc33xx_clear_link R d v h = (d, h))
    ∧ (h ≠ R.CC33XX_INVALID_LINK_ID →
        (∀ i, Nat.testBit (cc33xx_clear_link R d v h).1.links_map i
          = (Nat.testBit d.links_map i && !decide (h = i)))
        ∧ (∀ w i, Nat.testBit ((cc33xx_clear_link R d v h).1.vifs w).links_map i
          = (Nat.testBit (d.vifs w).links_map i && !(decide (w = v) && decide (h = i))))
        ∧ ((cc33xx_clear_link R d v h).1.links h).wlvif = none
        ∧ (cc33xx_clear_link R d v h).2 = R.CC33XX_INVALID_LINK_ID)
    ∧ (d.cc.state ≠ DevState.CC33XX_STATE_OFF →
        (∀ w i, Nat.testBit (d.vifs w).links_map i = false) →
        ownership_inv R (cc33xx_turn_off R d))
    ∧ (ownership_inv R d → h ≠ R.CC33XX_SYSTEM_HLID → link_free d h →
        ownership_inv R (cc33xx_set_link R d v h).2)
    ∧ (ownership_inv R d → h ≠ R.CC33XX_SYSTEM_HLID →
        (link_free d h ∨ link_owned_by d h v) →
        ownership_inv R (cc33xx_clear_link R d v h).1)
    ∧ (∀ ops, ownership_inv R d → link_ops_allowed R d ops →
        ownership_inv R (run_link_ops R d ops)) := by
  obtain ⟨f1, f2, f3⟩ := set_link_effects R d v h
  refine ⟨⟨f1, f2, by rw [f3]; simp⟩, ?_, ?_, ?_, ?_, ?_, ?_⟩
  · intro hi
    simp [cc33xx_clear_link, hi]
  · intro hv
    obtain ⟨g1, g2, g3, g4⟩ := clear_link_effects R d v h hv
    exact ⟨g1, g2, by rw [g3]; simp, g4⟩
  · exact turn_off_ownership_inv R d
  · exact set_link_inv R d v h
  · exact clear_link_inv R d v h
  · intro ops
    exact run_link_ops_inv R ops d

/-- The amended C16 on a concrete sequence, from the state that
`cc33xx_turn_off` leaves for the sample device (only the system link 0
allocated): interface 0 sets the free link 3 and clears it again; the
invariant holds at the start and after the two calls. -/
theorem link_ownership_witness :
    ownership_inv sample_reg (cc33xx_turn_off sample_reg sample_dev)
    ∧ ownership_inv sample_reg
        (run_link_ops sample_reg (cc33xx_turn_off sample_reg sample_dev)
          [LinkOp.set_link 0 3, LinkOp.clear_link 0 3]) := by
  have h0 : ownership_inv sample_reg (cc33xx_turn_off sample_reg sample_dev) :=
    (link_ownership sample_reg sample_dev 0 3).2.2.2.1 (by decide)
      (fun _ i => Nat.zero_testBit i)
  refine ⟨h0, ?_⟩
  apply (link_ownership sample_reg (cc33xx_turn_off sample_reg sample_dev) 0 3).2.2.2.2.2.2
    _ h0
  refine ⟨⟨by decide, sample_turn_off_free 3 (by decide)⟩, ⟨by decide, Or.inr ?_⟩, trivial⟩
  refine ⟨by decide, by decide, by decide, ?_⟩
  intro w hw
  have := (set_link_effects sample_reg (cc33xx_turn_off sample_reg sample_dev) 0 3).2.1 w 3
  show Nat.testBit ((cc33xx_set_link sample_reg (cc33xx_turn_off sample_reg sample_dev)
    0 3).2.vifs w).links_map 3 = false
  rw [this]
  simp [hw, (sample_turn_off_free 3 (by decide)).2 w]

/-- Claim C17, as stated, fails where the 64-bit counter wraps: with recovery
in progress, the broadcast link of the AP interface holding
`F = 2 ^ 64 - 1` freed packets and a padding of 20, the value carried forward in
`wlvif->total_freed_pkts` is 19, which is smaller than `F`. -/
theorem clear_link_counter_wraps_counterexample :
    sample_dev_ap_max.cc.flags.CC33XX_FLAG_RECOVERY_IN_PROGRESS = true
    ∧ (sample_dev_ap_max.links 2).total_freed_pkts = 2 ^ 64 - 1
    ∧ ((cc33xx_clear_link sample_reg sample_dev_ap_max 0 2).1.vifs 0).total_freed_pkts = 19
    ∧ ((cc33xx_clear_link sample_reg sample_dev_ap_max 0 2).1.vifs 0).total_freed_pkts
        < (sample_dev_ap_max.links 2).total_freed_pkts := by
  decide

/-- Claim C17, amended.  Sequence continuity on clear.  When `cc33xx_clear_link`
clears the broadcast link of an AP interface whose link counter is `F`, the
value left in `wlvif->total_freed_pkts` is `F + padding` in 64-bit arithmetic
(that is, modulo `2 ^ 64`) if `CC33XX_FLAG_RECOVERY_IN_PROGRESS` is set and
exactly `F` otherwise, where padding is `CC33XX_TX_SQN_POST_RECOVERY_PADDING`, or
the `_GEM` one when the encryption type is `KEY_GEM`; whenever `F + padding` is
below `2 ^ 64` it is `F + padding` itself and not smaller than `F`. -/
theorem clear_link_carries_counter (R : RegConsts) (d : Dev) (v h : Nat)
    (hv : h ≠ R.CC33XX_INVALID_LINK_ID)
    (hap : (d.vifs v).bss_type = R.BSS_TYPE_AP_BSS)
    (hb : h = (d.vifs v).ap_bcast_hlid) :
    ((cc33xx_clear_link R d v h).1.vifs v).total_freed_pkts
      = (if d.cc.flags.CC33XX_FLAG_RECOVERY_IN_PROGRESS then
          ((d.links h).total_freed_pkts
            + (if (d.vifs v).encryption_type = R.KEY_GEM then
                R.CC33XX_TX_SQN_POST_RECOVERY_PADDING_GEM
               else R.CC33XX_TX_SQN_POST_RECOVERY_PADDING)) % 2 ^ 64
         else (d.links h).total_freed_pkts)
    ∧ ((d.links h).total_freed_pkts
          + (if (d.vifs v).encryption_type = R.KEY_GEM then
              R.CC33XX_TX_SQN_POST_RECOVERY_PADDING_GEM
             else R.CC33XX_TX_SQN_POST_RECOVERY_PADDING) < 2 ^ 64 →
        ((cc33xx_clear_link R d v h).1.vifs v).total_freed_pkts
          = (if d.cc.flags.CC33XX_FLAG_RECOVERY_IN_PROGRESS then
              (d.links h).total_freed_pkts
                + (if (d.vifs v).encryption_type = R.KEY_GEM then
                    R.CC33XX_TX_SQN_POST_RECOVERY_PADDING_GEM
                   else R.CC33XX_TX_SQN_POST_RECOVERY_PADDING)
             else (d.links h).total_freed_pkts)
        ∧ (d.links h).total_freed_pkts
          ≤ ((cc33xx_clear_link R d v h).1.vifs v).total_freed_pkts) := by
  have hval : ((cc33xx_clear_link R d v h).1.vifs v).total_freed_pkts
      = (if d.cc.flags.CC33XX_FLAG_RECOVERY_IN_PROGRESS then
          ((d.links h).total_freed_pkts
            + (if (d.vifs v).encryption_type = R.KEY_GEM then
                R.CC33XX_TX_SQN_POST_RECOVERY_PADDING_GEM
               else R.CC33XX_TX_SQN_POST_RECOVERY_PADDING)) % 2 ^ 64
         else (d.links h).total_freed_pkts) := by
    simp only [cc33xx_clear_link, hv, if_false, cc33xx_tx_reset_link_queues, hap, ← hb,
      and_self, if_true, upd_apply]
  refine ⟨hval, ?_⟩
  intro hfit
  rw [hval]
  by_cases hr : d.cc.flags.CC33XX_FLAG_RECOVERY_IN_PROGRESS = true
  · simp only [hr, if_true, Nat.mod_eq_of_lt hfit, true_and]
    omega
  · simp only [hr, Bool.false_eq_true, if_false, true_and, le_refl]

/-- The amended C17 on a concrete device: the broadcast link 2 of the AP interface has
freed 100 packets, recovery is in progress and the padding is 20: the value
carried forward is 120. -/
theorem clear_link_carries_counter_witness :
    ((cc33xx_clear_link sample_reg sample_dev_ap 0 2).1.vifs 0).total_freed_pkts = 120
    ∧ (sample_dev_ap.links 2).total_freed_pkts
      ≤ ((cc33xx_clear_link sample_reg sample_dev_ap 0 2).1.vifs 0).total_freed_pkts :=
  have h := (clear_link_carries_counter sample_reg sample_dev_ap 0 2 (by decide) (by decide)
    (by decide)).2 (by decide)
  ⟨h.1.trans (by decide), h.2⟩

/-- Claim C18 fails on the code.  For an AP interface, a
`cc33xx_cmd_role_start_ap` that succeeds leaves the counter
`cc->links[bcast_hlid].total_freed_pkts` of the new broadcast link as it was
before the call: `cc33xx_set_link` copies `wlvif->total_freed_pkts` only for
interfaces that are not AP, and nothing else restores it, so the value carried
forward in `wlvif->total_freed_pkts` never reaches the link. -/
theorem role_start_ap_counter (K : Consts) (R : RegConsts) (env : CmdEnv)
    (is_mesh hidden_ssid : Bool) (cmd : List Nat) (d : Dev) (v : Nat)
    (hap : (d.vifs v).bss_type = R.BSS_TYPE_AP_BSS)
    (hssid : ¬ (!is_mesh ∧ (d.vifs v).ssid_len = 0 ∧ !hidden_ssid))
    (hsend : 0 ≤ (cc33xx_cmd_send K env d.cc R.CMD_ROLE_START cmd
      R.sizeof_cmd_role_start 0).1) :
    (cc33xx_cmd_role_start_ap K R env true is_mesh hidden_ssid cmd d v).1 = 0
    ∧ ((cc33xx_cmd_role_start_ap K R env true is_mesh hidden_ssid cmd d v).2.vifs
        v).ap_bcast_hlid
      = R.complete_ap_broadcast_hlid
          (cc33xx_cmd_send K env d.cc R.CMD_ROLE_START cmd
            R.sizeof_cmd_role_start 0).2.1.command_result
    ∧ ∀ k, ((cc33xx_cmd_role_start_ap K R env true is_mesh hidden_ssid cmd d v).2.links
        k).total_freed_pkts = (d.links k).total_freed_pkts := by
  have hs : ¬ (cc33xx_cmd_send K env d.cc R.CMD_ROLE_START cmd
      R.sizeof_cmd_role_start 0).1 < 0 := not_lt.mpr hsend
  refine ⟨?_, ?_, ?_⟩
  · simp only [cc33xx_cmd_role_start_ap, hssid, if_false, Bool.not_true, Bool.false_eq_true,
      hs, cc33xx_set_link]
  · simp only [cc33xx_cmd_role_start_ap, hssid, if_false, Bool.not_true, Bool.false_eq_true,
      hs, cc33xx_set_link, upd_apply, hap, ne_eq, not_true_eq_false, if_true]
  · intro k
    simp only [cc33xx_cmd_role_start_ap, hssid, if_false, Bool.not_true, Bool.false_eq_true,
      hs, cc33xx_set_link, upd_apply, hap, ne_eq, not_true_eq_false, if_true]
    split_ifs <;> first | rfl | (subst_vars; rfl) | simp_all

/-- The failing input of C18: the AP interface of `sample_dev_ap` is torn down
during recovery (broadcast link 2 with 100 freed packets, padding 20), so 120
is carried forward in `wlvif->total_freed_pkts`; the role is started again and
the firmware hands out the broadcast link 2 again.  The counter of the new
broadcast link is 0, not 120. -/
theorem role_start_ap_counter_witness :
    ((clear_link_ap_global sample_reg (clear_link_ap_bcast sample_reg sample_dev_ap 0) 0).vifs
        0).total_freed_pkts = 120
    ∧ ((cc33xx_cmd_role_start_ap sample_consts sample_reg sample_env_role true false false
        (List.replicate 16 0)
        (clear_link_ap_global sample_reg (clear_link_ap_bcast sample_reg sample_dev_ap 0) 0)
        0).2.vifs 0).ap_bcast_hlid = 2
    ∧ ((cc33xx_cmd_role_start_ap sample_consts sample_reg sample_env_role true false false
        (List.replicate 16 0)
        (clear_link_ap_global sample_reg (clear_link_ap_bcast sample_reg sample_dev_ap 0) 0)
        0).2.links 2).total_freed_pkts = 0 :=
  have h := role_start_ap_counter sample_consts sample_reg sample_env_role false false
    (List.replicate 16 0)
    (clear_link_ap_global sample_reg (clear_link_ap_bcast sample_reg sample_dev_ap 0) 0) 0
    (by decide) (by decide) (by decide)
  ⟨by decide, h.2.1.trans (by decide), (h.2.2 2).trans (by decide)⟩

/-- Claim C19, as stated, fails: clearing the broadcast link 2 of the sample AP
interface leaves its session id 6 in `cc->session_ids[2]`. -/
theorem clear_link_keeps_session_id_counterexample :
    sample_dev_ap.session_ids 2 = 6
    ∧ (cc33xx_clear_link sample_reg sample_dev_ap 0 2).1.session_ids 2 = 6 := by
  decide

/-- Claim C19, amended.  For every valid link id `cc33xx_clear_link` resets the
per-link state (`prev_freed_pkts`, `ba_bitmap`, the peer address,
`total_freed_pkts`, the owner, the queued packets) and leaves
`allocated_pkts` and every entry of `cc->session_ids` as they were. -/
theorem clear_link_resets_link (R : RegConsts) (d : Dev) (v h : Nat)
    (hv : h ≠ R.CC33XX_INVALID_LINK_ID) :
    (cc33xx_clear_link R d v h).1.links h
      = { wlvif := none
          allocated_pkts := (d.links h).allocated_pkts
          prev_freed_pkts := 0
          total_freed_pkts := 0
          ba_bitmap := 0
          addr := List.replicate 6 0
          tx_queue := (d.links h).tx_queue.map (fun _ => []) }
    ∧ (cc33xx_clear_link R d v h).1.session_ids = d.session_ids := by
  constructor
  · simp only [cc33xx_clear_link, hv, if_false, cc33xx_tx_reset_link_queues]
    split_ifs <;> simp [upd_apply]
  · simp only [cc33xx_clear_link, hv, if_false, cc33xx_tx_reset_link_queues]
    split_ifs <;> rfl

/-- The amended C19 on the sample AP interface: link 2 is reset, its four
queues are empty, and the session ids are the same function as before. -/
theorem clear_link_resets_link_witness :
    (cc33xx_clear_link sample_reg sample_dev_ap 0 2).1.links 2
      = { sample_link with tx_queue := [[], [], [], []] }
    ∧ (cc33xx_clear_link sample_reg sample_dev_ap 0 2).1.session_ids
      = sample_dev_ap.session_ids :=
  have h := clear_link_resets_link sample_reg sample_dev_ap 0 2 (by decide)
  ⟨h.1.trans (by decide), h.2⟩

/-- Claim C20, as stated, fails in its last sentence: on a device that is
already OFF with `CC33XX_FLAG_RECOVERY_IN_PROGRESS` set, `cc33xx_turn_off` also
calls `cc33xx_enable_interrupts`. -/
theorem turn_off_when_off_counterexample :
    (cc33xx_turn_off sample_reg
        { sample_dev with cc := { sample_cc with
            state := DevState.CC33XX_STATE_OFF
            flags := { CC33XX_FLAG_SUSPENDED := false
                       CC33XX_FLAG_PENDING_WORK := false
                       CC33XX_FLAG_RECOVERY_IN_PROGRESS := true } } }).interrupts_enabled
      = sample_dev.interrupts_enabled + 1 := by
  decide

/-- Claim C20, amended.  From a state other than OFF, after `cc33xx_turn_off`
the state is OFF, `roles_map` and `roc_map` have no bit set, `links_map` has
exactly the `CC33XX_SYSTEM_HLID` bit set, all session ids are 0,
`active_link_count` and `active_sta_count` are 0 and `cc->flags` is 0.  When the
state is already OFF: with `CC33XX_FLAG_RECOVERY_IN_PROGRESS` clear nothing
changes; with the flag set, the flag is cleared and interrupts are enabled
again (`cc33xx_enable_interrupts`), and nothing else changes. -/
theorem turn_off_resets (R : RegConsts) (d : Dev) :
    (d.cc.state ≠ DevState.CC33XX_STATE_OFF →
      (cc33xx_turn_off R d).cc.state = DevState.CC33XX_STATE_OFF
      ∧ (cc33xx_turn_off R d).roles_map = 0
      ∧ (cc33xx_turn_off R d).roc_map = 0
      ∧ (∀ i, Nat.testBit (cc33xx_turn_off R d).links_map i
          = decide (R.CC33XX_SYSTEM_HLID = i))
      ∧ (∀ h, (cc33xx_turn_off R d).session_ids h = 0)
      ∧ (cc33xx_turn_off R d).active_link_count = 0
      ∧ (cc33xx_turn_off R d).active_sta_count = 0
      ∧ (cc33xx_turn_off R d).cc.flags
          = { CC33XX_FLAG_SUSPENDED := false
              CC33XX_FLAG_PENDING_WORK := false
              CC33XX_FLAG_RECOVERY_IN_PROGRESS := false })
    ∧ (d.cc.state = DevState.CC33XX_STATE_OFF →
        d.cc.flags.CC33XX_FLAG_RECOVERY_IN_PROGRESS = false →
        cc33xx_turn_off R d = d)
    ∧ (d.cc.state = DevState.CC33XX_STATE_OFF →
        d.cc.flags.CC33XX_FLAG_RECOVERY_IN_PROGRESS = true →
        cc33xx_turn_off R d
          = { d with
              cc := { d.cc with flags :=
                ({ d.cc.flags with CC33XX_FLAG_RECOVERY_IN_PROGRESS := false }) }
              interrupts_enabled := d.interrupts_enabled + 1 }) := by
  refine ⟨?_, ?_, ?_⟩
  · intro h
    refine ⟨?_, ?_, ?_, ?_, ?_, ?_, ?_, ?_⟩ <;>
      simp [cc33xx_turn_off, h, cc33xx_tx_reset, testBit_set_bit]
  · intro h hf
    simp [cc33xx_turn_off, h, hf]
  · intro h hf
    simp [cc33xx_turn_off, h, hf]

/-- The amended C20 on the sample AP device (RESTARTING, two roles' worth of
links allocated): afterwards the device is OFF, only the system link 0 is
allocated and the session id of link 2 is 0. -/
theorem turn_off_resets_witness :
    (cc33xx_turn_off sample_reg sample_dev_ap).cc.state = DevState.CC33XX_STATE_OFF
    ∧ (cc33xx_turn_off sample_reg sample_dev_ap).links_map = 1
    ∧ (cc33xx_turn_off sample_reg sample_dev_ap).session_ids 2 = 0 :=
  have h := (turn_off_resets sample_reg sample_dev_ap).1 (by decide)
  ⟨h.1, by decide, h.2.2.2.2.1 2⟩

/-! ## Teardown: channel configuration -/

/-- Claim C21, as stated, fails: a channel bit that is set only in
`cc->reg_ch_conf_pending` before `cc33xx_turn_off` is not set in
`cc->reg_ch_conf_pending` afterwards, because the pending map is overwritten
with the last sent map.  Here pending is `0b10` and last is `0b01` on a device
that is ON; afterwards bit 1 of pending is clear. -/
theorem turn_off_drops_pending_counterexample :
    sample_dev.cc.state ≠ DevState.CC33XX_STATE_OFF
    ∧ Nat.testBit
        ({ sample_dev with reg_ch_conf_pending := 2, reg_ch_conf_last := 1 }).reg_ch_conf_pending
        1 = true
    ∧ Nat.testBit
        (cc33xx_turn_off sample_reg
          { sample_dev with reg_ch_conf_pending := 2, reg_ch_conf_last := 1 }).reg_ch_conf_pending
        1 = false := by
  decide

/-- Claim C21, amended.  After `cc33xx_turn_off` from a state other than OFF,
`cc->reg_ch_conf_pending` is exactly what `cc->reg_ch_conf_last` was before the
call (so every channel bit of the last sent configuration is pending again) and
`cc->reg_ch_conf_last` is all zero; what was in `reg_ch_conf_pending` before the
call is overwritten. -/
theorem turn_off_channel_conf (R : RegConsts) (d : Dev)
    (h : d.cc.state ≠ DevState.CC33XX_STATE_OFF) :
    (cc33xx_turn_off R d).reg_ch_conf_pending = d.reg_ch_conf_last
    ∧ (∀ i, Nat.testBit d.reg_ch_conf_last i = true →
        Nat.testBit (cc33xx_turn_off R d).reg_ch_conf_pending i = true)
    ∧ (cc33xx_turn_off R d).reg_ch_conf_last = 0 := by
  have e : (cc33xx_turn_off R d).reg_ch_conf_pending = d.reg_ch_conf_last := by
    simp [cc33xx_turn_off, h, cc33xx_tx_reset]
  refine ⟨e, ?_, ?_⟩
  · intro i hi
    rw [e]
    exact hi
  · simp [cc33xx_turn_off, h]

/-- The amended C21 on a device that is ON with pending `0b10` and last `0b01`:
afterwards pending is `0b01` and last is 0. -/
theorem turn_off_channel_conf_witness :
    (cc33xx_turn_off sample_reg
        { sample_dev with reg_ch_conf_pending := 2, reg_ch_conf_last := 1 }).reg_ch_conf_pending
      = 1
    ∧ (cc33xx_turn_off sample_reg
        { sample_dev with reg_ch_conf_pending := 2, reg_ch_conf_last := 1 }).reg_ch_conf_last
      = 0 :=
  have h := turn_off_channel_conf sample_reg
    { sample_dev with reg_ch_conf_pending := 2, reg_ch_conf_last := 1 } (by decide)
  ⟨h.1, h.2.2⟩

/-! ## Transmit admission -/

/-- Claim C22 fails on the code for a queue that is stopped for the watermark
reason and for another reason as well.  For a packet with an interface,
`cc33xx_op_tx` drops the packet (frees it and changes nothing else) exactly when
the link id is `CC33XX_INVALID_LINK_ID`, or the link is not in the interface's
`links_map`, or the queue is stopped and the watermark reason is not among its
stop reasons; otherwise the packet is appended at the tail of
`cc->links[hlid].tx_queue[q]` and both `tx_queue_count[q]` counters grow by one.
So a queue whose stop reasons contain the watermark reason admits the packet
whatever other reason `r` is set too, where the claim (and the comment in the
code) says that a queue stopped for a reason other than watermark drops it. -/
theorem op_tx_admission (R : RegConsts) (T : TxConsts) (s : TxDev) (v q hlid skb : Nat) :
    ((hlid = R.CC33XX_INVALID_LINK_ID
        ∨ Nat.testBit (s.d.vifs v).links_map hlid = false
        ∨ (s.queue_stop_reasons v q ≠ 0
            ∧ Nat.testBit (s.queue_stop_reasons v q)
                T.CC33XX_QUEUE_STOP_REASON_WATERMARK = false)) →
      cc33xx_op_tx R T s (some v) q hlid skb
        = { s with freed_txskb := s.freed_txskb ++ [skb] })
    ∧ (¬ (hlid = R.CC33XX_INVALID_LINK_ID
        ∨ Nat.testBit (s.d.vifs v).links_map hlid = false
        ∨ (s.queue_stop_reasons v q ≠ 0
            ∧ Nat.testBit (s.queue_stop_reasons v q)
                T.CC33XX_QUEUE_STOP_REASON_WATERMARK = false)) →
      ((cc33xx_op_tx R T s (some v) q hlid skb).d.links hlid).tx_queue
          = (s.d.links hlid).tx_queue.set q (((s.d.links hlid).tx_queue.getD q []) ++ [skb])
        ∧ (cc33xx_op_tx R T s (some v) q hlid skb).tx_queue_count q = s.tx_queue_count q + 1
        ∧ (cc33xx_op_tx R T s (some v) q hlid skb).vif_tx_queue_count v q
            = s.vif_tx_queue_count v q + 1
        ∧ (cc33xx_op_tx R T s (some v) q hlid skb).freed_txskb = s.freed_txskb)
    ∧ (∀ r, r ≠ T.CC33XX_QUEUE_STOP_REASON_WATERMARK →
        Nat.testBit (s.queue_stop_reasons v q) r = true →
        Nat.testBit (s.queue_stop_reasons v q) T.CC33XX_QUEUE_STOP_REASON_WATERMARK = true →
        hlid ≠ R.CC33XX_INVALID_LINK_ID →
        Nat.testBit (s.d.vifs v).links_map hlid = true →
        ((cc33xx_op_tx R T s (some v) q hlid skb).d.links hlid).tx_queue
          = (s.d.links hlid).tx_queue.set q (((s.d.links hlid).tx_queue.getD q []) ++ [skb])
        ∧ (cc33xx_op_tx R T s (some v) q hlid skb).freed_txskb = s.freed_txskb) := by
  have hdrop : (hlid = R.CC33XX_INVALID_LINK_ID
        ∨ (!test_bit hlid (s.d.vifs v).links_map) = true
        ∨ (cc33xx_is_queue_stopped_locked s v q = true
            ∧ (!cc33xx_is_queue_stopped_by_reason_locked s v q
                T.CC33XX_QUEUE_STOP_REASON_WATERMARK) = true))
      ↔ (hlid = R.CC33XX_INVALID_LINK_ID
        ∨ Nat.testBit (s.d.vifs v).links_map hlid = false
        ∨ (s.queue_stop_reasons v q ≠ 0
            ∧ Nat.testBit (s.queue_stop_reasons v q)
                T.CC33XX_QUEUE_STOP_REASON_WATERMARK = false)) := by
    simp [test_bit, cc33xx_is_queue_stopped_locked, cc33xx_is_queue_stopped_by_reason_locked]
  have hadmit : ¬ (hlid = R.CC33XX_INVALID_LINK_ID
        ∨ Nat.testBit (s.d.vifs v).links_map hlid = false
        ∨ (s.queue_stop_reasons v q ≠ 0
            ∧ Nat.testBit (s.queue_stop_reasons v q)
                T.CC33XX_QUEUE_STOP_REASON_WATERMARK = false)) →
      ((cc33xx_op_tx R T s (some v) q hlid skb).d.links hlid).tx_queue
          = (s.d.links hlid).tx_queue.set q (((s.d.links hlid).tx_queue.getD q []) ++ [skb])
        ∧ (cc33xx_op_tx R T s (some v) q hlid skb).tx_queue_count q = s.tx_queue_count q + 1
        ∧ (cc33xx_op_tx R T s (some v) q hlid skb).vif_tx_queue_count v q
            = s.vif_tx_queue_count v q + 1
        ∧ (cc33xx_op_tx R T s (some v) q hlid skb).freed_txskb = s.freed_txskb := by
    intro h
    have h' := mt hdrop.mp h
    simp only [cc33xx_op_tx, if_neg h']
    refine ⟨?_, ?_, ?_, ?_⟩ <;>
      split_ifs <;> simp [cc33xx_stop_queue_locked, upd, skb_queue_tail]
  refine ⟨?_, hadmit, ?_⟩
  · intro h
    simp only [cc33xx_op_tx, if_pos (hdrop.mpr h)]
  · intro r _ _ hw hv hl
    have h := hadmit (by
      rintro (h1 | h1 | ⟨_, h1⟩)
      · exact hv h1
      · rw [hl] at h1; cases h1
      · rw [hw] at h1; cases h1)
    exact ⟨h.1, h.2.2.2⟩

/-- The failing input of C22: interface 0 owns link 3 and its queue 1 is
stopped for the watermark reason (bit 0) and for another reason (bit 1).  The
packet 77 is not freed; it is appended to queue 1 of link 3 and the transmit
work is queued. -/
theorem op_tx_admission_witness :
    Nat.testBit (sample_tx_dev.queue_stop_reasons 0 1) 1 = true
    ∧ ((cc33xx_op_tx sample_reg sample_tx_consts sample_tx_dev (some 0) 1 3 77).d.links 3).tx_queue
        = [[], [77], [], []]
    ∧ (cc33xx_op_tx sample_reg sample_tx_consts sample_tx_dev (some 0) 1 3 77).freed_txskb = [] :=
  have h := (op_tx_admission sample_reg sample_tx_consts sample_tx_dev 0 1 3 77).2.2 1
    (by decide) (by decide) (by decide) (by decide) (by decide)
  ⟨by decide, h.1.trans (by decide), h.2⟩

/-! ## Remain-on-channel reservations -/

/-- The command `cc33xx_cmd_roc` does not touch `cc->roc_map` or the watchdog. -/
theorem cmd_roc_frame (K : Consts) (R : RegConsts) (C : RocConsts) (env : CmdEnv)
    (alloc_ok : Bool) (s : RocDev) (role_id band channel : Nat) :
    (cc33xx_cmd_roc K R C env alloc_ok s role_id band channel).2.d.roc_map = s.d.roc_map
    ∧ (cc33xx_cmd_roc K R C env alloc_ok s role_id band channel).2.tx_watchdog_work
        = s.tx_watchdog_work := by
  unfold cc33xx_cmd_roc
  split_ifs <;> exact ⟨rfl, rfl⟩

/-- The command `cc33xx_cmd_croc` does not touch `cc->roc_map` or the watchdog. -/
theorem cmd_croc_frame (K : Consts) (C : RocConsts) (env : CmdEnv)
    (alloc_ok : Bool) (s : RocDev) (role_id : Nat) :
    (cc33xx_cmd_croc K C env alloc_ok s role_id).2.d.roc_map = s.d.roc_map
    ∧ (cc33xx_cmd_croc K C env alloc_ok s role_id).2.tx_watchdog_work
        = s.tx_watchdog_work := by
  unfold cc33xx_cmd_croc
  split_ifs <;> exact ⟨rfl, rfl⟩

/-- The reservation map after `cc33xx_roc` that did not fail has the role's bit
set; after `cc33xx_croc` that did not fail it has the role's bit clear. -/
theorem roc_croc_bit (K : Consts) (R : RegConsts) (C : RocConsts) (env : CmdEnv)
    (alloc_ok : Bool) (s : RocDev) (role_id band channel : Nat) :
    (0 ≤ (cc33xx_roc K R C env alloc_ok s role_id band channel).1 →
      test_bit role_id (cc33xx_roc K R C env alloc_ok s role_id band channel).2.d.roc_map
        = true)
    ∧ (0 ≤ (cc33xx_croc K C env alloc_ok s role_id).1 →
      test_bit role_id (cc33xx_croc K C env alloc_ok s role_id).2.d.roc_map = false) := by
  constructor
  · intro h
    unfold cc33xx_roc at h ⊢
    by_cases hb : test_bit role_id s.d.roc_map = true
    · simp only [hb, if_true]
    · simp only [hb, Bool.false_eq_true, if_false] at h ⊢
      by_cases hr : (cc33xx_cmd_roc K R C env alloc_ok s role_id band channel).1 < 0
      · simp only [hr, if_true] at h
        exact absurd hr (not_lt.mpr h)
      · simp only [hr, if_false, test_bit, testBit_set_bit, decide_True, Bool.or_true]
  · intro h
    unfold cc33xx_croc at h ⊢
    by_cases hb : test_bit role_id s.d.roc_map = true
    · simp only [hb, Bool.not_true, Bool.false_eq_true, if_false] at h ⊢
      by_cases hr : (cc33xx_cmd_croc K C env alloc_ok s role_id).1 < 0
      · simp only [hr, if_true] at h
        exact absurd hr (not_lt.mpr h)
      · simp only [hr, if_false]
        split_ifs <;>
          simp [test_bit, testBit_clear_bit, cc33xx_rearm_tx_watchdog_locked, apply_ite]
    · have hb' : test_bit role_id s.d.roc_map = false := by
        cases hx : test_bit role_id s.d.roc_map
        · rfl
        · exact absurd hx hb
      simp only [hb', Bool.not_false, if_true]

/-- Claim C23.  ROC reserve and release are idempotent.  `cc33xx_roc` on a role
whose bit is set in `cc->roc_map` returns 0 and changes nothing (no command is
sent); `cc33xx_croc` on a role whose bit is clear returns 0 and changes nothing
(no command, no watchdog rearm).  Otherwise, when the command does not fail, roc
sets exactly that role's bit and croc clears exactly that role's bit; when the
command fails, the error is returned and `roc_map` is unchanged.  Hence a second
roc after a roc that did not fail, and a second croc after a croc that did not
fail, returns 0 and changes nothing: two calls leave `roc_map` as the first one
left it. -/
theorem roc_idempotent (K : Consts) (R : RegConsts) (C : RocConsts) (e1 e2 : CmdEnv)
    (a1 a2 : Bool) (s : RocDev) (role_id band channel : Nat) :
    (test_bit role_id s.d.roc_map = true →
      cc33xx_roc K R C e1 a1 s role_id band channel = (0, s))
    ∧ (test_bit role_id s.d.roc_map = false →
      cc33xx_croc K C e1 a1 s role_id = (0, s))
    ∧ (test_bit role_id s.d.roc_map = false →
        0 ≤ (cc33xx_cmd_roc K R C e1 a1 s role_id band channel).1 →
        (cc33xx_roc K R C e1 a1 s role_id band channel).1
            = (cc33xx_cmd_roc K R C e1 a1 s role_id band channel).1
        ∧ ∀ i, Nat.testBit (cc33xx_roc K R C e1 a1 s role_id band channel).2.d.roc_map i
            = (Nat.testBit s.d.roc_map i || decide (role_id = i)))
    ∧ (test_bit role_id s.d.roc_map = false →
        (cc33xx_cmd_roc K R C e1 a1 s role_id band channel).1 < 0 →
        (cc33xx_roc K R C e1 a1 s role_id band channel).1
            = (cc33xx_cmd_roc K R C e1 a1 s role_id band channel).1
        ∧ (cc33xx_roc K R C e1 a1 s role_id band channel).2.d.roc_map = s.d.roc_map)
    ∧ (test_bit role_id s.d.roc_map = true →
        0 ≤ (cc33xx_cmd_croc K C e1 a1 s role_id).1 →
        (cc33xx_croc K C e1 a1 s role_id).1 = (cc33xx_cmd_croc K C e1 a1 s role_id).1
        ∧ ∀ i, Nat.testBit (cc33xx_croc K C e1 a1 s role_id).2.d.roc_map i
            = (Nat.testBit s.d.roc_map i && !decide (role_id = i)))
    ∧ (test_bit role_id s.d.roc_map = true →
        (cc33xx_cmd_croc K C e1 a1 s role_id).1 < 0 →
        (cc33xx_croc K C e1 a1 s role_id).1 = (cc33xx_cmd_croc K C e1 a1 s role_id).1
        ∧ (cc33xx_croc K C e1 a1 s role_id).2.d.roc_map = s.d.roc_map
        ∧ (cc33xx_croc K C e1 a1 s role_id).2.tx_watchdog_work = s.tx_watchdog_work)
    ∧ (0 ≤ (cc33xx_roc K R C e1 a1 s role_id band channel).1 →
        cc33xx_roc K R C e2 a2 (cc33xx_roc K R C e1 a1 s role_id band channel).2
            role_id band channel
          = (0, (cc33xx_roc K R C e1 a1 s role_id band channel).2))
    ∧ (0 ≤ (cc33xx_croc K C e1 a1 s role_id).1 →
        cc33xx_croc K C e2 a2 (cc33xx_croc K C e1 a1 s role_id).2 role_id
          = (0, (cc33xx_croc K C e1 a1 s role_id).2)) := by
  have hroc : ∀ (e : CmdEnv) (a : Bool) (t : RocDev), test_bit role_id t.d.roc_map = true →
      cc33xx_roc K R C e a t role_id band channel = (0, t) := by
    intro e a t h
    simp only [cc33xx_roc, h, if_true]
  have hcroc : ∀ (e : CmdEnv) (a : Bool) (t : RocDev), test_bit role_id t.d.roc_map = false →
      cc33xx_croc K C e a t role_id = (0, t) := by
    intro e a t h
    simp only [cc33xx_croc, h, Bool.not_false, if_true]
  refine ⟨hroc e1 a1 s, hcroc e1 a1 s, ?_, ?_, ?_, ?_, ?_, ?_⟩
  · intro hb hr
    have hr' : ¬ (cc33xx_cmd_roc K R C e1 a1 s role_id band channel).1 < 0 := not_lt.mpr hr
    simp only [cc33xx_roc, hb, Bool.false_eq_true, if_false, hr', testBit_set_bit,
      (cmd_roc_frame K R C e1 a1 s role_id band channel).1, true_and]
    intro i
    trivial
  · intro hb hr
    simp only [cc33xx_roc, hb, Bool.false_eq_true, if_false, hr, if_true,
      (cmd_roc_frame K R C e1 a1 s role_id band channel).1, and_self]
  · intro hb hr
    have hr' : ¬ (cc33xx_cmd_croc K C e1 a1 s role_id).1 < 0 := not_lt.mpr hr
    simp only [cc33xx_croc, hb, Bool.not_true, Bool.false_eq_true, if_false, hr']
    constructor
    · split_ifs <;> rfl
    · intro i
      split_ifs <;>
        simp [testBit_clear_bit, cc33xx_rearm_tx_watchdog_locked, apply_ite,
          (cmd_croc_frame K C e1 a1 s role_id).1]
  · intro hb hr
    simp only [cc33xx_croc, hb, Bool.not_true, Bool.false_eq_true, if_false, hr, if_true,
      (cmd_croc_frame K C e1 a1 s role_id).1, (cmd_croc_frame K C e1 a1 s role_id).2,
      and_self]
  · intro h
    exact hroc e2 a2 _ ((roc_croc_bit K R C e1 a1 s role_id band channel).1 h)
  · intro h
    exact hcroc e2 a2 _ ((roc_croc_bit K R C e1 a1 s role_id band channel).2 h)

/-- Claim C23 on the sample device: a first `cc33xx_roc` for role 1 succeeds and
sets bit 1; a second one, whatever the firmware would answer, returns 0 and
leaves the map and the record of bus writes as the first call left them. -/
theorem roc_idempotent_witness :
    (cc33xx_roc sample_consts sample_reg sample_roc_consts sample_env_timeout false
        (cc33xx_roc sample_consts sample_reg sample_roc_consts sample_env_completed true
          sample_roc_dev 1 0 6).2 1 0 6).1 = 0
    ∧ (cc33xx_roc sample_consts sample_reg sample_roc_consts sample_env_timeout false
        (cc33xx_roc sample_consts sample_reg sample_roc_consts sample_env_completed true
          sample_roc_dev 1 0 6).2 1 0 6).2.d.roc_map = 2 := by
  have h := (roc_idempotent sample_consts sample_reg sample_roc_consts sample_env_completed
    sample_env_timeout true false sample_roc_dev 1 0 6).2.2.2.2.2.2.1 (by decide)
  rw [h]
  exact ⟨rfl, by decide⟩

/-- Claim C24 fails on the code.  With the device ON, let the work run when
`elapsed` ticks have passed since the stamp in `wlvif->pending_auth_reply_time`.
The test `time_after(time_spare, stamp)` with
`time_spare = msecs_to_jiffies(CC33xx_PEND_ROC_COMPLETE_TIMEOUT - 50) + jiffies`
holds as soon as `spare + elapsed` is positive (and at most `2 ^ 63`), so for
every such `elapsed`, also `elapsed = 0`, the work goes on to `cc33xx_croc` when
the role holds a reservation: the elapsed time is not compared with the
timeout at all. -/
theorem roc_timeout_ignores_elapsed (K : Consts) (C : RocConsts) (env : CmdEnv)
    (alloc_ok : Bool) (s : RocDev) (wlvif elapsed : Nat)
    (hon : s.d.cc.state = DevState.CC33XX_STATE_ON)
    (hstamp : s.pending_auth_reply_time wlvif < 2 ^ 64)
    (hpos : 0 < C.roc_timeout_spare_jiffies + elapsed)
    (hle : C.roc_timeout_spare_jiffies + elapsed ≤ 2 ^ 63) :
    cc33xx_roc_timeout_work K C env alloc_ok
        ((s.pending_auth_reply_time wlvif + elapsed) % 2 ^ 64) s wlvif
      = if test_bit (s.d.vifs wlvif).role_id s.d.roc_map then
          (cc33xx_croc K C env alloc_ok s (s.d.vifs wlvif).role_id).2
        else s := by
  have ht : time_after
      ((C.roc_timeout_spare_jiffies + (s.pending_auth_reply_time wlvif + elapsed) % 2 ^ 64)
        % 2 ^ 64) (s.pending_auth_reply_time wlvif) = true := by
    simp only [time_after, decide_eq_true_eq]
    omega
  simp only [cc33xx_roc_timeout_work, hon, ne_eq, not_true_eq_false, if_false, ht,
    Bool.not_true, Bool.false_eq_true]

/-- The failing input of C24: role 1 of interface 0 holds a reservation, the
stamp is tick 1000, 16 ticks must pass, and the work runs at tick 1000, when no
time has passed.  The cancel command is written to the bus and the reservation
is gone. -/
theorem roc_timeout_ignores_elapsed_witness :
    (cc33xx_roc_timeout_work sample_consts sample_roc_consts sample_env_completed true
        1000 sample_roc_dev_held 0).d.roc_map = 0
    ∧ (cc33xx_roc_timeout_work sample_consts sample_roc_consts sample_env_completed true
        1000 sample_roc_dev_held 0).d.cc.bus_writes.length = 1 := by
  have h := roc_timeout_ignores_elapsed sample_consts sample_roc_consts sample_env_completed
    true sample_roc_dev_held 0 0 (by decide) (by decide) (by decide) (by decide)
  have e : (sample_roc_dev_held.pending_auth_reply_time 0 + 0) % 2 ^ 64 = 1000 := by decide
  rw [e] at h
  rw [h]
  decide

/-! ## Deferred interrupt work: the status block of the aggregated read -/

/-- Claim C25 fails on the code.  `cc33xx_irq_locked` never looks at the
padding words.  With a non-zero rx byte count and a successful aggregated read,
the status block at the tail of the read is handed to `process_core_status`
whatever its padding words are, so also when `verify_padding` rejects it, and
the function returns the non-negative result of the read.  When the block has
no command-complete bit, its interrupt bits, rx count and tx-result index are
dispatched by the first pass of `process_core_status`. -/
theorem irq_locked_skips_padding (K : Consts) (X : RxConsts) (rd : BusRead)
    (reads : List CtrlRead) (s : IrqDev)
    (hrx : s.cc.core_status.rx_status &&& K.RX_BYTE_COUNT_MASK ≠ 0)
    (hret : 0 ≤ rd.ret) :
    cc33xx_irq_locked K X rd reads s
        = (process_core_status K reads
            { s.cc with core_status := irq_locked_core_status K X rd s }).map
          (fun r => (rd.ret, irq_locked_rx X rd
            { s with
              deferred_events_runs := s.deferred_events_runs + 1
              raw_reads := s.raw_reads ++ [irq_locked_read_data_len K X s]
              cc := r.2 }))
    ∧ ((irq_locked_core_status K X rd s).host_interrupt_status
          &&& K.HINT_COMMAND_COMPLETE = 0 →
        cc33xx_irq_locked K X rd reads s
          = some (rd.ret, irq_locked_rx X rd
            { s with
              deferred_events_runs := s.deferred_events_runs + 1
              raw_reads := s.raw_reads ++ [irq_locked_read_data_len K X s]
              cc := process_core_status_rest K
                (irq_locked_core_status K X rd s).host_interrupt_status
                { s.cc with core_status :=
                    { irq_locked_core_status K X rd s with host_interrupt_status := 0 } } })) := by
  have hlen : ∀ n : Nat, irq_locked_read_data_len K X { s with deferred_events_runs := n }
      = irq_locked_read_data_len K X s := fun _ => rfl
  have hblk : ∀ n : Nat, irq_locked_core_status K X rd { s with deferred_events_runs := n }
      = irq_locked_core_status K X rd s := fun _ => rfl
  have h1 : cc33xx_irq_locked K X rd reads s
        = (process_core_status K reads
            { s.cc with core_status := irq_locked_core_status K X rd s }).map
          (fun r => (rd.ret, irq_locked_rx X rd
            { s with
              deferred_events_runs := s.deferred_events_runs + 1
              raw_reads := s.raw_reads ++ [irq_locked_read_data_len K X s]
              cc := r.2 })) := by
    simp only [cc33xx_irq_locked, ne_eq, hrx, not_false_eq_true, if_true, not_lt.mpr hret,
      if_false, hlen, hblk]
    cases process_core_status K reads
      { s.cc with core_status := irq_locked_core_status K X rd s } with
    | none => rfl
    | some r => rfl
  refine ⟨h1, ?_⟩
  intro hcc
  rw [h1]
  have hp : process_core_status K reads
      { s.cc with core_status := irq_locked_core_status K X rd s }
      = some (0, process_core_status_rest K
          (irq_locked_core_status K X rd s).host_interrupt_status
          { s.cc with core_status :=
              { irq_locked_core_status K X rd s with host_interrupt_status := 0 } }) := by
    cases reads <;> simp [process_core_status, hcc]
  rw [hp]
  rfl

/-- The failing input of C25: the status block at the tail of the aggregated
read has the padding word 0 (so `verify_padding` rejects it), the new-tx-result
bit and rx count 2.  The function returns 0, the deferred work is queued twice
(for the rx count and for the tx-result bit), no recovery is asked for and the
device stays ON. -/
theorem irq_locked_skips_padding_witness :
    verify_padding (irq_locked_core_status sample_consts sample_rx_consts
        sample_rx_read_bad_padding sample_irq_dev) < 0
    ∧ (cc33xx_irq_locked sample_consts sample_rx_consts sample_rx_read_bad_padding []
        sample_irq_dev).map
        (fun r => (r.1, r.2.cc.irq_deferred_work, r.2.cc.recovery_work, r.2.cc.state))
      = some (0, 2, 0, DevState.CC33XX_STATE_ON) := by
  have h := (irq_locked_skips_padding sample_consts sample_rx_consts
    sample_rx_read_bad_padding [] sample_irq_dev (by decide) (by decide)).2
    (by decide)
  refine ⟨by decide, ?_⟩
  rw [h]
  decide

/-! ## Rate policies -/

/-- The search loop returns the lowest clear position among the `n` positions
from `i` on, or `i + n` when all of them are set. -/
theorem find_first_zero_bit_loop_spec (map : Nat) :
    ∀ n i, i ≤ find_first_zero_bit_loop map n i
      ∧ find_first_zero_bit_loop map n i ≤ i + n
      ∧ (∀ j, i ≤ j → j < find_first_zero_bit_loop map n i → Nat.testBit map j = true)
      ∧ (find_first_zero_bit_loop map n i < i + n →
          Nat.testBit map (find_first_zero_bit_loop map n i) = false) := by
  intro n
  induction n with
  | zero =>
    intro i
    refine ⟨le_refl _, le_refl _, ?_, ?_⟩
    · intro j h1 h2
      simp only [find_first_zero_bit_loop] at h2
      omega
    · intro h
      simp only [find_first_zero_bit_loop] at h
      omega
  | succ n ih =>
    intro i
    cases hb : Nat.testBit map i with
    | false =>
      simp only [find_first_zero_bit_loop, hb, Bool.not_false, if_true]
      refine ⟨le_refl _, by omega, ?_, fun _ => trivial⟩
      intro j h1 h2
      omega
    | true =>
      simp only [find_first_zero_bit_loop, hb, Bool.not_true, Bool.false_eq_true, if_false]
      obtain ⟨h1, h2, h3, h4⟩ := ih (i + 1)
      refine ⟨by omega, by omega, ?_, ?_⟩
      · intro j hj1 hj2
        by_cases hji : j = i
        · rw [hji]; exact hb
        · exact h3 j (by omega) hj2
      · intro h
        exact h4 (by omega)

/-- The part of `cc33xx_init_vif_data` after the `switch` returns 0. -/
theorem init_vif_data_rest_ret (R : RegConsts) (C : RateConsts) (map : Nat) (w : RateVif) :
    (init_vif_data_rest R C map w).1 = 0 := by
  simp only [init_vif_data_rest]
  split_ifs <;> rfl

/-- Claim C26 holds for `cc33xx_allocate_rate_policy` and fails on the code for
`cc33xx_init_vif_data`.  With a pool of fewer than 256 slots,
`cc33xx_allocate_rate_policy` returns 0 with the lowest free index, which it
marks, and returns `-EBUSY` leaving the map and `*idx` unchanged exactly when
every slot is taken.  But `cc33xx_init_vif_data` drops those return values: it
never returns `-EBUSY`, and for a station interface on a full pool it returns 0
with the map unchanged and the three slot indices left at 0, the value of the
`memset`. -/
theorem rate_policy_exhaustion (R : RegConsts) (C : RateConsts) (map idx iftype : Nat)
    (hmax : C.CC33XX_MAX_RATE_POLICIES < 256) :
    (∀ p, p < C.CC33XX_MAX_RATE_POLICIES → Nat.testBit map p = false →
        (∀ j, j < p → Nat.testBit map j = true) →
        cc33xx_allocate_rate_policy C map idx = (0, set_bit p map, p))
    ∧ ((cc33xx_allocate_rate_policy C map idx).1 = - EBUSY
        ↔ ∀ j, j < C.CC33XX_MAX_RATE_POLICIES → Nat.testBit map j = true)
    ∧ ((∀ j, j < C.CC33XX_MAX_RATE_POLICIES → Nat.testBit map j = true) →
        cc33xx_allocate_rate_policy C map idx = (- EBUSY, map, idx))
    ∧ (cc33xx_init_vif_data R C iftype map).1 ≠ - EBUSY
    ∧ ((∀ j, j < C.CC33XX_MAX_RATE_POLICIES → Nat.testBit map j = true) →
        C.NL80211_IFTYPE_STATION ≠ C.NL80211_IFTYPE_P2P_CLIENT →
        cc33xx_init_vif_data R C C.NL80211_IFTYPE_STATION map
          = (0, map, { zero_vif with
              bss_type := C.BSS_TYPE_STA_BSS
              role_id := R.CC33XX_INVALID_ROLE_ID
              sta_hlid := R.CC33XX_INVALID_LINK_ID
              sta_basic_rate_idx := 0
              sta_ap_rate_idx := 0
              sta_p2p_rate_idx := 0 })) := by
  obtain ⟨_, h2, h3, h4⟩ := find_first_zero_bit_loop_spec map C.CC33XX_MAX_RATE_POLICIES 0
  have hle : find_first_zero_bit map C.CC33XX_MAX_RATE_POLICIES
      ≤ C.CC33XX_MAX_RATE_POLICIES := by
    simpa [find_first_zero_bit] using h2
  have hmod : find_first_zero_bit map C.CC33XX_MAX_RATE_POLICIES % 256
      = find_first_zero_bit map C.CC33XX_MAX_RATE_POLICIES := by
    omega
  have hfull : ∀ x, (∀ j, j < C.CC33XX_MAX_RATE_POLICIES → Nat.testBit map j = true) →
      cc33xx_allocate_rate_policy C map x = (- EBUSY, map, x) := by
    intro x hall
    have hge : C.CC33XX_MAX_RATE_POLICIES
        ≤ find_first_zero_bit map C.CC33XX_MAX_RATE_POLICIES := by
      by_contra hlt
      have hlt' : find_first_zero_bit_loop map C.CC33XX_MAX_RATE_POLICIES 0
          < 0 + C.CC33XX_MAX_RATE_POLICIES := by
        simpa [find_first_zero_bit] using hlt
      have hf := h4 hlt'
      rw [hall _ (by simpa using hlt')] at hf
      cases hf
    simp only [cc33xx_allocate_rate_policy, hmod, ge_iff_le, hge, if_true]
  refine ⟨?_, ?_, hfull idx, ?_, ?_⟩
  · intro p hp hpf hbelow
    have hfp : find_first_zero_bit map C.CC33XX_MAX_RATE_POLICIES = p := by
      have e : find_first_zero_bit map C.CC33XX_MAX_RATE_POLICIES
          = find_first_zero_bit_loop map C.CC33XX_MAX_RATE_POLICIES 0 := rfl
      rw [e]
      rcases Nat.lt_trichotomy (find_first_zero_bit_loop map C.CC33XX_MAX_RATE_POLICIES 0) p
        with hlt | heq | hgt
      · have hf := h4 (by omega)
        rw [hbelow _ hlt] at hf
        cases hf
      · exact heq
      · have ht := h3 p (Nat.zero_le _) hgt
        rw [hpf] at ht
        cases ht
    have hp256 : p % 256 = p := by omega
    simp only [cc33xx_allocate_rate_policy, hfp, hp256, ge_iff_le, not_le.mpr hp, if_false]
  · constructor
    · intro hret j hj
      by_contra hjf
      have hlt : find_first_zero_bit map C.CC33XX_MAX_RATE_POLICIES
          < C.CC33XX_MAX_RATE_POLICIES := by
        by_contra hge
        have hge' : j < find_first_zero_bit_loop map C.CC33XX_MAX_RATE_POLICIES 0 := by
          have e : find_first_zero_bit map C.CC33XX_MAX_RATE_POLICIES
              = find_first_zero_bit_loop map C.CC33XX_MAX_RATE_POLICIES 0 := rfl
          omega
        exact hjf (h3 j (Nat.zero_le _) hge')
      simp only [cc33xx_allocate_rate_policy, hmod, ge_iff_le, not_le.mpr hlt, if_false] at hret
      simp [EBUSY] at hret
    · intro hall
      rw [hfull idx hall]
  · unfold cc33xx_init_vif_data
    split_ifs <;> simp [init_vif_data_rest_ret, EOPNOTSUPP, EBUSY]
  · intro hall hne
    simp only [cc33xx_init_vif_data, hne, if_false, true_or, if_true, init_vif_data_rest,
      zero_vif, hfull _ hall]

/-- The failing input of C26: a pool of 4 rate policies, all taken, and a new
station interface.  A single allocation reports `-EBUSY`, but
`cc33xx_init_vif_data` returns 0 and leaves the three slot indices at 0. -/
theorem rate_policy_exhaustion_witness :
    (cc33xx_allocate_rate_policy sample_rate_consts 15 9).1 = - EBUSY
    ∧ (cc33xx_init_vif_data sample_reg sample_rate_consts 2 15).1 = 0
    ∧ (cc33xx_init_vif_data sample_reg sample_rate_consts 2 15).2.1 = 15
    ∧ (cc33xx_init_vif_data sample_reg sample_rate_consts 2 15).2.2.sta_basic_rate_idx = 0
    ∧ (cc33xx_init_vif_data sample_reg sample_rate_consts 2 15).2.2.sta_ap_rate_idx = 0
    ∧ (cc33xx_init_vif_data sample_reg sample_rate_consts 2 15).2.2.sta_p2p_rate_idx = 0 := by
  have h := rate_policy_exhaustion sample_reg sample_rate_consts 15 9 2 (by decide)
  have hall : ∀ j, j < sample_rate_consts.CC33XX_MAX_RATE_POLICIES →
      Nat.testBit 15 j = true := by decide
  have h5 := h.2.2.2.2 hall (by decide)
  have e : sample_rate_consts.NL80211_IFTYPE_STATION = 2 := rfl
  rw [e] at h5
  refine ⟨?_, ?_, ?_, ?_, ?_, ?_⟩
  · rw [h.2.2.1 hall]
  · rw [h5]
  · rw [h5]
  · rw [h5]
  · rw [h5]
  · rw [h5]

/-! ## Starting an IBSS role -/

/-- A sum over `0 .. n - 1` of a function changed at one index. -/
theorem sum_range_upd (f g : Nat → Nat) (h : Nat) (hne : ∀ k, k ≠ h → g k = f k) :
    ∀ n, h < n →
      ((List.range n).map g).sum + f h = ((List.range n).map f).sum + g h := by
  have hsame : ∀ n, n ≤ h → ((List.range n).map g).sum = ((List.range n).map f).sum := by
    intro n
    induction n with
    | zero => intro _; rfl
    | succ n ih =>
      intro hn
      rw [List.range_succ, List.map_append, List.map_append, List.sum_append, List.sum_append,
        ih (by omega)]
      simp only [List.map_cons, List.map_nil, List.sum_cons, List.sum_nil]
      rw [hne n (by omega)]
  intro n
  induction n with
  | zero => intro hn; omega
  | succ n ih =>
    intro hn
    rw [List.range_succ, List.map_append, List.map_append, List.sum_append, List.sum_append]
    simp only [List.map_cons, List.map_nil, List.sum_cons, List.sum_nil]
    by_cases hk : h = n
    · subst hk
      rw [hsame h (le_refl _)]
      omega
    · have := ih (by omega)
      rw [hne n (fun e => hk e.symm)]
      omega

/-- The list of the eight bit positions of a `u8`. -/
theorem range_8 : List.range 8 = [0, 1, 2, 3, 4, 5, 6, 7] := by decide

/-- Setting a clear bit of a `u8` bitmap adds one to its number of set bits. -/
theorem bits8_set (b t : Nat) (ht : t < 8) (hb : b &&& (1 <<< t) = 0) :
    bits8 ((b ||| (1 <<< t)) % 256) = bits8 b + 1 := by
  have hbit : Nat.testBit b t = false := by
    have h := congrArg (fun x => Nat.testBit x t) hb
    simpa [Nat.testBit_and, Nat.one_shiftLeft, Nat.testBit_two_pow] using h
  have h256 : (256 : Nat) = 2 ^ 8 := by norm_num
  have hi : ∀ i, i < 8 → Nat.testBit ((b ||| (1 <<< t)) % 256) i
      = (Nat.testBit b i || decide (t = i)) := by
    intro i hi
    rw [h256, Nat.testBit_mod_two_pow]
    simp [hi, Nat.testBit_or, Nat.one_shiftLeft, Nat.testBit_two_pow]
  simp only [bits8, range_8, List.map_cons, List.map_nil, List.sum_cons, List.sum_nil,
    hi 0 (by norm_num), hi 1 (by norm_num), hi 2 (by norm_num), hi 3 (by norm_num),
    hi 4 (by norm_num), hi 5 (by norm_num), hi 6 (by norm_num), hi 7 (by norm_num)]
  interval_cases t <;> simp [hbit] <;> omega

/-- Clearing a set bit of a `u8` bitmap takes one from its number of set bits. -/
theorem bits8_clear (b t : Nat) (ht : t < 8) (hb : b &&& (1 <<< t) ≠ 0) :
    bits8 (clear_bit t b % 256) + 1 = bits8 b := by
  have hbit : Nat.testBit b t = true := by
    by_contra hf
    apply hb
    apply Nat.eq_of_testBit_eq
    intro i
    simp only [Nat.testBit_and, Nat.one_shiftLeft, Nat.testBit_two_pow, Nat.zero_testBit]
    by_cases e : t = i
    · subst e
      simp [hf]
    · simp [e]
  have h256 : (256 : Nat) = 2 ^ 8 := by norm_num
  have hi : ∀ i, i < 8 → Nat.testBit (clear_bit t b % 256) i
      = (Nat.testBit b i && !decide (t = i)) := by
    intro i hi
    rw [h256, Nat.testBit_mod_two_pow, testBit_clear_bit]
    simp [hi]
  simp only [bits8, range_8, List.map_cons, List.map_nil, List.sum_cons, List.sum_nil,
    hi 0 (by norm_num), hi 1 (by norm_num), hi 2 (by norm_num), hi 3 (by norm_num),
    hi 4 (by norm_num), hi 5 (by norm_num), hi 6 (by norm_num), hi 7 (by norm_num)]
  interval_cases t <;> simp [hbit] <;> omega

/-- Storing a bit at position 8 or above into a `u8` bitmap changes nothing,
and no such bit is ever seen set. -/
theorem u8_high_bit (b t : Nat) (ht : 8 ≤ t) (hb : b < 256) :
    b &&& (1 <<< t) = 0 ∧ (b ||| (1 <<< t)) % 256 = b := by
  have hhigh : ∀ i, 8 ≤ i → Nat.testBit b i = false := by
    intro i hi
    apply Nat.testBit_lt_two_pow
    calc b < 2 ^ 8 := by norm_num; exact hb
      _ ≤ 2 ^ i := Nat.pow_le_pow_right (by norm_num) hi
  have h256 : (256 : Nat) = 2 ^ 8 := by norm_num
  constructor
  · apply Nat.eq_of_testBit_eq
    intro i
    simp only [Nat.testBit_and, Nat.one_shiftLeft, Nat.testBit_two_pow, Nat.zero_testBit]
    by_cases e : t = i
    · subst e
      simp [hhigh t ht]
    · simp [e]
  · apply Nat.eq_of_testBit_eq
    intro i
    rw [h256, Nat.testBit_mod_two_pow]
    simp only [Nat.testBit_or, Nat.one_shiftLeft, Nat.testBit_two_pow]
    by_cases hi : i < 8
    · have e : ¬ t = i := by omega
      simp [hi, e]
    · simp [hi, hhigh i (by omega)]

/-- The number of open sessions after the `ba_bitmap` of one link below
`CC33XX_MAX_LINKS` was replaced. -/
theorem ba_open_sessions_upd (B : BaConsts) (d : Dev) (hlid v : Nat)
    (hh : hlid < B.CC33XX_MAX_LINKS) :
    ba_open_sessions B { d with links := (upd d.links hlid
        { (d.links hlid) with ba_bitmap := v }) } + bits8 (d.links hlid).ba_bitmap
      = ba_open_sessions B d + bits8 v := by
  have h := sum_range_upd (fun h => bits8 (d.links h).ba_bitmap)
    (fun h => bits8 ((upd d.links hlid { (d.links hlid) with ba_bitmap := v }) h).ba_bitmap)
    hlid (by
      intro k hk
      simp only [upd, hk, if_false]) B.CC33XX_MAX_LINKS hh
  simpa [ba_open_sessions, upd] using h

/-- Claim C28 fails on the code in two places.  For a tid below 8 every call of
`cc33xx_op_ampdu_action` keeps `cc->ba_rx_session_count` equal to the number of
bits set over the links' `ba_bitmap`, whatever the action and the firmware
answer.  But the bitmap is a `u8`: a successful `IEEE80211_AMPDU_RX_START` for a
tid from 8 on (the function accepts tids up to 255) leaves the bitmap as it was
and still adds one to the count.  And `cc33xx_clear_link` zeroes the link's
`ba_bitmap` without changing the count. -/
theorem ba_session_accounting (R : RegConsts) (B : BaConsts) (acx_ret : Int) (s : BaDev)
    (wlvif action tid sta_hlid wl_sta_hlid : Nat) (ba_support ba_allowed : Bool) :
    (tid < 8 → ba_inv B s →
      ba_inv B (cc33xx_op_ampdu_action R B acx_ret s wlvif action tid sta_hlid wl_sta_hlid
        ba_support ba_allowed).2)
    ∧ (8 ≤ tid → tid ≤ 0xFF → s.d.cc.state = DevState.CC33XX_STATE_ON →
        (s.d.vifs wlvif).bss_type = B.BSS_TYPE_STA_BSS →
        sta_hlid ≠ R.CC33XX_INVALID_LINK_ID → sta_hlid < B.CC33XX_MAX_LINKS →
        action = B.IEEE80211_AMPDU_RX_START → ba_support = true → ba_allowed = true →
        s.ba_rx_session_count < B.CC33XX_RX_BA_MAX_SESSIONS →
        (s.d.links sta_hlid).ba_bitmap < 256 → acx_ret = 0 →
        (cc33xx_op_ampdu_action R B acx_ret s wlvif action tid sta_hlid wl_sta_hlid
            ba_support ba_allowed).1 = 0
        ∧ ((cc33xx_op_ampdu_action R B acx_ret s wlvif action tid sta_hlid wl_sta_hlid
            ba_support ba_allowed).2.d.links sta_hlid).ba_bitmap
            = (s.d.links sta_hlid).ba_bitmap
        ∧ (cc33xx_op_ampdu_action R B acx_ret s wlvif action tid sta_hlid wl_sta_hlid
            ba_support ba_allowed).2.ba_rx_session_count = s.ba_rx_session_count + 1)
    ∧ (∀ hlid, hlid ≠ R.CC33XX_INVALID_LINK_ID →
        ((ba_clear_link R s wlvif hlid).d.links hlid).ba_bitmap = 0
        ∧ (ba_clear_link R s wlvif hlid).ba_rx_session_count = s.ba_rx_session_count) := by
  refine ⟨?_, ?_, ?_⟩
  · intro ht hinv
    unfold ba_inv at hinv ⊢
    simp only [cc33xx_op_ampdu_action]
    generalize (if (s.d.vifs wlvif).bss_type = B.BSS_TYPE_STA_BSS then sta_hlid
      else wl_sta_hlid) = hlid
    by_cases h1 : tid > 0xFF
    · rw [if_pos h1]; exact hinv
    rw [if_neg h1]
    by_cases h2 : s.d.cc.state ≠ DevState.CC33XX_STATE_ON
    · rw [if_pos h2]; exact hinv
    rw [if_neg h2]
    by_cases h3 : (s.d.vifs wlvif).bss_type ≠ B.BSS_TYPE_STA_BSS
        ∧ (s.d.vifs wlvif).bss_type ≠ R.BSS_TYPE_AP_BSS
    · rw [if_pos h3]; exact hinv
    rw [if_neg h3]
    by_cases h4 : hlid = R.CC33XX_INVALID_LINK_ID
    · rw [if_pos h4]; exact hinv
    rw [if_neg h4]
    by_cases h5 : hlid ≥ B.CC33XX_MAX_LINKS
    · rw [if_pos h5]; exact hinv
    rw [if_neg h5]
    by_cases h6 : action = B.IEEE80211_AMPDU_RX_START
    · rw [if_pos h6]
      by_cases h7 : (!ba_support) = true ∨ (!ba_allowed) = true
      · rw [if_pos h7]; exact hinv
      rw [if_neg h7]
      by_cases h8 : s.ba_rx_session_count ≥ B.CC33XX_RX_BA_MAX_SESSIONS
      · rw [if_pos h8]; exact hinv
      rw [if_neg h8]
      by_cases h9 : (s.d.links hlid).ba_bitmap &&& (1 <<< tid) ≠ 0
      · rw [if_pos h9]; exact hinv
      rw [if_neg h9]
      by_cases h10 : acx_ret = 0
      · rw [if_pos h10]
        have hu := ba_open_sessions_upd B s.d hlid
          (((s.d.links hlid).ba_bitmap ||| (1 <<< tid)) % 256) (not_le.mp h5)
        have hb := bits8_set _ tid ht (not_not.mp h9)
        dsimp only at hu ⊢
        rw [hinv]
        omega
      · rw [if_neg h10]; exact hinv
    · rw [if_neg h6]
      by_cases h11 : action = B.IEEE80211_AMPDU_RX_STOP
      · rw [if_pos h11]
        by_cases h12 : (s.d.links hlid).ba_bitmap &&& (1 <<< tid) = 0
        · rw [if_pos h12]; exact hinv
        rw [if_neg h12]
        by_cases h13 : acx_ret = 0
        · rw [if_pos h13]
          have hu := ba_open_sessions_upd B s.d hlid
            (clear_bit tid (s.d.links hlid).ba_bitmap % 256) (not_le.mp h5)
          have hb := bits8_clear _ tid ht h12
          dsimp only at hu ⊢
          rw [hinv]
          omega
        · rw [if_neg h13]; exact hinv
      · rw [if_neg h11]; exact hinv
  · intro ht ht2 hon hsta hv hlt hact hs ha hcnt hb8 hacx
    obtain ⟨hz, hsame⟩ := u8_high_bit _ tid ht hb8
    have h1 : ¬ tid > 0xFF := by omega
    have h5 : ¬ sta_hlid ≥ B.CC33XX_MAX_LINKS := not_le.mpr hlt
    have h8 : ¬ s.ba_rx_session_count ≥ B.CC33XX_RX_BA_MAX_SESSIONS := not_le.mpr hcnt
    simp only [cc33xx_op_ampdu_action, h1, if_false, hon, ne_eq, not_true_eq_false, hsta,
      false_and, if_true, hv, h5, hact, hs, ha, Bool.not_true, Bool.false_eq_true, or_self,
      h8, hz, hacx, hsame, upd, and_true, true_and]
  · intro hlid hv
    constructor
    · simp only [ba_clear_link, cc33xx_clear_link, hv, if_false, cc33xx_tx_reset_link_queues]
      split_ifs <;> simp [upd]
    · rfl

/-- The two failing inputs of C28 on the sample device (station interface 0
owning link 1).  First, with no session open and the count 0, a successful
`IEEE80211_AMPDU_RX_START` for tid 8 leaves the bitmap of link 1 at 0 and makes
the count 1.  Second, with the session of tid 0 open and the count 1,
`cc33xx_clear_link` of link 1 zeroes the bitmap and leaves the count at 1. -/
theorem ba_session_accounting_witness :
    ba_open_sessions sample_ba_consts sample_ba_dev.d = 0
    ∧ sample_ba_dev.ba_rx_session_count = 0
    ∧ ba_open_sessions sample_ba_consts
        (cc33xx_op_ampdu_action sample_reg sample_ba_consts 0 sample_ba_dev 0 0 8 1 0xff
          true true).2.d = 0
    ∧ (cc33xx_op_ampdu_action sample_reg sample_ba_consts 0 sample_ba_dev 0 0 8 1 0xff
          true true).2.ba_rx_session_count = 1
    ∧ ba_open_sessions sample_ba_consts sample_ba_dev_open.d = 1
    ∧ sample_ba_dev_open.ba_rx_session_count = 1
    ∧ ba_open_sessions sample_ba_consts (ba_clear_link sample_reg sample_ba_dev_open 0 1).d = 0
    ∧ (ba_clear_link sample_reg sample_ba_dev_open 0 1).ba_rx_session_count = 1 := by
  have h := ba_session_accounting sample_reg sample_ba_consts 0 sample_ba_dev 0 0 8 1 0xff
    true true
  have h2 := h.2.1 (by decide) (by decide) (by decide) (by decide) (by decide) (by decide)
    (by decide) rfl rfl (by decide) (by decide) rfl
  refine ⟨by decide, rfl, by decide, h2.2.2.trans (by decide), by decide, rfl, by decide, rfl⟩

/-! ## WoWLAN patterns: validation against conversion -/

/-- The inner loop of the conversion stops at the first position that is past
the pattern, unmasked, or at the header boundary for a run that started before
it; everything it passed is masked and on the starting side of the boundary. -/
theorem convert_scan_spec (W : WowConsts) (mask n i : Nat) :
    ∀ fuel j, i ≤ j → j ≤ n → n ≤ j + fuel →
      (∀ k, i ≤ k → k < j → Nat.testBit mask k = true
        ∧ (i < W.CC33XX_RX_FILTER_ETH_HEADER_SIZE → k < W.CC33XX_RX_FILTER_ETH_HEADER_SIZE)) →
      j ≤ convert_scan W mask n i fuel j
      ∧ convert_scan W mask n i fuel j ≤ n
      ∧ (∀ k, i ≤ k → k < convert_scan W mask n i fuel j → Nat.testBit mask k = true
          ∧ (i < W.CC33XX_RX_FILTER_ETH_HEADER_SIZE →
              k < W.CC33XX_RX_FILTER_ETH_HEADER_SIZE))
      ∧ (convert_scan W mask n i fuel j = n
          ∨ Nat.testBit mask (convert_scan W mask n i fuel j) = false
          ∨ (i < W.CC33XX_RX_FILTER_ETH_HEADER_SIZE
              ∧ W.CC33XX_RX_FILTER_ETH_HEADER_SIZE ≤ convert_scan W mask n i fuel j)) := by
  intro fuel
  induction fuel with
  | zero =>
    intro j hij hjn hfuel hinv
    simp only [convert_scan]
    exact ⟨le_refl _, hjn, hinv, Or.inl (by omega)⟩
  | succ fuel ih =>
    intro j hij hjn hfuel hinv
    simp only [convert_scan]
    by_cases hlt : j < n
    · rw [if_pos hlt]
      cases hb : Nat.testBit mask j with
      | false =>
        have hc : (!test_bit j mask) = true := by simp [test_bit, hb]
        rw [if_pos hc]
        exact ⟨le_refl _, hjn, hinv, Or.inr (Or.inl hb)⟩
      | true =>
        have hc : ¬ ((!test_bit j mask) = true) := by simp [test_bit, hb]
        rw [if_neg hc]
        by_cases hE : i < W.CC33XX_RX_FILTER_ETH_HEADER_SIZE
            ∧ j ≥ W.CC33XX_RX_FILTER_ETH_HEADER_SIZE
        · rw [if_pos hE]
          exact ⟨le_refl _, hjn, hinv, Or.inr (Or.inr hE)⟩
        · rw [if_neg hE]
          have hnext := ih (j + 1) (by omega) (by omega) (by omega) (by
            intro k hk1 hk2
            by_cases hkj : k = j
            · subst hkj
              refine ⟨hb, ?_⟩
              intro hi
              by_contra hge
              exact hE ⟨hi, not_lt.mp hge⟩
            · exact hinv k hk1 (by omega))
          exact ⟨by omega, hnext.2.1, hnext.2.2.1, hnext.2.2.2⟩
    · rw [if_neg hlt]
      exact ⟨le_refl _, hjn, hinv, Or.inl (by omega)⟩

/-- The run that the conversion takes at a masked position `i` inside the
pattern: it is not empty, ends inside the pattern, holds masked bytes only,
does not cross the header boundary, and ends at the end of the pattern, at an
unmasked byte, or at the boundary. -/
theorem convert_scan_run (W : WowConsts) (mask n i : Nat) (hi : i < n)
    (hm : Nat.testBit mask i = true) :
    i < convert_scan W mask n i (n - i) i
    ∧ convert_scan W mask n i (n - i) i ≤ n
    ∧ (∀ k, i ≤ k → k < convert_scan W mask n i (n - i) i → Nat.testBit mask k = true)
    ∧ (i < W.CC33XX_RX_FILTER_ETH_HEADER_SIZE →
        convert_scan W mask n i (n - i) i ≤ W.CC33XX_RX_FILTER_ETH_HEADER_SIZE)
    ∧ (convert_scan W mask n i (n - i) i = n
        ∨ Nat.testBit mask (convert_scan W mask n i (n - i) i) = false
        ∨ (i < W.CC33XX_RX_FILTER_ETH_HEADER_SIZE
            ∧ convert_scan W mask n i (n - i) i = W.CC33XX_RX_FILTER_ETH_HEADER_SIZE)) := by
  obtain ⟨f, hf⟩ : ∃ f, n - i = f + 1 := ⟨n - i - 1, by omega⟩
  have hstep : convert_scan W mask n i (f + 1) i = convert_scan W mask n i f (i + 1) := by
    have hE : ¬ (i < W.CC33XX_RX_FILTER_ETH_HEADER_SIZE
        ∧ i ≥ W.CC33XX_RX_FILTER_ETH_HEADER_SIZE) := by omega
    simp only [convert_scan, hi, if_true, test_bit, hm, Bool.not_true, Bool.false_eq_true,
      if_false, hE]
  obtain ⟨h1, h2, h3, h4⟩ := convert_scan_spec W mask n i f (i + 1) (by omega) (by omega)
    (by omega) (by
      intro k hk1 hk2
      have hki : k = i := by omega
      subst hki
      exact ⟨hm, fun h => h⟩)
  rw [hf, hstep]
  have hEle : i < W.CC33XX_RX_FILTER_ETH_HEADER_SIZE →
      convert_scan W mask n i f (i + 1) ≤ W.CC33XX_RX_FILTER_ETH_HEADER_SIZE := by
    intro hiE
    have := (h3 (convert_scan W mask n i f (i + 1) - 1) (by omega) (by omega)).2 hiE
    omega
  refine ⟨by omega, h2, fun k hk1 hk2 => (h3 k hk1 hk2).1, hEle, ?_⟩
  rcases h4 with h | h | ⟨h, h'⟩
  · exact Or.inl h
  · exact Or.inr (Or.inl h)
  · exact Or.inr (Or.inr ⟨h, le_antisymm (hEle h) h'⟩)

/-- One more pass of the validation loop. -/
theorem validate_loop_succ (W : WowConsts) (mask k : Nat) :
    validate_loop W mask (k + 1) = validate_step W mask (validate_loop W mask k) k := by
  simp only [validate_loop, List.range_succ, List.foldl_append, List.foldl_cons, List.foldl_nil]

/-- Validation over an unmasked byte: an open field is closed and counted. -/
theorem validate_loop_gap (W : WowConsts) (mask i : Nat)
    (hm : Nat.testBit mask i = false) :
    (validate_loop W mask (i + 1)).in_field = false
    ∧ (validate_flush W (validate_loop W mask (i + 1))).num_fields
        = (validate_flush W (validate_loop W mask i)).num_fields
    ∧ (validate_flush W (validate_loop W mask (i + 1))).fields_size
        = (validate_flush W (validate_loop W mask i)).fields_size := by
  rw [validate_loop_succ]
  cases hf : (validate_loop W mask i).in_field <;>
    simp [validate_step, validate_flush, test_bit, hm, hf]

/-- Validation over a run of the conversion: after the run the field is open
with the length of the run, and what was open before the run is counted. -/
theorem validate_loop_run (W : WowConsts) (mask i : Nat)
    (hm : Nat.testBit mask i = true)
    (hhead : (validate_loop W mask i).in_field = true →
      i = W.CC33XX_RX_FILTER_ETH_HEADER_SIZE) :
    ∀ d, (∀ k, i ≤ k → k < i + 1 + d → Nat.testBit mask k = true) →
      (i < W.CC33XX_RX_FILTER_ETH_HEADER_SIZE →
        i + 1 + d ≤ W.CC33XX_RX_FILTER_ETH_HEADER_SIZE) →
      validate_loop W mask (i + 1 + d)
        = { num_fields := (validate_flush W (validate_loop W mask i)).num_fields
            in_field := true
            fields_size := (validate_flush W (validate_loop W mask i)).fields_size
            pattern_len := 1 + d } := by
  intro d
  induction d with
  | zero =>
    intro _ _
    rw [Nat.add_zero, validate_loop_succ]
    cases hf : (validate_loop W mask i).in_field with
    | false => simp [validate_step, validate_flush, test_bit, hm, hf]
    | true =>
      have hiE := hhead hf
      simp only [validate_step, validate_flush, test_bit, hm, hf, if_true, Bool.not_true,
        Bool.false_eq_true, if_false, if_pos hiE]
  | succ d ih =>
    intro hall hE
    have hprev := ih (fun k hk1 hk2 => hall k hk1 (by omega)) (fun h => by
      have := hE h
      omega)
    have hmk : Nat.testBit mask (i + 1 + d) = true := hall _ (by omega) (by omega)
    have hne : ¬ (i + 1 + d = W.CC33XX_RX_FILTER_ETH_HEADER_SIZE) := by
      intro he
      by_cases hi : i < W.CC33XX_RX_FILTER_ETH_HEADER_SIZE
      · have := hE hi
        omega
      · omega
    rw [show i + 1 + (d + 1) = (i + 1 + d) + 1 by omega, validate_loop_succ, hprev]
    simp [validate_step, test_bit, hmk, hne]
    omega

/-- Validation counts the runs of the conversion: from any loop head `i` of the
conversion on, the counters at the end of validation are the counters at `i`
(an open field counted) plus one field per run and its length plus overhead. -/
theorem validate_counts_runs (W : WowConsts) (mask n : Nat) :
    ∀ fuel i, i ≤ n → n - i ≤ fuel →
      (i < n → (validate_loop W mask i).in_field = true → Nat.testBit mask i = true →
        i = W.CC33XX_RX_FILTER_ETH_HEADER_SIZE) →
      (validate_flush W (validate_loop W mask n)).num_fields
          = (validate_flush W (validate_loop W mask i)).num_fields
            + (convert_runs W mask n fuel i).length
      ∧ (validate_flush W (validate_loop W mask n)).fields_size
          = (validate_flush W (validate_loop W mask i)).fields_size
            + ((convert_runs W mask n fuel i).map
                (fun r => r.2 + W.RX_FILTER_FIELD_OVERHEAD)).sum := by
  intro fuel
  induction fuel with
  | zero =>
    intro i hin hfuel _
    have hi : i = n := by omega
    subst hi
    simp [convert_runs]
  | succ fuel ih =>
    intro i hin hfuel hhead
    by_cases hlt : i < n
    · cases hm : Nat.testBit mask i with
      | false =>
        obtain ⟨g1, g2, g3⟩ := validate_loop_gap W mask i hm
        have hnext := ih (i + 1) (by omega) (by omega) (by
          intro _ hf _
          rw [g1] at hf
          cases hf)
        have hc : (!test_bit i mask) = true := by simp [test_bit, hm]
        simp only [convert_runs, hlt, if_true, hc]
        rw [g2, g3] at hnext
        exact hnext
      | true =>
        obtain ⟨s1, s2, s3, s4, s5⟩ := convert_scan_run W mask n i hlt hm
        obtain ⟨d, hd⟩ : ∃ d, convert_scan W mask n i (n - i) i = i + 1 + d :=
          ⟨convert_scan W mask n i (n - i) i - (i + 1), by omega⟩
        have hrun := validate_loop_run W mask i hm (fun hf => hhead hlt hf hm) d
          (fun k hk1 hk2 => s3 k hk1 (by omega)) (fun h => by
            have := s4 h
            omega)
        have hnext := ih (i + 1 + d) (by omega) (by omega) (by
          intro hjn _ hmj
          rcases s5 with h | h | ⟨_, h⟩
          · omega
          · rw [hd, hmj] at h
            cases h
          · omega)
        have hr : convert_runs W mask n (fuel + 1) i
            = (i, convert_scan W mask n i (n - i) i - i)
              :: convert_runs W mask n fuel (convert_scan W mask n i (n - i) i) := by
          simp [convert_runs, hlt, test_bit, hm]
        have hfl : validate_flush W (validate_loop W mask (i + 1 + d))
            = { num_fields := (validate_flush W (validate_loop W mask i)).num_fields + 1
                in_field := true
                fields_size := (validate_flush W (validate_loop W mask i)).fields_size
                  + (1 + d + W.RX_FILTER_FIELD_OVERHEAD)
                pattern_len := 1 + d } := by
          rw [hrun]
          rfl
        rw [hfl] at hnext
        dsimp only at hnext
        rw [hr, hd]
        simp only [List.length_cons, List.map_cons, List.sum_cons]
        obtain ⟨n1, n2⟩ := hnext
        constructor
        · rw [n1]
          omega
        · rw [n2]
          omega
    · have hi : i = n := by omega
      subst hi
      simp [convert_runs, hlt]

/-- The conversion stores one field per run: when every allocation succeeds,
the runs still to come fit in the filter and are shorter than 256 bytes, the
loop ends with 0 and has appended the field of every run. -/
theorem convert_loop_runs (W : WowConsts) (mask : Nat) (p : PktPattern)
    (alloc_ok : Nat → Bool) (halloc : ∀ k, alloc_ok k = true) :
    ∀ fuel i fields, p.pattern_len - i ≤ fuel →
      fields.length + (convert_runs W mask p.pattern_len fuel i).length
        ≤ W.CC33XX_RX_FILTER_MAX_FIELDS →
      (∀ r ∈ convert_runs W mask p.pattern_len fuel i, r.2 < 256) →
      convert_loop W mask p alloc_ok fuel i fields
        = some (0, fields ++ (convert_runs W mask p.pattern_len fuel i).map
            (field_of_run W p)) := by
  intro fuel
  induction fuel with
  | zero =>
    intro i fields hfuel _ _
    have hi : ¬ i < p.pattern_len := by omega
    simp [convert_loop, convert_runs, hi]
  | succ fuel ih =>
    intro i fields hfuel hcap hlen
    by_cases hlt : i < p.pattern_len
    · cases hm : Nat.testBit mask i with
      | false =>
        have hc : (!test_bit i mask) = true := by simp [test_bit, hm]
        simp only [convert_runs, hlt, if_true, hc] at hcap hlen
        simp only [convert_loop, convert_runs, hlt, if_true, hc]
        exact ih (i + 1) fields (by omega) hcap hlen
      | true =>
        obtain ⟨s1, _, _, _, _⟩ := convert_scan_run W mask p.pattern_len i hlt hm
        have hr : convert_runs W mask p.pattern_len (fuel + 1) i
            = (i, convert_scan W mask p.pattern_len i (p.pattern_len - i) i - i)
              :: convert_runs W mask p.pattern_len fuel
                  (convert_scan W mask p.pattern_len i (p.pattern_len - i) i) := by
          simp [convert_runs, hlt, test_bit, hm]
        rw [hr] at hcap hlen
        rw [hr]
        simp only [List.length_cons] at hcap
        have hl := hlen (i, convert_scan W mask p.pattern_len i (p.pattern_len - i) i - i)
          (List.mem_cons_self _ _)
        have hmod : (convert_scan W mask p.pattern_len i (p.pattern_len - i) i - i) % 256
            = convert_scan W mask p.pattern_len i (p.pattern_len - i) i - i :=
          Nat.mod_eq_of_lt hl
        have hfull : ¬ fields.length = W.CC33XX_RX_FILTER_MAX_FIELDS := by omega
        have hnext := ih (convert_scan W mask p.pattern_len i (p.pattern_len - i) i)
          (fields ++ [field_of_run W p
            (i, convert_scan W mask p.pattern_len i (p.pattern_len - i) i - i)])
          (by omega) (by
            rw [List.length_append]
            simp only [List.length_cons, List.length_nil]
            omega) (fun r hr' => hlen r (List.mem_cons_of_mem _ hr'))
        have hcl : convert_loop W mask p alloc_ok (fuel + 1) i fields
            = convert_loop W mask p alloc_ok fuel
                (convert_scan W mask p.pattern_len i (p.pattern_len - i) i)
                (fields ++ [field_of_run W p
                  (i, convert_scan W mask p.pattern_len i (p.pattern_len - i) i - i)]) := by
          simp [convert_loop, hlt, test_bit, hm, cc33xx_rx_filter_alloc_field, hfull, halloc,
            hmod, field_of_run]
        rw [hcl, hnext]
        simp
    · simp [convert_loop, convert_runs, hlt]

/-- Two maximal runs that share a byte are the same run. -/
theorem field_run_unique (W : WowConsts) (mask n s l s' l' k : Nat)
    (h : is_field_run W mask n s l) (h' : is_field_run W mask n s' l')
    (hk1 : s ≤ k) (hk2 : k < s + l) (hk1' : s' ≤ k) (hk2' : k < s' + l') :
    s = s' ∧ l = l' := by
  have key : ∀ a la b lb, is_field_run W mask n a la → is_field_run W mask n b lb →
      a ≤ k → k < a + la → b ≤ k → k < b + lb → ¬ a < b := by
    intro a la b lb ha hb ka1 ka2 kb1 kb2 hab
    obtain ⟨_, _, am, ac, _, _⟩ := ha
    obtain ⟨_, _, _, _, bl, _⟩ := hb
    have hm1 : Nat.testBit mask (b - 1) = true := am (b - 1) (by omega) (by omega)
    rcases bl with e | e | e
    · omega
    · rw [hm1] at e
      cases e
    · exact ac ⟨by omega, by omega⟩
  have hs : s = s' := by
    have n1 := key s l s' l' h h' hk1 hk2 hk1' hk2'
    have n2 := key s' l' s l h' h hk1' hk2' hk1 hk2
    omega
  subst hs
  have key2 : ∀ la lb, is_field_run W mask n s la → is_field_run W mask n s lb →
      ¬ la < lb := by
    intro la lb ha hb hlt
    obtain ⟨ha0, _, _, _, _, ar⟩ := ha
    obtain ⟨_, hbn, bm, bc, _, _⟩ := hb
    have hm1 : Nat.testBit mask (s + la) = true := bm (s + la) (by omega) (by omega)
    rcases ar with e | e | e
    · omega
    · rw [hm1] at e
      cases e
    · exact bc ⟨by omega, by omega⟩
  have n1 := key2 l l' h h'
  have n2 := key2 l' l h' h
  exact ⟨rfl, by omega⟩

/-- The runs of the conversion are maximal runs of masked bytes split at the
header boundary, and every masked byte from the loop head on lies in one. -/
theorem convert_runs_props (W : WowConsts) (mask n : Nat) :
    ∀ fuel i, i ≤ n → n - i ≤ fuel →
      (i < n → Nat.testBit mask i = true →
        (i = 0 ∨ Nat.testBit mask (i - 1) = false
          ∨ i = W.CC33XX_RX_FILTER_ETH_HEADER_SIZE)) →
      (∀ r ∈ convert_runs W mask n fuel i, is_field_run W mask n r.1 r.2)
      ∧ (∀ k, i ≤ k → k < n → Nat.testBit mask k = true →
          ∃ r ∈ convert_runs W mask n fuel i, r.1 ≤ k ∧ k < r.1 + r.2) := by
  intro fuel
  induction fuel with
  | zero =>
    intro i hin hfuel _
    constructor
    · intro r hr
      simp [convert_runs] at hr
    · intro k hk1 hk2 _
      omega
  | succ fuel ih =>
    intro i hin hfuel hhead
    by_cases hlt : i < n
    · cases hm : Nat.testBit mask i with
      | false =>
        have hr : convert_runs W mask n (fuel + 1) i = convert_runs W mask n fuel (i + 1) := by
          simp [convert_runs, hlt, test_bit, hm]
        rw [hr]
        obtain ⟨a, c⟩ := ih (i + 1) (by omega) (by omega) (by
          intro _ _
          exact Or.inr (Or.inl (by simpa using hm)))
        refine ⟨a, ?_⟩
        intro k hk1 hk2 hmk
        have hki : k ≠ i := by
          intro e
          subst e
          rw [hm] at hmk
          cases hmk
        exact c k (by omega) hk2 hmk
      | true =>
        obtain ⟨s1, s2, s3, s4, s5⟩ := convert_scan_run W mask n i hlt hm
        have hr : convert_runs W mask n (fuel + 1) i
            = (i, convert_scan W mask n i (n - i) i - i)
              :: convert_runs W mask n fuel (convert_scan W mask n i (n - i) i) := by
          simp [convert_runs, hlt, test_bit, hm]
        rw [hr]
        have hj : i + (convert_scan W mask n i (n - i) i - i)
            = convert_scan W mask n i (n - i) i := by omega
        obtain ⟨a, c⟩ := ih (convert_scan W mask n i (n - i) i) s2 (by omega) (by
          intro hjn hmj
          rcases s5 with h | h | ⟨_, h⟩
          · omega
          · rw [hmj] at h
            cases h
          · exact Or.inr (Or.inr h))
        have hrun : is_field_run W mask n i (convert_scan W mask n i (n - i) i - i) := by
          refine ⟨by omega, by omega, ?_, ?_, hhead hlt hm, ?_⟩
          · intro k hk1 hk2
            exact s3 k hk1 (by omega)
          · rintro ⟨h1, h2⟩
            have := s4 h1
            omega
          · rw [hj]
            rcases s5 with h | h | ⟨_, h⟩
            · exact Or.inl h
            · exact Or.inr (Or.inl h)
            · exact Or.inr (Or.inr h)
        constructor
        · intro r hr'
          rcases List.mem_cons.mp hr' with e | e
          · rw [e]
            exact hrun
          · exact a r e
        · intro k hk1 hk2 hmk
          by_cases hkj : k < convert_scan W mask n i (n - i) i
          · exact ⟨_, List.mem_cons_self _ _, hk1, by simpa [hj] using hkj⟩
          · obtain ⟨r, hr', hr1, hr2⟩ := c k (by omega) hk2 hmk
            exact ⟨r, List.mem_cons_of_mem _ hr', hr1, hr2⟩
    · have hr : convert_runs W mask n (fuel + 1) i = [] := by
        simp [convert_runs, hlt]
      rw [hr]
      constructor
      · intro r hr'
        cases hr'
      · intro k hk1 hk2 _
        omega

/-- A term of a list of numbers is at most their sum. -/
theorem le_sum_map_of_mem {α : Type} (f : α → Nat) (l : List α) (x : α) (hx : x ∈ l) :
    f x ≤ (l.map f).sum := by
  induction l with
  | nil => cases hx
  | cons y ys ih =>
    simp only [List.map_cons, List.sum_cons]
    rcases List.mem_cons.mp hx with e | e
    · rw [e]
      omega
    · have := ih e
      omega

/-- Claim C29.  WoWLAN validation agrees with conversion.  Take a pattern with a
mask that `cc33xx_validate_wowlan_pattern` accepts, let every allocation
succeed, and let the size limit leave a field pattern below 256 bytes
(`CC33XX_RX_FILTER_MAX_FIELDS_SIZE < 256 + RX_FILTER_FIELD_OVERHEAD`, as the
`u8` length of a field requires).  Then
`cc33xx_convert_wowlan_pattern_to_rx_filter` returns 0 with a filter whose
fields are those of the runs it visits; their number is the `num_fields` that
validation counted and is at most `CC33XX_RX_FILTER_MAX_FIELDS`; the sum of
their lengths plus overhead is the `fields_size` that validation counted and is
at most `CC33XX_RX_FILTER_MAX_FIELDS_SIZE`.  The runs are exactly the maximal
runs of masked pattern bytes split at `CC33XX_RX_FILTER_ETH_HEADER_SIZE`: every
masked byte lies in exactly one run, every byte of a run is a masked byte of
the pattern, and no run crosses the header boundary. -/
theorem wowlan_validate_convert (W : WowConsts) (p : PktPattern) (mask : Nat)
    (alloc_ok : Nat → Bool)
    (hmask : p.mask = some mask)
    (hval : cc33xx_validate_wowlan_pattern W p = 0)
    (hu8 : W.CC33XX_RX_FILTER_MAX_FIELDS_SIZE < 256 + W.RX_FILTER_FIELD_OVERHEAD)
    (halloc : ∀ k, alloc_ok k = true) :
    cc33xx_convert_wowlan_pattern_to_rx_filter W true alloc_ok p
        = some (0, some
            { action := W.FILTER_SIGNAL
              fields := (convert_runs W mask p.pattern_len p.pattern_len 0).map
                (field_of_run W p) })
    ∧ (convert_runs W mask p.pattern_len p.pattern_len 0).length
        = (validate_count W mask p.pattern_len).num_fields
    ∧ (convert_runs W mask p.pattern_len p.pattern_len 0).length
        ≤ W.CC33XX_RX_FILTER_MAX_FIELDS
    ∧ ((convert_runs W mask p.pattern_len p.pattern_len 0).map
          (fun r => r.2 + W.RX_FILTER_FIELD_OVERHEAD)).sum
        = (validate_count W mask p.pattern_len).fields_size
    ∧ ((convert_runs W mask p.pattern_len p.pattern_len 0).map
          (fun r => r.2 + W.RX_FILTER_FIELD_OVERHEAD)).sum
        ≤ W.CC33XX_RX_FILTER_MAX_FIELDS_SIZE
    ∧ (∀ s l, (s, l) ∈ convert_runs W mask p.pattern_len p.pattern_len 0
        ↔ is_field_run W mask p.pattern_len s l)
    ∧ (∀ k, k < p.pattern_len → Nat.testBit mask k = true →
        ∃! r, r ∈ convert_runs W mask p.pattern_len p.pattern_len 0
          ∧ r.1 ≤ k ∧ k < r.1 + r.2)
    ∧ (∀ r ∈ convert_runs W mask p.pattern_len p.pattern_len 0, ∀ k, r.1 ≤ k →
        k < r.1 + r.2 → k < p.pattern_len ∧ Nat.testBit mask k = true)
    ∧ (∀ r ∈ convert_runs W mask p.pattern_len p.pattern_len 0,
        ¬ (r.1 < W.CC33XX_RX_FILTER_ETH_HEADER_SIZE
          ∧ W.CC33XX_RX_FILTER_ETH_HEADER_SIZE < r.1 + r.2)) := by
  have hlim : (validate_count W mask p.pattern_len).num_fields
        ≤ W.CC33XX_RX_FILTER_MAX_FIELDS
      ∧ (validate_count W mask p.pattern_len).fields_size
        ≤ W.CC33XX_RX_FILTER_MAX_FIELDS_SIZE := by
    simp only [cc33xx_validate_wowlan_pattern, hmask] at hval
    by_cases h1 : (validate_count W mask p.pattern_len).num_fields
        > W.CC33XX_RX_FILTER_MAX_FIELDS
    · rw [if_pos h1] at hval
      simp [EINVAL] at hval
    · rw [if_neg h1] at hval
      by_cases h2 : (validate_count W mask p.pattern_len).fields_size
          > W.CC33XX_RX_FILTER_MAX_FIELDS_SIZE
      · rw [if_pos h2] at hval
        simp [E2BIG] at hval
      · exact ⟨not_lt.mp h1, not_lt.mp h2⟩
  have h0 : validate_flush W (validate_loop W mask 0)
      = { num_fields := 0, in_field := false, fields_size := 0, pattern_len := 0 } := rfl
  obtain ⟨c1, c2⟩ := validate_counts_runs W mask p.pattern_len p.pattern_len 0
    (Nat.zero_le _) (by omega) (by
      intro _ hf _
      cases hf)
  rw [h0] at c1 c2
  simp only [Nat.zero_add] at c1 c2
  have hnum : (convert_runs W mask p.pattern_len p.pattern_len 0).length
      = (validate_count W mask p.pattern_len).num_fields := c1.symm
  have hsize : ((convert_runs W mask p.pattern_len p.pattern_len 0).map
        (fun r => r.2 + W.RX_FILTER_FIELD_OVERHEAD)).sum
      = (validate_count W mask p.pattern_len).fields_size := c2.symm
  obtain ⟨pa, pc⟩ := convert_runs_props W mask p.pattern_len p.pattern_len 0
    (Nat.zero_le _) (by omega) (fun _ _ => Or.inl rfl)
  have hshort : ∀ r ∈ convert_runs W mask p.pattern_len p.pattern_len 0, r.2 < 256 := by
    intro r hr
    have := le_sum_map_of_mem (fun r : Nat × Nat => r.2 + W.RX_FILTER_FIELD_OVERHEAD) _ r hr
    have h2 := hlim.2
    rw [← hsize] at h2
    simp only at this
    omega
  have hconv := convert_loop_runs W mask p alloc_ok halloc p.pattern_len 0 []
    (by omega) (by
      simp only [List.length_nil, Nat.zero_add]
      rw [hnum]
      exact hlim.1) hshort
  refine ⟨?_, hnum, hnum ▸ hlim.1, hsize, hsize ▸ hlim.2, ?_, ?_, ?_, ?_⟩
  · simp only [cc33xx_convert_wowlan_pattern_to_rx_filter, hmask, Option.getD_some, hconv,
      Bool.not_true, Bool.false_eq_true, if_false, ne_eq, not_true_eq_false, List.nil_append]
  · intro s l
    constructor
    · intro h
      exact pa (s, l) h
    · intro h
      obtain ⟨hl0, hln, hm, _, _, _⟩ := h
      obtain ⟨r, hr, hr1, hr2⟩ := pc s (Nat.zero_le _) (by omega) (hm s (le_refl _) (by omega))
      obtain ⟨e1, e2⟩ := field_run_unique W mask p.pattern_len r.1 r.2 s l s (pa r hr)
        ⟨hl0, hln, hm, by assumption, by assumption, by assumption⟩ hr1 hr2 (le_refl _)
        (by omega)
      have e : r = (s, l) := Prod.ext e1 e2
      rw [← e]
      exact hr
  · intro k hk hmk
    obtain ⟨r, hr, hr1, hr2⟩ := pc k (Nat.zero_le _) hk hmk
    refine ⟨r, ⟨hr, hr1, hr2⟩, ?_⟩
    rintro r' ⟨hr', hr1', hr2'⟩
    obtain ⟨e1, e2⟩ := field_run_unique W mask p.pattern_len r'.1 r'.2 r.1 r.2 k (pa r' hr')
      (pa r hr) hr1' hr2' hr1 hr2
    exact Prod.ext e1 e2
  · intro r hr k hk1 hk2
    obtain ⟨_, hln, hm, _, _, _⟩ := pa r hr
    exact ⟨by omega, hm k hk1 hk2⟩
  · intro r hr
    exact (pa r hr).2.2.2.1

/-- Claim C29 on the sample pattern (bytes 1 and 3 to 6 masked, header boundary
at offset 4): validation accepts it and counts 3 fields of 14 bytes in all;
the conversion builds the three fields of the runs at 1, at 3, and at 4 to 6. -/
theorem wowlan_validate_convert_witness :
    cc33xx_validate_wowlan_pattern sample_wow_consts sample_pattern = 0
    ∧ (validate_count sample_wow_consts 0b01111010 8).num_fields = 3
    ∧ (validate_count sample_wow_consts 0b01111010 8).fields_size = 14
    ∧ cc33xx_convert_wowlan_pattern_to_rx_filter sample_wow_consts true (fun _ => true)
        sample_pattern
      = some (0, some
          { action := 0
            fields := [{ offset := 1, flags := 1, len := 1, pattern := [0x11] },
                       { offset := 3, flags := 1, len := 1, pattern := [0x13] },
                       { offset := 0, flags := 2, len := 3, pattern := [0x14, 0x15, 0x16] }] }) := by
  have h := wowlan_validate_convert sample_wow_consts sample_pattern 0b01111010
    (fun _ => true) rfl (by decide) (by decide) (fun _ => rfl)
  exact ⟨by decide, h.2.1.symm.trans (by decide), h.2.2.2.1.symm.trans (by decide),
    h.1.trans (by decide)⟩

/-! ## MAC addresses -/

/-- The six bytes of an address. -/
theorem bytes_six (a : List Nat) :
    bytes a 0 ETH_ALEN
      = [byte_at a 0, byte_at a 1, byte_at a 2, byte_at a 3, byte_at a 4, byte_at a 5] := by
  simp [bytes, ETH_ALEN, List.range_succ]

/-- A byte is below 256. -/
theorem byte_at_lt (a : List Nat) (i : Nat) : byte_at a i < 256 := by
  unfold byte_at
  omega

/-- Reading back an address stored from a `u64` gives its low 48 bits. -/
theorem ether_addr_round (u : Nat) :
    ether_addr_to_u64 (u64_to_ether_addr u) = u % 2 ^ 48 := by
  simp only [ether_addr_to_u64, u64_to_ether_addr, byte_at, List.getD_cons_zero,
    List.getD_cons_succ]
  omega

/-- The number of an address given by its six bytes. -/
theorem ether_addr_to_u64_six (x0 x1 x2 x3 x4 x5 : Nat) (h0 : x0 < 256) (h1 : x1 < 256)
    (h2 : x2 < 256) (h3 : x3 < 256) (h4 : x4 < 256) (h5 : x5 < 256) :
    ether_addr_to_u64 [x0, x1, x2, x3, x4, x5]
      = ((((x0 * 256 + x1) * 256 + x2) * 256 + x3) * 256 + x4) * 256 + x5 := by
  simp only [ether_addr_to_u64, byte_at, List.getD_cons_zero, List.getD_cons_succ,
    Nat.mod_eq_of_lt h0, Nat.mod_eq_of_lt h1, Nat.mod_eq_of_lt h2, Nat.mod_eq_of_lt h3,
    Nat.mod_eq_of_lt h4, Nat.mod_eq_of_lt h5]

set_option maxRecDepth 100000 in
/-- Clearing the multicast bit and setting the locally-administered bit of a
byte. -/
theorem laa_byte : ∀ x, x < 256 →
    (x &&& 254) < 256 ∧ ((x &&& 254) ||| 2) < 256
    ∧ (Nat.testBit x 1 = false → (x &&& 254) ||| 2 = (x &&& 254) + 2)
    ∧ (Nat.testBit x 1 = true → (x &&& 254) ||| 2 = x &&& 254) := by
  decide

/-- The source chosen by `cc33xx_derive_mac_addresses` is exactly one of NVS,
eFuse and random, and the base address is six bytes of that source. -/
theorem derive_mac_base_cases (nvs_mac_addr_len : Nat)
    (nvs_mac_addr efuse_mac_address random_bytes : List Nat) :
    derive_mac_base nvs_mac_addr_len nvs_mac_addr efuse_mac_address random_bytes
        = (true, false, false, bytes nvs_mac_addr 0 ETH_ALEN)
    ∨ derive_mac_base nvs_mac_addr_len nvs_mac_addr efuse_mac_address random_bytes
        = (false, true, false, bytes efuse_mac_address 0 ETH_ALEN)
    ∨ derive_mac_base nvs_mac_addr_len nvs_mac_addr efuse_mac_address random_bytes
        = (false, false, true, eth_random_addr random_bytes) := by
  simp only [derive_mac_base]
  by_cases h1 : nvs_mac_addr_len ≠ ETH_ALEN
  · rw [if_pos h1]
    by_cases h2 : (!ether_addr_equal (List.replicate ETH_ALEN 0) efuse_mac_address) = true
    · rw [if_pos h2]
      exact Or.inr (Or.inl rfl)
    · rw [if_neg h2]
      exact Or.inr (Or.inr rfl)
  · rw [if_neg h1]
    by_cases h3 : ether_addr_equal nvs_mac_addr [0x00, 0x00, 0x00, 0x00, 0x00, 0x00] = true
    · rw [if_pos h3]
      exact Or.inr (Or.inl rfl)
    · rw [if_neg h3]
      by_cases h4 : ether_addr_equal nvs_mac_addr [0x00, 0x00, 0x00, 0x00, 0x00, 0x01] = true
      · rw [if_pos h4]
        exact Or.inr (Or.inr rfl)
      · rw [if_neg h4]
        exact Or.inl rfl

/-- The three addresses derived from a fixed (NVS or eFuse) base address
`x0:..:x5`: the third differs from the first two, and the first two differ
exactly when the locally-administered bit of `x0` is clear. -/
theorem fixed_base_addresses (x0 x1 x2 x3 x4 x5 : Nat) (h0 : x0 < 256) (h1 : x1 < 256)
    (h2 : x2 < 256) (h3 : x3 < 256) (h4 : x4 < 256) (h5 : x5 < 256) :
    [x0 &&& 254, x1, x2, x3, x4, x5]
        ≠ eth_addr_inc [(x0 &&& 254) ||| 2, x1, x2, x3, x4, x5]
    ∧ [(x0 &&& 254) ||| 2, x1, x2, x3, x4, x5]
        ≠ eth_addr_inc [(x0 &&& 254) ||| 2, x1, x2, x3, x4, x5]
    ∧ (Nat.testBit x0 1 = false →
        [x0 &&& 254, x1, x2, x3, x4, x5] ≠ [(x0 &&& 254) ||| 2, x1, x2, x3, x4, x5])
    ∧ (Nat.testBit x0 1 = true →
        [x0 &&& 254, x1, x2, x3, x4, x5] = [(x0 &&& 254) ||| 2, x1, x2, x3, x4, x5]) := by
  obtain ⟨c1, c2, c3, c4⟩ := laa_byte x0 h0
  have e0 := ether_addr_to_u64_six (x0 &&& 254) x1 x2 x3 x4 x5 c1 h1 h2 h3 h4 h5
  have e1 := ether_addr_to_u64_six ((x0 &&& 254) ||| 2) x1 x2 x3 x4 x5 c2 h1 h2 h3 h4 h5
  have e2 : ether_addr_to_u64 (eth_addr_inc [(x0 &&& 254) ||| 2, x1, x2, x3, x4, x5])
      = ((ether_addr_to_u64 [(x0 &&& 254) ||| 2, x1, x2, x3, x4, x5] + 1) % 2 ^ 64)
          % 2 ^ 48 := by
    rw [eth_addr_inc, ether_addr_round]
  refine ⟨?_, ?_, ?_, ?_⟩
  · intro h
    have hh := congrArg ether_addr_to_u64 h
    rw [e2, e1, e0] at hh
    cases hb : Nat.testBit x0 1 with
    | false =>
      have := c3 hb
      omega
    | true =>
      have := c4 hb
      omega
  · intro h
    have hh := congrArg ether_addr_to_u64 h
    rw [e2, e1] at hh
    omega
  · intro hb h
    have hh := congrArg ether_addr_to_u64 h
    rw [e1, e0] at hh
    have := c3 hb
    omega
  · intro hb
    rw [c4 hb]

/-- The three addresses derived from a random base address are pairwise
different. -/
theorem random_base_addresses (x0 x1 x2 x3 x4 x5 : Nat) (h0 : x0 < 256) (h1 : x1 < 256)
    (h2 : x2 < 256) (h3 : x3 < 256) (h4 : x4 < 256) (h5 : x5 < 256) :
    [x0, x1, x2, x3, x4, x5] ≠ eth_addr_inc (eth_addr_inc [x0, x1, x2, x3, x4, x5])
    ∧ [x0, x1, x2, x3, x4, x5]
        ≠ eth_addr_inc (eth_addr_inc (eth_addr_inc [x0, x1, x2, x3, x4, x5]))
    ∧ eth_addr_inc (eth_addr_inc [x0, x1, x2, x3, x4, x5])
        ≠ eth_addr_inc (eth_addr_inc (eth_addr_inc [x0, x1, x2, x3, x4, x5])) := by
  have e0 := ether_addr_to_u64_six x0 x1 x2 x3 x4 x5 h0 h1 h2 h3 h4 h5
  have einc : ∀ a, ether_addr_to_u64 (eth_addr_inc a)
      = ((ether_addr_to_u64 a + 1) % 2 ^ 64) % 2 ^ 48 := by
    intro a
    rw [eth_addr_inc, ether_addr_round]
  refine ⟨?_, ?_, ?_⟩
  · intro h
    have hh := congrArg ether_addr_to_u64 h
    rw [einc, einc, e0] at hh
    omega
  · intro h
    have hh := congrArg ether_addr_to_u64 h
    rw [einc, einc, einc, e0] at hh
    omega
  · intro h
    have hh := congrArg ether_addr_to_u64 h
    rw [einc (eth_addr_inc (eth_addr_inc _)), einc (eth_addr_inc _), einc, e0] at hh
    omega

/-- The addresses that `cc33xx_derive_mac_addresses` computes from a fixed base
address `x0:..:x5` before the increment. -/
theorem fixed_base_shape (x0 x1 x2 x3 x4 x5 : Nat) (h0 : x0 < 256) :
    set_addr0 [x0, x1, x2, x3, x4, x5] (byte_at [x0, x1, x2, x3, x4, x5] 0 &&& (255 - 1))
        = [x0 &&& 254, x1, x2, x3, x4, x5]
    ∧ set_addr0 [x0 &&& 254, x1, x2, x3, x4, x5]
          (byte_at [x0 &&& 254, x1, x2, x3, x4, x5] 0 ||| 2)
        = [(x0 &&& 254) ||| 2, x1, x2, x3, x4, x5] := by
  obtain ⟨c1, c2, _, _⟩ := laa_byte x0 h0
  constructor
  · simp [set_addr0, mem_write, byte_at, Nat.mod_eq_of_lt h0, Nat.mod_eq_of_lt c1]
  · simp [set_addr0, mem_write, byte_at, Nat.mod_eq_of_lt c1, Nat.mod_eq_of_lt c2]

/-- Claim C30, as stated, fails: for the NVS address 02:00:00:00:00:05, whose
locally-administered bit is already set, `cc->addresses[0]` and
`cc->addresses[1]` are the same address. -/
theorem derived_mac_addresses_counterexample :
    (cc33xx_derive_mac_addresses 6 [0x02, 0, 0, 0, 0, 5] [0, 0, 0, 0, 0, 0]
        [1, 2, 3, 4, 5, 6] []).1
      = [[0x02, 0, 0, 0, 0, 5], [0x02, 0, 0, 0, 0, 5], [0x02, 0, 0, 0, 0, 6]] := by
  decide

/-- Claim C30, amended.  `cc33xx_derive_mac_addresses` always produces three
addresses of which the third differs from the first and from the second
(address arithmetic modulo `2 ^ 48`).  The first and the second differ for
every random base address and for every base address from NVS or eFuse whose
locally-administered bit (bit 1 of the first byte) is clear; for a base address
from NVS or eFuse with that bit set they are equal. -/
theorem derived_mac_addresses (nvs_mac_addr_len : Nat)
    (nvs_mac_addr efuse_mac_address random_bytes : List Nat) (addresses : List (List Nat)) :
    ∃ a0 a1 a2,
      (cc33xx_derive_mac_addresses nvs_mac_addr_len nvs_mac_addr efuse_mac_address
          random_bytes addresses).1 = [a0, a1, a2]
      ∧ a0 ≠ a2 ∧ a1 ≠ a2
      ∧ (((derive_mac_base nvs_mac_addr_len nvs_mac_addr efuse_mac_address
              random_bytes).2.2.1 = true
          ∨ Nat.testBit (byte_at (derive_mac_base nvs_mac_addr_len nvs_mac_addr
              efuse_mac_address random_bytes).2.2.2 0) 1 = false) → a0 ≠ a1)
      ∧ ((derive_mac_base nvs_mac_addr_len nvs_mac_addr efuse_mac_address
              random_bytes).2.2.1 = false →
          Nat.testBit (byte_at (derive_mac_base nvs_mac_addr_len nvs_mac_addr
              efuse_mac_address random_bytes).2.2.2 0) 1 = true → a0 = a1) := by
  have hfixed : ∀ (X : List Nat) (n e : Bool), (n = true ∨ e = true) →
      derive_mac_base nvs_mac_addr_len nvs_mac_addr efuse_mac_address random_bytes
        = (n, e, false, bytes X 0 ETH_ALEN) →
      ∃ a0 a1 a2,
        (cc33xx_derive_mac_addresses nvs_mac_addr_len nvs_mac_addr efuse_mac_address
            random_bytes addresses).1 = [a0, a1, a2]
        ∧ a0 ≠ a2 ∧ a1 ≠ a2
        ∧ ((false = true ∨ Nat.testBit (byte_at (bytes X 0 ETH_ALEN) 0) 1 = false) → a0 ≠ a1)
        ∧ (Nat.testBit (byte_at (bytes X 0 ETH_ALEN) 0) 1 = true → a0 = a1) := by
    intro X n e hne hsel
    have hx0 := byte_at_lt X 0
    obtain ⟨s1, s2⟩ := fixed_base_shape (byte_at X 0) (byte_at X 1) (byte_at X 2)
      (byte_at X 3) (byte_at X 4) (byte_at X 5) hx0
    obtain ⟨f1, f2, f3, f4⟩ := fixed_base_addresses (byte_at X 0) (byte_at X 1) (byte_at X 2)
      (byte_at X 3) (byte_at X 4) (byte_at X 5) hx0 (byte_at_lt X 1) (byte_at_lt X 2)
      (byte_at_lt X 3) (byte_at_lt X 4) (byte_at_lt X 5)
    have hb0 : byte_at (bytes X 0 ETH_ALEN) 0 = byte_at X 0 := by
      rw [bytes_six]
      simp [byte_at]
    refine ⟨_, _, _, ?_, f1, f2, ?_, ?_⟩
    · simp only [cc33xx_derive_mac_addresses, hsel, hne, if_true, bytes_six, s1, s2]
    · rintro (h | h)
      · cases h
      · rw [hb0] at h
        exact f3 h
    · intro h
      rw [hb0] at h
      exact f4 h
  rcases derive_mac_base_cases nvs_mac_addr_len nvs_mac_addr efuse_mac_address random_bytes
    with h | h | h
  · obtain ⟨a0, a1, a2, r1, r2, r3, r4, r5⟩ := hfixed nvs_mac_addr true false (Or.inl rfl) h
    refine ⟨a0, a1, a2, r1, r2, r3, ?_, ?_⟩
    · rw [h]
      exact r4
    · rw [h]
      exact fun _ => r5
  · obtain ⟨a0, a1, a2, r1, r2, r3, r4, r5⟩ :=
      hfixed efuse_mac_address false true (Or.inr rfl) h
    refine ⟨a0, a1, a2, r1, r2, r3, ?_, ?_⟩
    · rw [h]
      exact r4
    · rw [h]
      exact fun _ => r5
  · obtain ⟨_, c2, _, _⟩ := laa_byte (byte_at random_bytes 0) (byte_at_lt random_bytes 0)
    have hr : eth_random_addr random_bytes
        = [(byte_at random_bytes 0 &&& 254) ||| 2, byte_at random_bytes 1,
            byte_at random_bytes 2, byte_at random_bytes 3, byte_at random_bytes 4,
            byte_at random_bytes 5] := by
      rw [eth_random_addr, bytes_six]
      simp [mem_write]
    obtain ⟨g1, g2, g3⟩ := random_base_addresses ((byte_at random_bytes 0 &&& 254) ||| 2)
      (byte_at random_bytes 1) (byte_at random_bytes 2) (byte_at random_bytes 3)
      (byte_at random_bytes 4) (byte_at random_bytes 5) c2 (byte_at_lt random_bytes 1)
      (byte_at_lt random_bytes 2) (byte_at_lt random_bytes 3) (byte_at_lt random_bytes 4)
      (byte_at_lt random_bytes 5)
    refine ⟨_, _, _, ?_, g2, g3, fun _ => g1, ?_⟩
    · simp only [cc33xx_derive_mac_addresses, h, Bool.false_eq_true, or_self, if_false,
        if_true, hr]
    · rw [h]
      intro hf
      cases hf

/-- The amended C30 on the NVS address 0c:00:ff:ff:ff:ff, whose
locally-administered bit is clear: the three addresses are 0c:00:ff:ff:ff:ff,
0e:00:ff:ff:ff:ff and 0e:01:00:00:00:00, pairwise different. -/
theorem derived_mac_addresses_witness :
    ∃ a0 a1 a2,
      (cc33xx_derive_mac_addresses 6 [0x0c, 0, 0xff, 0xff, 0xff, 0xff] [0, 0, 0, 0, 0, 0]
          [1, 2, 3, 4, 5, 6] []).1 = [a0, a1, a2]
      ∧ a0 ≠ a2 ∧ a1 ≠ a2 ∧ a0 ≠ a1 := by
  obtain ⟨a0, a1, a2, h1, h2, h3, h4, _⟩ := derived_mac_addresses 6
    [0x0c, 0, 0xff, 0xff, 0xff, 0xff] [0, 0, 0, 0, 0, 0] [1, 2, 3, 4, 5, 6] []
  exact ⟨a0, a1, a2, h1, h2, h3, h4 (Or.inr (by decide))⟩

end CC33xx
